import Mathlib

/-!
# REBOUNDx core: effect registry, split scheduler and typed parameter store

A shallow embedding of `src/core.c`, and of the two effects
`src/modify_orbits_direct.c` and `src/stellar_evo.c`.  C structures become Lean structures, the
heap becomes an explicit list of cells addressed by position, and every C
function becomes a function that takes the state of the program (`World`) and
returns its result together with the new state.

Conventions.
* A pointer is `Option Addr`; `none` is `NULL`.
* A C `double` is a rational number (`1./2.` is exactly one half).
  A quotient by 0 is 0 there; `rebx_modified_orbit_double` keeps the quotient
  by a timescale that is 0 apart, as a value that is no finite number.
* `malloc` may fail: its outcomes are read from `World.oracle`.
* A point at which C leaves the behaviour undefined (reading or freeing a
  block that is already freed, writing past the end of a stack buffer, reading
  or calling through a null pointer) is recorded in `World.faults`; the state
  returned after it is the nominal continuation, in which a freed block still
  holds its last contents.
* There is one host simulation and one context: `sim->extras` and `rebx->sim`
  refer to them.
* The functions that effects carry (`update_accelerations`, `step`) are not part
  of `core.c`.  A call of one is recorded, with its arguments, in the `calls`
  of the host, and leaves the rest of the state as it is.
* The functions the two effects call that are not among the sources (the
  conversions and `reb_move_to_com` of the host, the parameter access
  functions they use, the spline routines) are parameters of their embeddings:
  what is proved of an effect holds for every such function.
-/

namespace Reboundx

/-! ## Host simulation (`rebound.h`, the external integrator) -/

/-- An address of a heap block: its position in `World.heap`. -/
abbrev Addr := Nat

/-- Integrator kinds of the host, `enum` of `rebound.h`. -/
inductive reb_integrator where
  | REB_INTEGRATOR_IAS15
  | REB_INTEGRATOR_WHFAST
  | REB_INTEGRATOR_SEI
  | REB_INTEGRATOR_LEAPFROG
  | REB_INTEGRATOR_NONE
  | REB_INTEGRATOR_JANUS
  | REB_INTEGRATOR_MERCURIUS
  deriving DecidableEq, Repr

/-- Severity of a message handed to the host by `reb_error` or `reb_warning`. -/
inductive reb_message_kind where
  | error
  | warning
  deriving DecidableEq, Repr

/-- One message received by the host. -/
structure reb_message where
  kind : reb_message_kind
  text : String
  deriving DecidableEq, Repr

/-- A function that can sit in one of the three callback slots of the host. -/
inductive reb_callback where
  | rebx_additional_forces
  | rebx_pre_timestep_modifications
  | rebx_post_timestep_modifications
  | user (id : Nat)
  deriving DecidableEq, Repr

/-- Functions a force can carry in `update_accelerations`. -/
inductive rebx_force_fn where
  | rebx_gr
  | user (id : Nat)
  deriving DecidableEq, Repr

/-- Functions an operator can carry in `step`. -/
inductive rebx_step_fn where
  | rebx_kepler_step
  | rebx_jump_step
  | rebx_interaction_step
  | rebx_ias15_step
  | user (id : Nat)
  deriving DecidableEq, Repr

/-- A call of a capability of an effect.  The bodies of the capabilities belong
to the effects and are outside `core.c`: a call is recorded with its arguments.
`update_accelerations fn force particles N` is `fn(sim, force, particles, N)`,
`step fn operator dt` is `fn(sim, operator, dt)`. -/
inductive reb_call where
  | update_accelerations (fn : rebx_force_fn) (force : Addr) (particles : Option Addr) (N : Int)
  | step (fn : rebx_step_fn) (operator : Addr) (dt : ℚ)
  deriving DecidableEq, Repr

/-- The fields of `struct reb_simulation` that `core.c` reads or writes.
`extras` records that `sim->extras` points to the context, `particles` is the
pointer to the particle array, `messages` and `calls` record what the host has
received: the messages of `reb_error` and `reb_warning`, and the calls of
capabilities made on it.  `G` is the gravitational constant, read by
`modify_orbits_direct.c`. -/
structure reb_simulation where
  integrator : reb_integrator := .REB_INTEGRATOR_IAS15
  ri_ias15_epsilon : ℚ := 0
  force_is_velocity_dependent : Int := 0
  t : ℚ := 0
  dt : ℚ := 0
  dt_last_done : ℚ := 0
  N : Int := 0
  N_var : Int := 0
  additional_forces : Option reb_callback := none
  pre_timestep_modifications : Option reb_callback := none
  post_timestep_modifications : Option reb_callback := none
  extras : Bool := false
  messages : List reb_message := []
  particles : Option Addr := none
  calls : List reb_call := []
  G : ℚ := 0
  deriving DecidableEq, Repr

/-! ## Data model of REBOUNDx (`reboundx.h`, `core.h`, `linkedlist.h`) -/

/-- Kind tag of a list node. -/
inductive rebx_node_type where
  | REBX_NODE_FORCE
  | REBX_NODE_STEP
  | REBX_NODE_PARAM
  deriving DecidableEq, Repr

/-- A list node: kind tag and the object it carries.  The `next` link is the
order of the Lean list that holds the node. -/
structure rebx_node where
  type : rebx_node_type
  object : Option Addr
  deriving DecidableEq, Repr

/-- Type tag of a force. -/
inductive rebx_force_type where
  | REBX_FORCE_POS
  | REBX_FORCE_VEL
  deriving DecidableEq, Repr

/-- Type tag of an operator. -/
inductive rebx_operator_type where
  | REBX_OPERATOR_UPDATER
  | REBX_OPERATOR_RECORDER
  deriving DecidableEq, Repr

/-- Type tag of a parameter: the six tags `rebx_alloc_param_value` switches
on, and any other enumerator value (the `default` case of that switch). -/
inductive rebx_param_type where
  | REBX_TYPE_DOUBLE
  | REBX_TYPE_INT
  | REBX_TYPE_UINT32
  | REBX_TYPE_ORBIT
  | REBX_TYPE_LONGLONG
  | REBX_TYPE_POINTER
  | REBX_TYPE_OTHER (code : Int)
  deriving DecidableEq, Repr

/-- Integration scheme selector of the context. -/
inductive rebx_integrator where
  | REBX_INTEGRATOR_IMPLICIT_MIDPOINT
  | REBX_INTEGRATOR_RK2
  | REBX_INTEGRATOR_RK4
  | REBX_INTEGRATOR_EULER
  | REBX_INTEGRATOR_NONE
  deriving DecidableEq, Repr

/-- The orbital elements of `struct reb_orbit` used by the effects. -/
structure reb_orbit where
  a : ℚ := 0
  e : ℚ := 0
  inc : ℚ := 0
  Omega : ℚ := 0
  omega : ℚ := 0
  f : ℚ := 0
  deriving DecidableEq, Repr

/-- Contents of a parameter value buffer. -/
inductive rebx_value where
  | double (x : ℚ)
  | int (i : Int)
  | uint32 (n : Nat)
  | orbit (o : reb_orbit)
  | longlong (i : Int)
  | pointer (p : Option Addr)
  deriving DecidableEq, Repr

/-- Fields of `struct rebx_force`; a field that was never assigned is `none`
(`ap`: the empty list). -/
structure rebx_force where
  name : Option Addr := none
  ap : List rebx_node := []
  rebx : Bool := false
  force_type : Option rebx_force_type := none
  update_accelerations : Option rebx_force_fn := none
  deriving DecidableEq, Repr

/-- Fields of `struct rebx_operator`. -/
structure rebx_operator where
  name : Option Addr := none
  ap : List rebx_node := []
  rebx : Bool := false
  operator_type : Option rebx_operator_type := none
  step : Option rebx_step_fn := none
  deriving DecidableEq, Repr

/-- Fields of `struct rebx_step`: an operator and the fraction of the timestep
it is run for. -/
structure rebx_step where
  operator : Option Addr := none
  dt_fraction : Option ℚ := none
  deriving DecidableEq, Repr

/-- Fields of `struct rebx_param`. -/
structure rebx_param where
  name : Option Addr := none
  param_type : Option rebx_param_type := none
  python_type : Option Int := none
  value : Option Addr := none
  deriving DecidableEq, Repr

/-- Fields of `struct rebx_extras`, the context. -/
structure rebx_extras where
  sim : Bool := false
  forces : List rebx_node := []
  pre_timestep_operators : List rebx_node := []
  post_timestep_operators : List rebx_node := []
  integrator : rebx_integrator := .REBX_INTEGRATOR_NONE
  deriving DecidableEq, Repr

/-! ## Memory -/

/-- What a heap block holds. `raw` is a block nothing was written to yet. -/
inductive Block where
  | raw
  | chars (s : String)
  | value (v : rebx_value)
  | force (f : rebx_force)
  | operator (o : rebx_operator)
  | step (s : rebx_step)
  | param (p : rebx_param)
  deriving DecidableEq, Repr

/-- A heap cell: `live` is cleared by `free`, the contents stay. -/
structure Cell where
  live : Bool
  block : Block
  deriving DecidableEq, Repr

/-- A point of undefined behaviour. -/
inductive Fault where
  | use_after_free (a : Addr)
  | double_free (a : Addr)
  | wild_pointer (a : Addr)
  | buffer_overrun (capacity : Nat) (needed : Nat)
  | null_pointer
  | uninitialised (a : Addr)
  deriving DecidableEq, Repr

/-- The state of the program: the host, the context bound to it, the heap, the
outcomes of the coming `malloc` calls (`true`: the call succeeds; once the list
is used up every call succeeds) and the faults so far. -/
structure World where
  sim : reb_simulation := {}
  rebx : rebx_extras := {}
  heap : List Cell := []
  oracle : List Bool := []
  faults : List Fault := []
  deriving DecidableEq, Repr

/-- Record a point of undefined behaviour. -/
def World.fault (w : World) (f : Fault) : World :=
  { w with faults := w.faults ++ [f] }

/-- Host function `reb_error(sim, msg)`: the host receives an error message. -/
def reb_error (w : World) (msg : String) : World :=
  { w with sim := { w.sim with messages := w.sim.messages ++ [⟨.error, msg⟩] } }

/-- Host function `reb_warning(sim, msg)`: the host receives a warning. -/
def reb_warning (w : World) (msg : String) : World :=
  { w with sim := { w.sim with messages := w.sim.messages ++ [⟨.warning, msg⟩] } }

/-- Library function `malloc`: the oracle decides whether the call succeeds; a
successful call adds one live block at the end of the heap. -/
def malloc (w : World) (_memsize : Nat) : Option Addr × World :=
  if w.oracle.headD true then
    (some w.heap.length,
      { w with oracle := w.oracle.tail, heap := w.heap ++ [⟨true, .raw⟩] })
  else
    (none, { w with oracle := w.oracle.tail })

/-- Library function `free`: `free(NULL)` does nothing; a live block dies;
anything else is a fault. -/
def free (w : World) (ptr : Option Addr) : World :=
  match ptr with
  | none => w
  | some a =>
    match w.heap[a]? with
    | none => w.fault (.wild_pointer a)
    | some c =>
      if c.live then { w with heap := w.heap.set a { c with live := false } }
      else w.fault (.double_free a)

/-- Read the block a pointer refers to. -/
def load (w : World) (a : Addr) : Option Block × World :=
  match w.heap[a]? with
  | none => (none, w.fault (.wild_pointer a))
  | some c => (some c.block, if c.live then w else w.fault (.use_after_free a))

/-- Write through a pointer: the block at `a` becomes `f` of what it was. -/
def store (w : World) (a : Addr) (f : Block → Block) : World :=
  match w.heap[a]? with
  | none => w.fault (.wild_pointer a)
  | some c =>
    let w1 := if c.live then w else w.fault (.use_after_free a)
    { w1 with heap := w1.heap.set a { c with block := f c.block } }

/-- View of a block as a `struct rebx_force`; a raw block has no field set. -/
def Block.as_force : Block → rebx_force
  | .force f => f
  | _ => {}

/-- View of a block as a `struct rebx_operator`. -/
def Block.as_operator : Block → rebx_operator
  | .operator o => o
  | _ => {}

/-- View of a block as a `struct rebx_step`. -/
def Block.as_step : Block → rebx_step
  | .step s => s
  | _ => {}

/-- View of a block as a `struct rebx_param`. -/
def Block.as_param : Block → rebx_param
  | .param p => p
  | _ => {}

/-- Assignment to fields of the force at `a`. -/
def store_force (w : World) (a : Addr) (f : rebx_force → rebx_force) : World :=
  store w a (fun b => .force (f b.as_force))

/-- Assignment to fields of the operator at `a`. -/
def store_operator (w : World) (a : Addr) (f : rebx_operator → rebx_operator) : World :=
  store w a (fun b => .operator (f b.as_operator))

/-- Assignment to fields of the step at `a`. -/
def store_step (w : World) (a : Addr) (f : rebx_step → rebx_step) : World :=
  store w a (fun b => .step (f b.as_step))

/-- Assignment to fields of the parameter at `a`. -/
def store_param (w : World) (a : Addr) (f : rebx_param → rebx_param) : World :=
  store w a (fun b => .param (f b.as_param))

/-- Library function `strcpy(dst, src)` into a heap buffer. -/
def strcpy (w : World) (dst : Addr) (src : String) : World :=
  store w dst (fun _ => .chars src)

/-- Library function `strlen`: the number of bytes of the string. -/
def strlen (s : String) : Nat := s.utf8ByteSize

/-- Library function `sprintf(str, ...)` into a stack buffer `char str[capacity]`:
`text` is the formatted message; it needs `strlen text + 1` bytes. -/
def sprintf (w : World) (capacity : Nat) (text : String) : String × World :=
  if strlen text + 1 ≤ capacity then (text, w)
  else (text, w.fault (.buffer_overrun capacity (strlen text + 1)))

/-- Read the `struct rebx_operator` at `a`; a block that holds something else
is a fault and reads as a structure with no field set. -/
def load_operator (w : World) (a : Addr) : rebx_operator × World :=
  match load w a with
  | (some (.operator o), w1) => (o, w1)
  | (some _, w1) => ({}, w1.fault (.wild_pointer a))
  | (none, w1) => ({}, w1)

/-- Read the `struct rebx_force` at `a`. -/
def load_force (w : World) (a : Addr) : rebx_force × World :=
  match load w a with
  | (some (.force f), w1) => (f, w1)
  | (some _, w1) => ({}, w1.fault (.wild_pointer a))
  | (none, w1) => ({}, w1)

/-- Read the `struct rebx_param` at `a`. -/
def load_param (w : World) (a : Addr) : rebx_param × World :=
  match load w a with
  | (some (.param p), w1) => (p, w1)
  | (some _, w1) => ({}, w1.fault (.wild_pointer a))
  | (none, w1) => ({}, w1)

/-- Read the `struct rebx_step` at `a`. -/
def load_step (w : World) (a : Addr) : rebx_step × World :=
  match load w a with
  | (some (.step s), w1) => (s, w1)
  | (some _, w1) => ({}, w1.fault (.wild_pointer a))
  | (none, w1) => ({}, w1)

/-- Read the C string a `char*` points to. -/
def load_chars (w : World) (ptr : Option Addr) : String × World :=
  match ptr with
  | none => ("", w)
  | some a =>
    match load w a with
    | (some (.chars s), w1) => (s, w1)
    | (some _, w1) => ("", w1.fault (.wild_pointer a))
    | (none, w1) => ("", w1)

/-- Sizes of the structures (LP64); the sources only need them to be positive. -/
def sizeof_rebx_force : Nat := 40

/-- Size of `struct rebx_operator`. -/
def sizeof_rebx_operator : Nat := 40

/-- Size of `struct rebx_step`. -/
def sizeof_rebx_step : Nat := 16

/-- Size of `struct rebx_param`. -/
def sizeof_rebx_param : Nat := 24

/-- Size of `struct rebx_node`. -/
def sizeof_rebx_node : Nat := 24

/-- Size of `struct reb_orbit`. -/
def sizeof_reb_orbit : Nat := 152

/-! ## `core.c` -/

/-- Source `rebx_malloc` (core.c 627-634). -/
def rebx_malloc (w : World) (memsize : Nat) : Option Addr × World :=
  match malloc w memsize with
  | (none, w1) =>
    if memsize > 0 then
      (none, reb_error w1 "REBOUNDx Error: Could not allocate memory.\n")
    else (none, w1)
  | (some ptr, w1) => (some ptr, w1)

/-- Modelled from the spec: `rebx_attach_node` of `linkedlist.c` is not among
the sources.  The spec has a list keep registration order with new entries
appended, and has linking fail when the allocation of the node fails.  The call
sites pass the list head and the kind tag only, and assign `node->object`
afterwards: the new node is the last of the list, carries the tag and no
object, and is returned as its position in the list. -/
def rebx_attach_node (w : World) (head : List rebx_node) (node_type : rebx_node_type) :
    Option Nat × List rebx_node × World :=
  match rebx_malloc w sizeof_rebx_node with
  | (none, w1) => (none, head, w1)
  | (some _, w1) => (some head.length, head ++ [{ type := node_type, object := none }], w1)

/-- The assignment `node->object = object` on the node at position `node`. -/
def set_object (head : List rebx_node) (node : Nat) (object : Option Addr) : List rebx_node :=
  match head[node]? with
  | none => head
  | some nd => head.set node { nd with object := object }

/-- The three list heads of the context, as `&rebx->forces` and so on. -/
inductive rebx_head where
  | forces
  | pre_timestep_operators
  | post_timestep_operators
  deriving DecidableEq, Repr

/-- Read `*head`. -/
def rebx_head.get (r : rebx_extras) : rebx_head → List rebx_node
  | .forces => r.forces
  | .pre_timestep_operators => r.pre_timestep_operators
  | .post_timestep_operators => r.post_timestep_operators

/-- Write `*head`. -/
def rebx_head.set (r : rebx_extras) (h : rebx_head) (l : List rebx_node) : rebx_extras :=
  match h with
  | .forces => { r with forces := l }
  | .pre_timestep_operators => { r with pre_timestep_operators := l }
  | .post_timestep_operators => { r with post_timestep_operators := l }

/-- Source `rebx_add_operator_manual` (core.c 337-354). -/
def rebx_add_operator_manual (w : World) (operator : Addr) (head : rebx_head)
    (dt_fraction : ℚ) : Int × World :=
  match rebx_malloc w sizeof_rebx_step with
  | (none, w1) => (0, w1)
  | (some step, w1) =>
    let w2 := store_step w1 step (fun s => { s with operator := some operator })
    let w3 := store_step w2 step (fun s => { s with dt_fraction := some dt_fraction })
    match rebx_attach_node w3 (head.get w3.rebx) .REBX_NODE_STEP with
    | (none, l, w4) =>
      let w5 := { w4 with rebx := head.set w4.rebx l }
      (0, free w5 (some step))
    | (some node, l, w4) =>
      (1, { w4 with rebx := head.set w4.rebx (set_object l node (some step)) })

/-- Source `rebx_add_operator` (core.c 356-394). -/
def rebx_add_operator (w : World) (operator : Option Addr) : Int × World :=
  match operator with
  | none => (0, w)
  | some op =>
    match load_operator w op with
    | (o, w0) =>
      if o.operator_type = some .REBX_OPERATOR_RECORDER then
        rebx_add_operator_manual w0 op .post_timestep_operators 1
      else
        match w0.sim.integrator with
        | .REB_INTEGRATOR_IAS15 =>
          rebx_add_operator_manual w0 op .post_timestep_operators 1
        | .REB_INTEGRATOR_WHFAST =>
          match rebx_add_operator_manual w0 op .pre_timestep_operators (1 / 2) with
          | (success1, w1) =>
            match rebx_add_operator_manual w1 op .post_timestep_operators (1 / 2) with
            | (success2, w2) => (if success1 ≠ 0 ∧ success2 ≠ 0 then 1 else 0, w2)
        | .REB_INTEGRATOR_MERCURIUS =>
          if o.operator_type = some .REBX_OPERATOR_UPDATER then
            (0, reb_error w0
              "REBOUNDx Error: Operators that change particle states are not supported with Mercurius.\n")
          else (0, w0)
        | _ => (0, w0)

/-- Source `rebx_create_force` (core.c 200-261). -/
def rebx_create_force (w : World) (name : String) : Option Addr × World :=
  match rebx_malloc w sizeof_rebx_force with
  | (none, w1) => (none, w1)
  | (some force, w1) =>
    let w2 := store_force w1 force (fun f => { f with ap := [] })
    let w3 := store_force w2 force (fun f => { f with rebx := true })
    match rebx_malloc w3 (strlen name + 1) with
    | (none, w4) =>
      let w5 := store_force w4 force (fun f => { f with name := none })
      (none, free w5 (some force))
    | (some buf, w4) =>
      let w5 := store_force w4 force (fun f => { f with name := some buf })
      let w6 := strcpy w5 buf name
      if name = "gr" then
        let w7 := store_force w6 force (fun f => { f with update_accelerations := some .rebx_gr })
        let w8 := store_force w7 force (fun f => { f with force_type := some .REBX_FORCE_VEL })
        (some force, w8)
      else
        let w7 := free w6 (some force)
        match sprintf w7 100
          ("REBOUNDx error: Force '" ++ name ++ "' not found in rebx_create_force.\n") with
        | (str, w8) => (none, reb_error w8 str)

/-- Source `rebx_create_operator` (core.c 263-316). -/
def rebx_create_operator (w : World) (name : String) : Option Addr × World :=
  match rebx_malloc w sizeof_rebx_operator with
  | (none, w1) => (none, w1)
  | (some operator, w1) =>
    let w2 := store_operator w1 operator (fun o => { o with ap := [] })
    let w3 := store_operator w2 operator (fun o => { o with rebx := true })
    match rebx_malloc w3 (strlen name + 1) with
    | (none, w4) =>
      let w5 := store_operator w4 operator (fun o => { o with name := none })
      (none, free w5 (some operator))
    | (some buf, w4) =>
      let w5 := store_operator w4 operator (fun o => { o with name := some buf })
      let w6 := strcpy w5 buf name
      if name = "kepler" then
        let w7 := store_operator w6 operator (fun o => { o with step := some .rebx_kepler_step })
        let w8 := store_operator w7 operator
          (fun o => { o with operator_type := some .REBX_OPERATOR_UPDATER })
        (some operator, w8)
      else if name = "jump" then
        let w7 := store_operator w6 operator (fun o => { o with step := some .rebx_jump_step })
        let w8 := store_operator w7 operator
          (fun o => { o with operator_type := some .REBX_OPERATOR_UPDATER })
        (some operator, w8)
      else if name = "interaction" then
        let w7 := store_operator w6 operator
          (fun o => { o with step := some .rebx_interaction_step })
        let w8 := store_operator w7 operator
          (fun o => { o with operator_type := some .REBX_OPERATOR_UPDATER })
        (some operator, w8)
      else if name = "ias15" then
        let w7 := store_operator w6 operator (fun o => { o with step := some .rebx_ias15_step })
        let w8 := store_operator w7 operator
          (fun o => { o with operator_type := some .REBX_OPERATOR_UPDATER })
        (some operator, w8)
      else
        let w7 := free w6 (some operator)
        match sprintf w7 100
          ("REBOUNDx error: Operator '" ++ name ++ "' not found in rebx_create_operator.\n") with
        | (str, w8) => (none, reb_error w8 str)

/-- The tags `rebx_alloc_param_value` has a case for. -/
def rebx_param_type.supported : rebx_param_type → Bool
  | .REBX_TYPE_OTHER _ => false
  | _ => true

/-- Source `rebx_alloc_param_value` (core.c 467-510). -/
def rebx_alloc_param_value (w : World) (param_type : rebx_param_type) : Option Addr × World :=
  match param_type with
  | .REBX_TYPE_DOUBLE => rebx_malloc w 8
  | .REBX_TYPE_INT => rebx_malloc w 4
  | .REBX_TYPE_UINT32 => rebx_malloc w 4
  | .REBX_TYPE_ORBIT => rebx_malloc w sizeof_reb_orbit
  | .REBX_TYPE_LONGLONG => rebx_malloc w 8
  | .REBX_TYPE_POINTER => rebx_malloc w 8
  | .REBX_TYPE_OTHER code =>
    match sprintf w 300
      ("REBOUNDx Error: Parameter type '" ++ toString code
        ++ "' passed to rebx_alloc_param_value not supported.\n") with
    | (str, w1) => (none, reb_error w1 str)

/-- Source `rebx_create_param` (core.c 512-531). -/
def rebx_create_param (w : World) (name : String) (param_type : rebx_param_type) :
    Option Addr × World :=
  match rebx_malloc w sizeof_rebx_param with
  | (none, w1) => (none, w1)
  | (some param, w1) =>
    match rebx_malloc w1 (strlen name + 1) with
    | (none, w2) =>
      let w3 := store_param w2 param (fun p => { p with name := none })
      (none, free w3 (some param))
    | (some buf, w2) =>
      let w3 := store_param w2 param (fun p => { p with name := some buf })
      let w4 := strcpy w3 buf name
      let w5 := store_param w4 param (fun p => { p with param_type := some param_type })
      let w6 := store_param w5 param (fun p => { p with python_type := some (-1) })
      let w7 := store_param w6 param (fun p => { p with value := none })
      (some param, w7)

/-- The C string a `char*` field holds, as far as a lookup is concerned. -/
def chars_at (heap : List Cell) (ptr : Option Addr) : Option String :=
  match ptr with
  | none => none
  | some b =>
    match heap[b]? with
    | some ⟨_, .chars s⟩ => some s
    | _ => none

/-- Name under which a node is filed: the name of the force or parameter it
carries.  Step nodes are anonymous. -/
def node_name (heap : List Cell) (nd : rebx_node) : Option String :=
  match nd.object with
  | none => none
  | some a =>
    match heap[a]? with
    | some ⟨_, .param p⟩ => chars_at heap p.name
    | some ⟨_, .force f⟩ => chars_at heap f.name
    | _ => none

/-- Modelled from the spec: `rebx_get_node` of `linkedlist.c` is not among the
sources.  The spec has a list keyed by name and looked up by name: the result
is the first node of the list filed under `name`, or `NULL`.  Its callers only
read the node, which is returned by value. -/
def rebx_get_node (heap : List Cell) (head : List rebx_node) (name : String) :
    Option rebx_node :=
  head.find? (fun nd => decide (node_name heap nd = some name))

/-- Source `rebx_add_param` (core.c 533-570).  `apptr` is the address of a list
head; the list it refers to after the call is the second component of the
result. -/
def rebx_add_param (w : World) (apptr : Option (List rebx_node)) (param_name : String)
    (param_type : rebx_param_type) : Option Addr × Option (List rebx_node) × World :=
  match apptr with
  | none =>
    (none, none,
      reb_error w "REBOUNDx Error: Passed NULL apptr to rebx_add_param. See examples.\n")
  | some ap =>
    match rebx_create_param w param_name param_type with
    | (none, w1) => (none, some ap, w1)
    | (some param, w1) =>
      match rebx_alloc_param_value w1 param_type with
      | (value, w2) =>
        let w3 := store_param w2 param (fun p => { p with value := value })
        match value with
        | none => (none, some ap, free w3 (some param))
        | some _ =>
          match load_param w3 param with
          | (p, w4) =>
            match load_chars w4 p.name with
            | (name, w5) =>
              match rebx_get_node w5.heap ap name with
              | some _ =>
                match sprintf w5 300
                  ("REBOUNDx Error: Parameter with name '" ++ name
                    ++ "' passed to rebx_add_param already exists.\n") with
                | (str, w6) =>
                  let w7 := reb_error w6 str
                  let w8 := free w7 (some param)
                  match load_param w8 param with
                  | (q, w9) => (none, some ap, free w9 q.value)
              | none =>
                match rebx_attach_node w5 ap .REBX_NODE_PARAM with
                | (none, l, w6) =>
                  let w7 := free w6 (some param)
                  match load_param w7 param with
                  | (q, w8) => (none, some l, free w8 q.value)
                | (some node, l, w6) =>
                  match load_param w6 param with
                  | (q, w7) => (q.value, some (set_object l node (some param)), w7)

/-- Source `rebx_get_param_struct` (core.c 572-579). -/
def rebx_get_param_struct (w : World) (ap : List rebx_node) (param_name : String) :
    Option Addr :=
  match rebx_get_node w.heap ap param_name with
  | none => none
  | some node => node.object

/-- Source `rebx_get_param` (core.c 581-594). -/
def rebx_get_param (w : World) (ap : List rebx_node) (param_name : String)
    (param_type : rebx_param_type) : Option Addr × World :=
  match rebx_get_param_struct w ap param_name with
  | none => (none, w)
  | some param =>
    match load_param w param with
    | (p, w1) =>
      if p.param_type ≠ some param_type then
        match sprintf w1 300
          ("REBOUNDx Error: Parameter '" ++ param_name
            ++ "' passed to rebx_get_param_check was found but was of wrong type.  See documentation for your particular effect.  In python, you might need to add a dot at the end of the number when assigning a parameter that REBOUNDx expects as a float.\n") with
        | (str, w2) => (none, reb_error w2 str)
      else (p.value, w1)

/-- Source `rebx_initialize` (core.c 84-101). -/
def rebx_initialize (w : World) : World :=
  let w1 : World := { w with sim := { w.sim with extras := true } }
  let w2 : World := { w1 with rebx := { w1.rebx with sim := true } }
  let w3 : World := { w2 with rebx := { w2.rebx with forces := [] } }
  let w4 : World := { w3 with rebx := { w3.rebx with pre_timestep_operators := [] } }
  let w5 : World := { w4 with rebx := { w4.rebx with post_timestep_operators := [] } }
  let w6 : World :=
    { w5 with rebx := { w5.rebx with integrator := .REBX_INTEGRATOR_IMPLICIT_MIDPOINT } }
  let w7 : World :=
    if w6.sim.additional_forces ≠ none ∨ w6.sim.pre_timestep_modifications ≠ none ∨
        w6.sim.post_timestep_modifications ≠ none then
      reb_warning w6 "REBOUNDx overwrites sim->additional_forces, sim->pre_timestep_modifications and sim->post_timestep_modifications.  If you want to use REBOUNDx together with your own custom functions that use these callbacks, you should add them through REBOUNDx.  See https://github.com/dtamayo/reboundx/blob/master/ipython_examples/Custom_Effects.ipynb for a tutorial."
    else w6
  let w8 : World :=
    { w7 with sim := { w7.sim with additional_forces := some .rebx_additional_forces } }
  let w9 : World :=
    { w8 with sim := { w8.sim with
        pre_timestep_modifications := some .rebx_pre_timestep_modifications } }
  { w9 with sim := { w9.sim with
      post_timestep_modifications := some .rebx_post_timestep_modifications } }

/-- Source `rebx_remove_from_simulation` (core.c 107-110). -/
def rebx_remove_from_simulation (w : World) : World :=
  let w1 : World := { w with sim := { w.sim with additional_forces := none } }
  { w1 with sim := { w1.sim with post_timestep_modifications := none } }

/-- The call `force->update_accelerations(sim, force, particles, N)` through the
function pointer `fn`: a null pointer cannot be called. -/
def call_update_accelerations (w : World) (fn : Option rebx_force_fn) (force : Addr)
    (particles : Option Addr) (N : Int) : World :=
  match fn with
  | none => w.fault .null_pointer
  | some g =>
    { w with sim := { w.sim with
        calls := w.sim.calls ++ [.update_accelerations g force particles N] } }

/-- The call `operator->step(sim, operator, dt)` through the function pointer
`fn`: a null pointer cannot be called. -/
def call_step (w : World) (fn : Option rebx_step_fn) (operator : Addr) (dt : ℚ) : World :=
  match fn with
  | none => w.fault .null_pointer
  | some g => { w with sim := { w.sim with calls := w.sim.calls ++ [.step g operator dt] } }

/-- The `while(current != NULL)` loop of `rebx_additional_forces` (core.c
156-164), from the node `current` on. -/
def rebx_additional_forces_loop (w : World) : List rebx_node → World
  | [] => w
  | current :: next =>
    match current.object with
    | none => rebx_additional_forces_loop (w.fault .null_pointer) next
    | some force =>
      match load_force w force with
      | (f, w1) =>
        let N := w1.sim.N - w1.sim.N_var
        rebx_additional_forces_loop
          (call_update_accelerations w1 f.update_accelerations force w1.sim.particles N) next

/-- Source `rebx_additional_forces` (core.c 153-165). -/
def rebx_additional_forces (w : World) : World :=
  rebx_additional_forces_loop w w.rebx.forces

/-- The body of the loops of the two operator callbacks after the node is read
(core.c 175-177 and 188-190): the step, its operator, and the call. -/
def rebx_timestep_modification (w : World) (dt : ℚ) (current : rebx_node) : World :=
  match current.object with
  | none => w.fault .null_pointer
  | some s =>
    match load_step w s with
    | (step, w1) =>
      match step.operator with
      | none => w1.fault .null_pointer
      | some op =>
        match load_operator w1 op with
        | (operator, w2) =>
          match step.dt_fraction with
          | none => w2.fault (.uninitialised s)
          | some dt_fraction => call_step w2 operator.step op (dt * dt_fraction)

/-- The `while(current != NULL)` loop of `rebx_pre_timestep_modifications`
(core.c 171-180), from the node `current` on. -/
def rebx_pre_timestep_modifications_loop (w : World) (dt : ℚ) : List rebx_node → World
  | [] => w
  | current :: next =>
    let w1 :=
      if w.sim.integrator = .REB_INTEGRATOR_IAS15 ∧ w.sim.ri_ias15_epsilon ≠ 0 then
        reb_warning w
          "REBOUNDx: Can't use pre-timestep modifications with adaptive timesteps (IAS15)."
      else w
    rebx_pre_timestep_modifications_loop (rebx_timestep_modification w1 dt current) dt next

/-- Source `rebx_pre_timestep_modifications` (core.c 167-181). -/
def rebx_pre_timestep_modifications (w : World) : World :=
  rebx_pre_timestep_modifications_loop w w.sim.dt w.rebx.pre_timestep_operators

/-- The `while(current != NULL)` loop of `rebx_post_timestep_modifications`
(core.c 187-193), from the node `current` on. -/
def rebx_post_timestep_modifications_loop (w : World) (dt : ℚ) : List rebx_node → World
  | [] => w
  | current :: next =>
    rebx_post_timestep_modifications_loop (rebx_timestep_modification w dt current) dt next

/-- Source `rebx_post_timestep_modifications` (core.c 183-194). -/
def rebx_post_timestep_modifications (w : World) : World :=
  rebx_post_timestep_modifications_loop w w.sim.dt_last_done w.rebx.post_timestep_operators

/-- Source `rebx_add_force` (core.c 318-335). -/
def rebx_add_force (w : World) (force : Option Addr) : Int × World :=
  match force with
  | none => (0, w)
  | some fp =>
    match load_force w fp with
    | (f, w0) =>
      let w1 : World :=
        if f.force_type = some .REBX_FORCE_VEL then
          { w0 with sim := { w0.sim with force_is_velocity_dependent := 1 } }
        else w0
      match rebx_attach_node w1 w1.rebx.forces .REBX_NODE_FORCE with
      | (none, l, w2) => (0, { w2 with rebx := { w2.rebx with forces := l } })
      | (some node, l, w2) =>
        (1, { w2 with rebx := { w2.rebx with forces := set_object l node (some fp) } })

/-! ## `modify_orbits_direct.c` -/

/-- Fields of `struct reb_particle` of the host: position, velocity,
acceleration, mass and the head of the parameter list. -/
structure reb_particle where
  x : ℚ := 0
  y : ℚ := 0
  z : ℚ := 0
  vx : ℚ := 0
  vy : ℚ := 0
  vz : ℚ := 0
  ax : ℚ := 0
  ay : ℚ := 0
  az : ℚ := 0
  m : ℚ := 0
  ap : List rebx_node := []
  deriving DecidableEq, Repr

/-- The functions `rebx_calculate_modify_orbits_direct` calls that are not among
the sources, taken as parameters: the two conversions of the host
(`reb_tools_particle_to_orbit_err` returns the orbit and the error flag it
writes through `&err`) and the lookup `rebx_get_param_double(p, name)`, whose
result, a pointer to a double, is the value it points to (`none` is `NULL`). -/
structure modify_orbits_tools where
  reb_tools_particle_to_orbit_err : ℚ → reb_particle → reb_particle → reb_orbit × Int
  reb_tools_orbit_to_particle :
    ℚ → reb_particle → ℚ → ℚ → ℚ → ℚ → ℚ → ℚ → ℚ → reb_particle
  rebx_get_param_double : reb_particle → String → Option ℚ

/-- The constant `M_PI` of `math.h`. -/
def M_PI : ℚ := 3.14159265358979323846

/-- Lines 86-117 of `rebx_calculate_modify_orbits_direct`: the orbit `o` of the
particle after the changes, as it is handed to `reb_tools_orbit_to_particle`. -/
def rebx_modified_orbit (tools : modify_orbits_tools) (sim : reb_simulation)
    (p : reb_particle) (o : reb_orbit) : reb_orbit :=
  let dt := sim.dt_last_done
  let tau_a := tools.rebx_get_param_double p "tau_a"
  let tau_e := tools.rebx_get_param_double p "tau_e"
  let tau_inc := tools.rebx_get_param_double p "tau_inc"
  let tau_omega := tools.rebx_get_param_double p "tau_omega"
  let tau_Omega := tools.rebx_get_param_double p "tau_Omega"
  let a0 := o.a
  let e0 := o.e
  let inc0 := o.inc
  let o1 : reb_orbit :=
    match tau_a with
    | some t => { o with a := o.a + a0 * (dt / t) }
    | none => o
  let o2 : reb_orbit :=
    match tau_e with
    | some t => { o1 with e := o1.e + e0 * (dt / t) }
    | none => o1
  let o3 : reb_orbit :=
    match tau_inc with
    | some t => { o2 with inc := o2.inc + inc0 * (dt / t) }
    | none => o2
  let o4 : reb_orbit :=
    match tau_omega with
    | some t => { o3 with omega := o3.omega + 2 * M_PI * dt / t }
    | none => o3
  let o5 : reb_orbit :=
    match tau_Omega with
    | some t => { o4 with Omega := o4.Omega + 2 * M_PI * dt / t }
    | none => o4
  match tau_e with
  | some t =>
    match tools.rebx_get_param_double p "p" with
    | some p_param => { o5 with a := o5.a + 2 * a0 * e0 * e0 * p_param * dt / t }
    | none => o5
  | none => o5

/-- Source `rebx_calculate_modify_orbits_direct` (modify_orbits_direct.c 80-119).
The argument `effect` is not used by the function. -/
def rebx_calculate_modify_orbits_direct (tools : modify_orbits_tools) (sim : reb_simulation)
    (_effect : Option Addr) (p primary : reb_particle) : reb_particle :=
  match tools.reb_tools_particle_to_orbit_err sim.G p primary with
  | (o, err) =>
    if err ≠ 0 then p
    else
      let o1 := rebx_modified_orbit tools sim p o
      tools.reb_tools_orbit_to_particle sim.G primary p.m o1.a o1.e o1.inc o1.Omega o1.omega
        o1.f

/-! ## `stellar_evo.c` -/

/-- The functions `rebx_stellar_evo` calls that are not among the sources, taken
as parameters: the lookup `rebx_get_param(rebx, ap, name)`, which returns the
address of the value or `NULL`; `rebx_set_param_int(rebx, &ap, name, value)`,
which returns the list it leaves in `ap`; the spline routines `rebx_spline`
(it fills the array `y2`) and `rebx_splint` (it returns the interpolated value
and the interval it leaves in `klo`); `rebx_error`; and `reb_move_to_com` of
the host.  The array `sim->particles` is passed and returned next to the
state. -/
structure stellar_evo_tools where
  rebx_get_param : World → List rebx_node → String → Option Addr
  rebx_set_param_int : World → List rebx_node → String → Int → List rebx_node × World
  rebx_spline : World → Addr → Addr → Int → Addr → World
  rebx_splint : World → Addr → Addr → Addr → ℚ → Int → ℚ × Int
  rebx_error : World → String → World
  reb_move_to_com : World → List reb_particle → World × List reb_particle

/-- Read the `int` a pointer refers to. -/
def load_int (w : World) (a : Addr) : Int × World :=
  match load w a with
  | (some (.value (.int i)), w1) => (i, w1)
  | (some _, w1) => (0, w1.fault (.wild_pointer a))
  | (none, w1) => (0, w1)

/-- Lines 83-86 of `rebx_stellar_evo`: the spline of a particle is built on the
first pass, and the particle is marked with `mass_splined`. -/
def rebx_stellar_evo_spline (tools : stellar_evo_tools) (w : World) (ap : List rebx_node)
    (n x y y2 : Addr) : World × List rebx_node :=
  match tools.rebx_get_param w ap "mass_splined" with
  | none =>
    match load_int w n with
    | (nv, w1) =>
      let w2 := tools.rebx_spline w1 x y nv y2
      match tools.rebx_set_param_int w2 ap "mass_splined" 1 with
      | (ap1, w3) => (w3, ap1)
  | some _ => (w, ap)

/-- Lines 81 and 87 of `rebx_stellar_evo`: `klo` is 0, or the value `kptr`
points to. -/
def rebx_stellar_evo_klo (w : World) (kptr : Option Addr) : Int × World :=
  match kptr with
  | some k => load_int w k
  | none => (0, w)

/-- The body of the loop of `rebx_stellar_evo` (stellar_evo.c 71-92) for the
particle of index `j`.  An index beyond the end of the particle array is a
fault. -/
def rebx_stellar_evo_particle (tools : stellar_evo_tools) (dt : ℚ)
    (s : World × List reb_particle) (j : Nat) : World × List reb_particle :=
  match s.2[j]? with
  | none => (s.1.fault (.buffer_overrun s.2.length (j + 1)), s.2)
  | some p =>
    match tools.rebx_get_param s.1 p.ap "mass_n" with
    | none => s
    | some n =>
      match tools.rebx_get_param s.1 p.ap "mass_age", tools.rebx_get_param s.1 p.ap "mass_val",
        tools.rebx_get_param s.1 p.ap "mass_2val" with
      | some x, some y, some y2 =>
        let kptr := tools.rebx_get_param s.1 p.ap "mass_klo"
        match rebx_stellar_evo_spline tools s.1 p.ap n x y y2 with
        | (w1, ap1) =>
          match rebx_stellar_evo_klo w1 kptr with
          | (klo, w2) =>
            match tools.rebx_splint w2 x y y2 (w2.sim.t + dt) klo with
            | (m, klo1) =>
              match tools.rebx_set_param_int w2 ap1 "mass_klo" klo1 with
              | (ap2, w3) => (w3, s.2.set j { p with m := m, ap := ap2 })
      | _, _, _ =>
        (tools.rebx_error s.1
          "Data size parameter set, but missing one or more required arrays.", s.2)

/-- The loop of `rebx_stellar_evo` after its first `k` passes (`j` from 0 to
`k - 1`). -/
def rebx_stellar_evo_loop (tools : stellar_evo_tools) (dt : ℚ)
    (s : World × List reb_particle) : Nat → World × List reb_particle
  | 0 => s
  | k + 1 => rebx_stellar_evo_particle tools dt (rebx_stellar_evo_loop tools dt s k) k

/-- Source `rebx_stellar_evo` (stellar_evo.c 66-95).  The argument `operator` is
not used by the function. -/
def rebx_stellar_evo (tools : stellar_evo_tools) (w : World) (particles : List reb_particle)
    (_operator : Option Addr) (dt : ℚ) : World × List reb_particle :=
  let _N_real := w.sim.N - w.sim.N_var
  match rebx_stellar_evo_loop tools dt (w, particles) _N_real.toNat with
  | (w1, ps1) => tools.reb_move_to_com w1 ps1

/-! ## Hypotheses and concrete states used by the theorems -/

/-- The next `k` calls of `malloc` succeed. -/
def allocs_succeed (w : World) (k : Nat) : Prop :=
  ∀ i, i < k → w.oracle.getD i true = true

/-- A state with one Updater operator at address 0 and a WHFAST host. -/
def whfast_world : World :=
  { sim := { integrator := .REB_INTEGRATOR_WHFAST }
    heap := [⟨true, .operator { operator_type := some .REBX_OPERATOR_UPDATER }⟩] }

/-- A state with one Recorder operator at address 0 and a Mercurius host. -/
def recorder_world : World :=
  { sim := { integrator := .REB_INTEGRATOR_MERCURIUS }
    heap := [⟨true, .operator { operator_type := some .REBX_OPERATOR_RECORDER }⟩] }

/-- A state with one Updater operator at address 0 and a Mercurius host. -/
def mercurius_world : World :=
  { sim := { integrator := .REB_INTEGRATOR_MERCURIUS }
    heap := [⟨true, .operator { operator_type := some .REBX_OPERATOR_UPDATER }⟩] }

/-- A state with one Updater operator at address 0 and an IAS15 host. -/
def ias15_world : World :=
  { sim := { integrator := .REB_INTEGRATOR_IAS15 }
    heap := [⟨true, .operator { operator_type := some .REBX_OPERATOR_UPDATER }⟩] }

/-- The WHFAST state in which the third allocation fails: the step and the node
of the pre-step wrapper are allocated, the step of the post-step wrapper is not. -/
def whfast_third_alloc_fails : World :=
  { whfast_world with oracle := [true, true, false] }

/-- The WHFAST state in which only the first allocation fails: the pre-step
wrapper is not created, the post-step wrapper is. -/
def whfast_first_alloc_fails : World :=
  { whfast_world with oracle := [false] }

/-- The state `rebx_add_param` has reached when it looks the name up: the
parameter, its name and its value buffer are allocated and filled in. -/
def param_allocated (w : World) (name : String) (T : rebx_param_type) : World :=
  ⟨w.sim, w.rebx,
    w.heap ++ [⟨true, .param ⟨some (w.heap.length + 1), some T, some (-1),
        some (w.heap.length + 2)⟩⟩, ⟨true, .chars name⟩, ⟨true, .raw⟩],
    w.oracle.drop 3, w.faults⟩

/-- What `node_name` can see of a heap cell: a parameter, a force or a string. -/
def name_view : Option Cell → Option Block
  | some ⟨_, .param p⟩ => some (.param p)
  | some ⟨_, .force f⟩ => some (.force f)
  | some ⟨_, .chars s⟩ => some (.chars s)
  | _ => none

/-- The state after `tau_a` was added as a double to an empty list in the empty
state: the parameter at 0, its name at 1, its value buffer at 2, its node at 3. -/
def tau_a_added : World :=
  { heap := [⟨true, .param ⟨some 1, some .REBX_TYPE_DOUBLE, some (-1), some 2⟩⟩,
      ⟨true, .chars "tau_a"⟩, ⟨true, .raw⟩, ⟨true, .raw⟩] }

/-- A name of 64 bytes. -/
def name64 : String := String.mk (List.replicate 64 'a')

/-- A state whose heap holds one parameter named `name64` of type double, as
`rebx_add_param` leaves it: the parameter at 0, its name at 1, its value buffer
at 2, its node at 3. -/
def long_name_world : World :=
  { heap := [⟨true, .param ⟨some 1, some .REBX_TYPE_DOUBLE, some (-1), some 2⟩⟩,
      ⟨true, .chars name64⟩, ⟨true, .raw⟩, ⟨true, .raw⟩] }

/-- The message of `rebx_get_param` for a parameter of the wrong type. -/
def wrong_type_message (param_name : String) : String :=
  "REBOUNDx Error: Parameter '" ++ param_name
    ++ "' passed to rebx_get_param_check was found but was of wrong type.  See documentation for your particular effect.  In python, you might need to add a dot at the end of the number when assigning a parameter that REBOUNDx expects as a float.\n"

/-- The message of `rebx_create_force` for a name it has no case for. -/
def force_not_found_message (name : String) : String :=
  "REBOUNDx error: Force '" ++ name ++ "' not found in rebx_create_force.\n"

/-- The message of `rebx_create_operator` for a name it has no case for. -/
def operator_not_found_message (name : String) : String :=
  "REBOUNDx error: Operator '" ++ name ++ "' not found in rebx_create_operator.\n"

/-- The message of `rebx_malloc` when `malloc` returns `NULL`. -/
def alloc_failed_message : String := "REBOUNDx Error: Could not allocate memory.\n"

/-- A name of 256 bytes. -/
def name256 : String := String.mk (List.replicate 256 'a')

/-- A state whose heap holds one parameter named `name256` of type double, as
`rebx_add_param` leaves it. -/
def name256_world : World :=
  { heap := [⟨true, .param ⟨some 1, some .REBX_TYPE_DOUBLE, some (-1), some 2⟩⟩,
      ⟨true, .chars name256⟩, ⟨true, .raw⟩, ⟨true, .raw⟩] }

/-- A state in which the next allocation fails. -/
def no_memory_world : World := { oracle := [false] }

/-- The message of `rebx_add_param` for a name the list already holds. -/
def duplicate_message (param_name : String) : String :=
  "REBOUNDx Error: Parameter with name '" ++ param_name
    ++ "' passed to rebx_add_param already exists.\n"

/-- The force `gr` as `rebx_create_force` fills it in, with its name at address 1. -/
def gr_force : rebx_force := ⟨some 1, [], true, some .REBX_FORCE_VEL, some .rebx_gr⟩

/-- A state with the velocity-dependent force `gr` at address 0 and its name at
address 1, as `rebx_create_force` leaves them, and no force registered. -/
def gr_world : World :=
  { heap := [⟨true, .force gr_force⟩, ⟨true, .chars "gr"⟩] }

/-- The state `gr_world` after the force at address 0 is registered once. -/
def gr_added : World :=
  { gr_world with
    sim := { force_is_velocity_dependent := 1 }
    rebx := { forces := [⟨.REBX_NODE_FORCE, some 0⟩] }
    heap := gr_world.heap ++ [⟨true, .raw⟩] }

/-- The state `gr_world` after the force at address 0 is registered twice. -/
def gr_added_twice : World :=
  { gr_added with
    rebx := { forces := [⟨.REBX_NODE_FORCE, some 0⟩, ⟨.REBX_NODE_FORCE, some 0⟩] }
    heap := gr_added.heap ++ [⟨true, .raw⟩] }

/-- The state `gr_added` after a second force named `gr` is created, at address
3 with its name at address 4. -/
def second_gr_created : World :=
  { gr_added with
    heap := gr_added.heap ++
      [⟨true, .force ⟨some 4, [], true, some .REBX_FORCE_VEL, some .rebx_gr⟩⟩,
        ⟨true, .chars "gr"⟩] }

/-- The state `second_gr_created` after the second force is registered. -/
def second_gr_added : World :=
  { second_gr_created with
    rebx := { forces := [⟨.REBX_NODE_FORCE, some 0⟩, ⟨.REBX_NODE_FORCE, some 3⟩] }
    heap := second_gr_created.heap ++ [⟨true, .raw⟩] }

/-- The state `gr_world` in which the next allocation fails. -/
def gr_no_memory : World := { gr_world with oracle := [false] }

/-- A state with one Updater operator at address 0 and a host that uses the
integrator `i`. -/
def updater_world (i : reb_integrator) : World :=
  { sim := { integrator := i }
    heap := [⟨true, .operator { operator_type := some .REBX_OPERATOR_UPDATER }⟩] }

/-- The text of the warning of `rebx_initialize`. -/
def overwrite_warning : String :=
  "REBOUNDx overwrites sim->additional_forces, sim->pre_timestep_modifications and sim->post_timestep_modifications.  If you want to use REBOUNDx together with your own custom functions that use these callbacks, you should add them through REBOUNDx.  See https://github.com/dtamayo/reboundx/blob/master/ipython_examples/Custom_Effects.ipynb for a tutorial."

/-- One of the three callback slots of the host is occupied. -/
def slot_occupied (s : reb_simulation) : Prop :=
  s.additional_forces ≠ none ∨ s.pre_timestep_modifications ≠ none ∨
    s.post_timestep_modifications ≠ none

instance (s : reb_simulation) : Decidable (slot_occupied s) := by
  unfold slot_occupied; infer_instance

/-- The text of the error of `rebx_add_param` for a null list head. -/
def null_apptr_message : String :=
  "REBOUNDx Error: Passed NULL apptr to rebx_add_param. See examples.\n"

/-- A registered force as a dispatcher finds it: the address of the force and
the function in its `update_accelerations` field. -/
structure force_entry where
  force : Addr
  fn : rebx_force_fn
  deriving DecidableEq, Repr

/-- The list `head` holds one node for each entry of `fs`, in the same order,
and each node points to a live force that carries the function of its entry. -/
def forces_are (w : World) (head : List rebx_node) (fs : List force_entry) : Prop :=
  head = fs.map (fun x => ⟨.REBX_NODE_FORCE, some x.force⟩)
  ∧ ∀ x ∈ fs, ∃ f : rebx_force,
      w.heap[x.force]? = some ⟨true, .force f⟩ ∧ f.update_accelerations = some x.fn

/-- A registered step as a dispatcher finds it: the address of the step, the
operator it wraps, its fraction of the timestep, and the function in the `step`
field of the operator. -/
structure step_entry where
  step : Addr
  operator : Addr
  dt_fraction : ℚ
  fn : rebx_step_fn
  deriving DecidableEq, Repr

/-- The list `head` holds one node for each entry of `ss`, in the same order;
each node points to a live step with the operator and the fraction of its
entry, and the operator is live and carries the function of the entry. -/
def steps_are (w : World) (head : List rebx_node) (ss : List step_entry) : Prop :=
  head = ss.map (fun x => ⟨.REBX_NODE_STEP, some x.step⟩)
  ∧ ∀ x ∈ ss,
      w.heap[x.step]? = some ⟨true, .step ⟨some x.operator, some x.dt_fraction⟩⟩
      ∧ ∃ o : rebx_operator,
          w.heap[x.operator]? = some ⟨true, .operator o⟩ ∧ o.step = some x.fn

/-- The host uses IAS15 with adaptive timesteps. -/
def adaptive (s : reb_simulation) : Prop :=
  s.integrator = .REB_INTEGRATOR_IAS15 ∧ s.ri_ias15_epsilon ≠ 0

instance (s : reb_simulation) : Decidable (adaptive s) := by
  unfold adaptive; infer_instance

/-- The text of the warning of `rebx_pre_timestep_modifications`. -/
def adaptive_warning : String :=
  "REBOUNDx: Can't use pre-timestep modifications with adaptive timesteps (IAS15)."

/-- A state with two forces registered, `gr` at address 0 and a force of the
user at address 1, and a host with five particles of which two are variational. -/
def two_forces_world : World :=
  { sim := { N := 5, N_var := 2, particles := some 7 }
    rebx := { forces := [⟨.REBX_NODE_FORCE, some 0⟩, ⟨.REBX_NODE_FORCE, some 1⟩] }
    heap := [⟨true, .force { update_accelerations := some .rebx_gr }⟩,
      ⟨true, .force { update_accelerations := some (.user 1) }⟩] }

/-- A state with the operator `kepler` at address 0 split around the timestep:
the step at address 1 is in the pre-step list and the step at address 2 in the
post-step list, each with half of the timestep; the post-step list also holds
the step at address 4, which wraps the operator of the user at address 3 with
the whole timestep. -/
def split_world : World :=
  { sim := { integrator := .REB_INTEGRATOR_WHFAST, dt := 2, dt_last_done := 4 }
    rebx := {
      pre_timestep_operators := [⟨.REBX_NODE_STEP, some 1⟩]
      post_timestep_operators := [⟨.REBX_NODE_STEP, some 2⟩, ⟨.REBX_NODE_STEP, some 4⟩] }
    heap := [⟨true, .operator { step := some .rebx_kepler_step }⟩,
      ⟨true, .step ⟨some 0, some (1 / 2)⟩⟩, ⟨true, .step ⟨some 0, some (1 / 2)⟩⟩,
      ⟨true, .operator { step := some (.user 1) }⟩,
      ⟨true, .step ⟨some 3, some 1⟩⟩] }

/-- A call made on a parameter list. -/
inductive param_call where
  | add (name : String) (param_type : rebx_param_type)
  | get (name : String) (param_type : rebx_param_type)
  deriving DecidableEq, Repr

/-- A program that works on one parameter list: the state, the list, and the
record of the calls of `rebx_add_param` that returned a parameter, with the
name and the type they were given. -/
structure param_run where
  world : World := {}
  ap : List rebx_node := []
  added : List (String × rebx_param_type) := []
  deriving DecidableEq, Repr

/-- One call on the list: `rebx_add_param(&ap, name, type)` or
`rebx_get_param(ap, name, type)`. -/
def run_param_call (r : param_run) : param_call → param_run
  | .add name param_type =>
    match rebx_add_param r.world (some r.ap) name param_type with
    | (value, apptr, w1) =>
      { world := w1
        ap := apptr.getD r.ap
        added := if value.isSome then r.added ++ [(name, param_type)] else r.added }
  | .get name param_type =>
    { r with world := (rebx_get_param r.world r.ap name param_type).2 }

/-- A sequence of calls on the list, in order. -/
def run_param_calls (r : param_run) (cs : List param_call) : param_run :=
  cs.foldl run_param_call r

/-- The heap `h1` is the heap `h` with blocks added after it: every block of `h`
is in `h1` at the same address with the same contents. -/
def heap_extends (h h1 : List Cell) : Prop := ∃ t, h1 = h ++ t

/-- The node `nd` is the entry of a parameter list that holds the name `x.1`
with the type tag `x.2`: it points to a parameter whose name buffer holds the
name and whose `param_type` is the tag. -/
def entry_is (heap : List Cell) (nd : rebx_node) (x : String × rebx_param_type) : Prop :=
  ∃ (a b : Addr) (l1 l2 : Bool) (python_type : Option Int) (value : Option Addr),
    nd = ⟨.REBX_NODE_PARAM, some a⟩
    ∧ heap[a]? = some ⟨l1, .param ⟨some b, some x.2, python_type, value⟩⟩
    ∧ heap[b]? = some ⟨l2, .chars x.1⟩

/-- The invariant of a program on a parameter list, read in the nominal
continuation: the list holds one entry for each add that returned a parameter,
in order, with the name and type of that add, and no name was added twice. -/
def param_run.consistent (r : param_run) : Prop :=
  List.Forall₂ (entry_is r.world.heap) r.ap r.added ∧ (r.added.map Prod.fst).Nodup

/-- The addresses of the blocks of a heap that are allocated and not freed. -/
def live_blocks (heap : List Cell) : List Addr :=
  (List.range heap.length).filter (fun a =>
    match heap[a]? with
    | some c => c.live
    | none => false)

/-- A host that uses IAS15 with adaptive timesteps, and a context with no
operator registered. -/
def adaptive_world : World :=
  { sim := { integrator := .REB_INTEGRATOR_IAS15, ri_ias15_epsilon := 1 } }

/-- A host that uses IAS15 with adaptive timesteps and an upcoming timestep of
2, and a pre-step list that holds the step at address 1, which wraps the
operator `kepler` at address 0 with half of the timestep. -/
def adaptive_step_world : World :=
  { sim := { integrator := .REB_INTEGRATOR_IAS15, ri_ias15_epsilon := 1, dt := 2 }
    rebx := { pre_timestep_operators := [⟨.REBX_NODE_STEP, some 1⟩] }
    heap := [⟨true, .operator { step := some .rebx_kepler_step }⟩,
      ⟨true, .step ⟨some 0, some (1 / 2)⟩⟩] }

/-- The time a call hands to the operator at address `op`: the `dt` of a call
of its `step` function, nothing for any other call. -/
def step_time (op : Addr) : reb_call → ℚ
  | .step _ o dt => if o = op then dt else 0
  | .update_accelerations _ _ _ _ => 0

/-- The total time the calls of a record hand to the operator at address `op`. -/
def operator_time (calls : List reb_call) (op : Addr) : ℚ :=
  (calls.map (step_time op)).sum

/-- A WHFAST host whose upcoming timestep and last timestep are both 3, with
the operator `kepler` at address 0 and nothing registered. -/
def whfast_kepler_world : World :=
  { sim := { integrator := .REB_INTEGRATOR_WHFAST, dt := 3, dt_last_done := 3 }
    heap := [⟨true, .operator
      { operator_type := some .REBX_OPERATOR_UPDATER, step := some .rebx_kepler_step }⟩] }

/-- One registration made on a context: the integrator the host uses at that
moment and the argument of `rebx_add_operator`. -/
structure operator_call where
  integrator : reb_integrator
  operator : Option Addr
  deriving DecidableEq, Repr

/-- The host selects an integrator and the operator is registered with
`rebx_add_operator(rebx, operator)`. -/
def run_add_operator (w : World) (c : operator_call) : World :=
  (rebx_add_operator { w with sim := { w.sim with integrator := c.integrator } } c.operator).2

/-- A sequence of registrations, in order. -/
def run_add_operators (w : World) (cs : List operator_call) : World :=
  cs.foldl run_add_operator w

/-- A step as it sits in one of the two lists: its address, the operator it
wraps and its fraction of the timestep. -/
structure scheduled_step where
  step : Addr
  operator : Addr
  dt_fraction : ℚ
  deriving DecidableEq, Repr

/-- The list `head` holds one node for each entry of `ss`, in the same order,
and each node points to a live step with the operator and the fraction of its
entry. -/
def schedule_is (heap : List Cell) (head : List rebx_node) (ss : List scheduled_step) : Prop :=
  head = ss.map (fun x => ⟨.REBX_NODE_STEP, some x.step⟩)
  ∧ ∀ x ∈ ss, heap[x.step]? = some ⟨true, .step ⟨some x.operator, some x.dt_fraction⟩⟩

/-- The invariant of the scheduler on the steps `ps` of the pre-step list and
`qs` of the post-step list. -/
def schedule_balanced (ps qs : List scheduled_step) : Prop :=
  (∀ x ∈ ps, x.dt_fraction = 1 / 2)
  ∧ (∀ y ∈ qs, y.dt_fraction = 1 / 2 ∨ y.dt_fraction = 1)
  ∧ ps.length ≤ qs.length
  ∧ ∀ x ∈ ps, ∃ y ∈ qs, y.operator = x.operator ∧ y.dt_fraction = 1 / 2

/-- A state with the Updater operator `kepler` at address 0 and the Recorder
operator of the user at address 1, before the context is initialised. -/
def two_operators_world : World :=
  { heap := [⟨true, .operator
        { operator_type := some .REBX_OPERATOR_UPDATER, step := some .rebx_kepler_step }⟩,
      ⟨true, .operator
        { operator_type := some .REBX_OPERATOR_RECORDER, step := some (.user 1) }⟩] }

/-- What a sequence of registrations that started from the heap `h0` keeps
true of the state: the allocations still to come succeed, the blocks of `h0`
are still in the heap, and the two lists hold steps that satisfy
`schedule_balanced`. -/
def scheduler_invariant (h0 : List Cell) (w : World) : Prop :=
  (∀ k, allocs_succeed w k) ∧ heap_extends h0 w.heap
  ∧ ∃ ps qs : List scheduled_step,
      schedule_is w.heap w.rebx.pre_timestep_operators ps
      ∧ schedule_is w.heap w.rebx.post_timestep_operators qs
      ∧ schedule_balanced ps qs

/-- A host for which an orbit can be read off a particle: the conversion to an
orbit takes the six elements from the position and the velocity of the
particle and reports an error when the primary has no mass, the conversion to a
particle puts them back.  The parameters of every particle are given by
`params`. -/
def plain_tools (params : String → Option ℚ) : modify_orbits_tools where
  reb_tools_particle_to_orbit_err := fun _ p primary =>
    (⟨p.x, p.y, p.z, p.vx, p.vy, p.vz⟩, if primary.m = 0 then 1 else 0)
  reb_tools_orbit_to_particle := fun _ _ m a e inc Omega omega f =>
    { x := a, y := e, z := inc, vx := Omega, vy := omega, vz := f, m := m }
  rebx_get_param_double := fun _ name => params name

/-- The parameters of a particle whose only parameter is `tau_a = -1000`. -/
def tau_a_only : String → Option ℚ :=
  fun name => if name = "tau_a" then some (-1000) else none

/-- A host whose last timestep was 2. -/
def sim_dt2 : reb_simulation := { dt_last_done := 2 }

/-- A particle with semi-major axis 500 and eccentricity 1/10 under
`plain_tools`, of mass 1. -/
def planet : reb_particle := { x := 500, y := 1 / 10, m := 1 }

/-- A primary of mass 1000. -/
def star : reb_particle := { m := 1000 }

/-- A primary without mass. -/
def massless_star : reb_particle := {}

/-- The orbit `plain_tools` reads off `planet`. -/
def planet_orbit : reb_orbit := ⟨500, 1 / 10, 0, 0, 0, 0⟩

/-- Helper functions for `rebx_stellar_evo` over the parameter store of
`core.c`: a parameter is looked up by name and its value buffer returned;
nothing is stored, no spline is built and the interpolated value is the time
itself; the host does not move the particles. -/
def plain_stellar_tools : stellar_evo_tools where
  rebx_get_param := fun w ap name =>
    match rebx_get_param_struct w ap name with
    | none => none
    | some a => (load_param w a).1.value
  rebx_set_param_int := fun w ap _ _ => (ap, w)
  rebx_spline := fun w _ _ _ _ => w
  rebx_splint := fun _ _ _ _ t klo => (t, klo)
  rebx_error := reb_error
  reb_move_to_com := fun w ps => (w, ps)

/-- The state in which the loop of `rebx_stellar_evo` reaches the particle of
index `j`: the state after the passes for the particles before it. -/
def stellar_evo_reached (tools : stellar_evo_tools) (dt : ℚ) (w : World)
    (ps : List reb_particle) (j : Nat) : World :=
  (rebx_stellar_evo_loop tools dt (w, ps) j).1

/-- The mass of the particle of index `j` after `rebx_stellar_evo`. -/
def mass_after (tools : stellar_evo_tools) (w : World) (ps : List reb_particle)
    (operator : Option Addr) (dt : ℚ) (j : Nat) : Option ℚ :=
  ((rebx_stellar_evo tools w ps operator dt).2[j]?).map (fun q => q.m)

/-- The quotient `a / b` of two doubles that are finite numbers, as the source
computes it: `none` when `b` is 0, where the quotient is no finite number (an
infinity, or NaN for `0 / 0`, under IEEE 754; without it the division is
undefined). -/
def double_div (a b : ℚ) : Option ℚ :=
  if b = 0 then none else some (a / b)

/-- The sum of two doubles, `none` being a value that is no finite number: the
sum is a finite number only when both terms are. -/
def double_add (a b : Option ℚ) : Option ℚ :=
  match a, b with
  | some x, some y => some (x + y)
  | _, _ => none

/-- The product of two doubles, `none` being a value that is no finite number:
the product is a finite number only when both factors are. -/
def double_mul (a b : Option ℚ) : Option ℚ :=
  match a, b with
  | some x, some y => some (x * y)
  | _, _ => none

/-- The elements of a `struct reb_orbit` as doubles: a finite number, or `none`
for an infinity or NaN. -/
structure reb_orbit_double where
  a : Option ℚ := none
  e : Option ℚ := none
  inc : Option ℚ := none
  Omega : Option ℚ := none
  omega : Option ℚ := none
  f : Option ℚ := none
  deriving DecidableEq, Repr

/-- The elements of an orbit of finite numbers, as doubles. -/
def reb_orbit.to_double (o : reb_orbit) : reb_orbit_double :=
  ⟨some o.a, some o.e, some o.inc, some o.Omega, some o.omega, some o.f⟩

/-- Lines 86-117 of `rebx_calculate_modify_orbits_direct` once more, with the
divisions of the source kept apart from those of `ℚ`: `rebx_modified_orbit`
computes in `ℚ`, where the quotient by 0 is 0, and here the quotient by a
timescale that is 0 is no finite number, as it is for the doubles of the
source.  The orbit `o`, the timestep and the parameters are finite numbers. -/
def rebx_modified_orbit_double (tools : modify_orbits_tools) (sim : reb_simulation)
    (p : reb_particle) (o : reb_orbit) : reb_orbit_double :=
  let dt := sim.dt_last_done
  let tau_a := tools.rebx_get_param_double p "tau_a"
  let tau_e := tools.rebx_get_param_double p "tau_e"
  let tau_inc := tools.rebx_get_param_double p "tau_inc"
  let tau_omega := tools.rebx_get_param_double p "tau_omega"
  let tau_Omega := tools.rebx_get_param_double p "tau_Omega"
  let a0 := o.a
  let e0 := o.e
  let inc0 := o.inc
  let o0 := o.to_double
  let o1 := match tau_a with
    | some t => { o0 with a := double_add o0.a (double_mul (some a0) (double_div dt t)) }
    | none => o0
  let o2 := match tau_e with
    | some t => { o1 with e := double_add o1.e (double_mul (some e0) (double_div dt t)) }
    | none => o1
  let o3 := match tau_inc with
    | some t => { o2 with inc := double_add o2.inc (double_mul (some inc0) (double_div dt t)) }
    | none => o2
  let o4 := match tau_omega with
    | some t => { o3 with omega := double_add o3.omega (double_div (2 * M_PI * dt) t) }
    | none => o3
  let o5 := match tau_Omega with
    | some t => { o4 with Omega := double_add o4.Omega (double_div (2 * M_PI * dt) t) }
    | none => o4
  match tau_e with
  | some t =>
    match tools.rebx_get_param_double p "p" with
    | some p_param =>
      { o5 with a := double_add o5.a (double_div (2 * a0 * e0 * e0 * p_param * dt) t) }
    | none => o5
  | none => o5

/-- No timescale of the particle is set to 0. -/
def timescales_nonzero (tools : modify_orbits_tools) (p : reb_particle) : Prop :=
  ∀ name ∈ ["tau_a", "tau_e", "tau_inc", "tau_omega", "tau_Omega"],
    tools.rebx_get_param_double p name ≠ some 0

instance (tools : modify_orbits_tools) (p : reb_particle) :
    Decidable (timescales_nonzero tools p) := by
  unfold timescales_nonzero
  infer_instance

/-- The parameters of a particle with `tau_e = 0` and `p = 0`. -/
def tau_e_zero_p_zero : String → Option ℚ :=
  fun name => if name = "tau_e" then some 0 else if name = "p" then some 0 else none

/-- The parameters of a particle with `tau_e = 0` and `p` unset. -/
def tau_e_zero : String → Option ℚ :=
  fun name => if name = "tau_e" then some 0 else none

/-- The parameters of a particle with `tau_a = -1000`, `tau_e = -100` and
`p = 0`. -/
def damping_p_zero : String → Option ℚ :=
  fun name =>
    if name = "tau_a" then some (-1000)
    else if name = "tau_e" then some (-100)
    else if name = "p" then some 0
    else none

/-- The parameters of a particle with `tau_a = -1000` and `tau_e = -100`, and
`p` unset. -/
def damping_p_unset : String → Option ℚ :=
  fun name =>
    if name = "tau_a" then some (-1000)
    else if name = "tau_e" then some (-100)
    else none

/-- The parameters of a particle that has none. -/
def no_params : String → Option ℚ := fun _ => none

/-- The parameter list of a particle with the four parameters of
`rebx_stellar_evo`, in the heap of `evolving_world`. -/
def mass_parameters : List rebx_node :=
  [⟨.REBX_NODE_PARAM, some 0⟩, ⟨.REBX_NODE_PARAM, some 3⟩, ⟨.REBX_NODE_PARAM, some 6⟩,
    ⟨.REBX_NODE_PARAM, some 9⟩]

/-- A host at time 5 with three particles, the last of them variational.  The
heap holds the four parameters of `mass_parameters`: `mass_n` (the parameter
at 0, its name at 1, its value, 3, at 2), `mass_age` (3, 4, 5), `mass_val`
(6, 7, 8) and `mass_2val` (9, 10, 11). -/
def evolving_world : World :=
  { sim := { t := 5, N := 3, N_var := 1 }
    heap := [
      ⟨true, .param ⟨some 1, some .REBX_TYPE_INT, some (-1), some 2⟩⟩,
      ⟨true, .chars "mass_n"⟩, ⟨true, .value (.int 3)⟩,
      ⟨true, .param ⟨some 4, some .REBX_TYPE_POINTER, some (-1), some 5⟩⟩,
      ⟨true, .chars "mass_age"⟩, ⟨true, .value (.double 0)⟩,
      ⟨true, .param ⟨some 7, some .REBX_TYPE_POINTER, some (-1), some 8⟩⟩,
      ⟨true, .chars "mass_val"⟩, ⟨true, .value (.double 1)⟩,
      ⟨true, .param ⟨some 10, some .REBX_TYPE_POINTER, some (-1), some 11⟩⟩,
      ⟨true, .chars "mass_2val"⟩, ⟨true, .raw⟩] }

/-- A star of mass 1000 with the four parameters set. -/
def evolving_star : reb_particle := { m := 1000, ap := mass_parameters }

/-- A variational particle of mass 7 with the four parameters set. -/
def variational_particle : reb_particle := { m := 7, ap := mass_parameters }

/-- The particle array of `evolving_world`: the star, a planet without
parameters, and the variational particle. -/
def evolving_particles : List reb_particle := [evolving_star, planet, variational_particle]

/-! ## Memory lemmas -/

theorem getD_tail (l : List Bool) (i : Nat) : l.tail.getD i true = l.getD (i + 1) true := by
  cases l <;> simp

theorem headD_eq_getD (l : List Bool) : l.headD true = l.getD 0 true := by
  cases l <;> simp

theorem tail_tail_eq_drop (l : List Bool) : l.tail.tail = l.drop 2 := by
  rcases l with _ | ⟨_, _ | _⟩ <;> rfl

theorem allocs_succeed_of_nil (w : World) (k : Nat) (h : w.oracle = []) :
    allocs_succeed w k := by
  intro i _
  simp [h]

theorem allocs_succeed_mono (w : World) (k m : Nat) (hkm : m ≤ k) (h : allocs_succeed w k) :
    allocs_succeed w m :=
  fun i hi => h i (by omega)

theorem allocs_succeed_tail (w w1 : World) (k : Nat) (h : allocs_succeed w (k + 1))
    (h1 : w1.oracle = w.oracle.tail) : allocs_succeed w1 k := by
  intro i hi
  rw [h1, getD_tail]
  exact h (i + 1) (by omega)

theorem allocs_succeed_drop (w w1 : World) (k m : Nat) (h : allocs_succeed w (k + m))
    (h1 : w1.oracle = w.oracle.drop k) : allocs_succeed w1 m := by
  intro i hi
  have h2 := h (k + i) (by omega)
  rw [h1]
  simpa [List.getD_eq_getElem?_getD, List.getElem?_drop] using h2

theorem set_object_concat (l : List rebx_node) (t : rebx_node_type) (o : Option Addr) :
    set_object (l ++ [⟨t, none⟩]) l.length o = l ++ [⟨t, o⟩] := by
  simp [set_object]

theorem malloc_succeeds (w : World) (n : Nat) (h : w.oracle.headD true = true) :
    malloc w n = (some w.heap.length,
      ⟨w.sim, w.rebx, w.heap ++ [⟨true, .raw⟩], w.oracle.tail, w.faults⟩) := by
  unfold malloc
  rw [if_pos h]

theorem malloc_fails (w : World) (n : Nat) (h : w.oracle.headD true = false) :
    malloc w n = (none, ⟨w.sim, w.rebx, w.heap, w.oracle.tail, w.faults⟩) := by
  unfold malloc
  rw [if_neg (by rw [h]; exact Bool.false_ne_true)]

theorem rebx_malloc_succeeds (w : World) (n : Nat) (h : allocs_succeed w 1) :
    rebx_malloc w n = (some w.heap.length,
      ⟨w.sim, w.rebx, w.heap ++ [⟨true, .raw⟩], w.oracle.tail, w.faults⟩) := by
  have h0 : w.oracle.headD true = true := by
    rw [headD_eq_getD]; exact h 0 (by omega)
  unfold rebx_malloc
  rw [malloc_succeeds w n h0]

theorem store_fresh (s : reb_simulation) (r : rebx_extras) (h : List Cell) (o : List Bool)
    (fl : List Fault) (b : Block) (f : Block → Block) :
    store ⟨s, r, h ++ [⟨true, b⟩], o, fl⟩ h.length f = ⟨s, r, h ++ [⟨true, f b⟩], o, fl⟩ := by
  simp [store]

theorem load_operator_live (w : World) (a : Addr) (o : rebx_operator)
    (h : w.heap[a]? = some ⟨true, .operator o⟩) : load_operator w a = (o, w) := by
  simp [load_operator, load, h]

theorem getElem?_append_add {α : Type} (h t : List α) (i : Nat) :
    (h ++ t)[h.length + i]? = t[i]? := by
  rw [List.getElem?_append_right (by omega)]
  congr 1
  omega

theorem getElem?_append_zero {α : Type} (h t : List α) :
    (h ++ t)[h.length]? = t[0]? := by
  simpa using getElem?_append_add h t 0

theorem set_append_add {α : Type} (h t : List α) (i : Nat) (x : α) :
    (h ++ t).set (h.length + i) x = h ++ t.set i x := by
  rw [List.set_append_right _ _ (by omega)]
  congr 2
  omega

theorem set_append_zero {α : Type} (h t : List α) (x : α) :
    (h ++ t).set h.length x = h ++ t.set 0 x := by
  simp

theorem store_append (s : reb_simulation) (r : rebx_extras) (h t : List Cell) (o : List Bool)
    (fl : List Fault) (i : Nat) (b : Block) (f : Block → Block)
    (ht : t[i]? = some ⟨true, b⟩) :
    store ⟨s, r, h ++ t, o, fl⟩ (h.length + i) f = ⟨s, r, h ++ t.set i ⟨true, f b⟩, o, fl⟩ := by
  simp [store, getElem?_append_add, ht, set_append_add]

theorem store_append_zero (s : reb_simulation) (r : rebx_extras) (h t : List Cell)
    (o : List Bool) (fl : List Fault) (b : Block) (f : Block → Block)
    (ht : t[0]? = some ⟨true, b⟩) :
    store ⟨s, r, h ++ t, o, fl⟩ h.length f = ⟨s, r, h ++ t.set 0 ⟨true, f b⟩, o, fl⟩ := by
  simpa using store_append s r h t o fl 0 b f ht

theorem rebx_malloc_fails (w : World) (n : Nat) (hn : 0 < n)
    (h : w.oracle.headD true = false) :
    rebx_malloc w n = (none,
      reb_error ⟨w.sim, w.rebx, w.heap, w.oracle.tail, w.faults⟩
        "REBOUNDx Error: Could not allocate memory.\n") := by
  unfold rebx_malloc
  rw [malloc_fails w n h]
  simp [hn]

theorem allocs_succeed_succ (w : World) (k : Nat) :
    allocs_succeed w (k + 1) ↔
      w.oracle.headD true = true
        ∧ allocs_succeed ⟨w.sim, w.rebx, w.heap, w.oracle.tail, w.faults⟩ k := by
  constructor
  · intro h
    refine ⟨?_, allocs_succeed_tail w _ k h rfl⟩
    rw [headD_eq_getD]; exact h 0 (by omega)
  · rintro ⟨h0, h1⟩ i hi
    cases i with
    | zero => rw [← headD_eq_getD]; exact h0
    | succ j =>
      have := h1 j (by omega)
      rwa [getD_tail] at this

theorem allocs_succeed_zero (w : World) : allocs_succeed w 0 :=
  fun _ hi => absurd hi (by omega)

/-! ## The split scheduler -/

theorem rebx_add_operator_manual_succeeds (w : World) (operator : Addr) (head : rebx_head)
    (dt_fraction : ℚ) (h : allocs_succeed w 2) :
    rebx_add_operator_manual w operator head dt_fraction = (1,
      ⟨w.sim,
        head.set w.rebx (head.get w.rebx ++ [⟨.REBX_NODE_STEP, some w.heap.length⟩]),
        w.heap ++ [⟨true, .step ⟨some operator, some dt_fraction⟩⟩, ⟨true, .raw⟩],
        w.oracle.drop 2, w.faults⟩) := by
  have h1 : allocs_succeed w 1 := allocs_succeed_mono w 2 1 (by omega) h
  unfold rebx_add_operator_manual
  rw [rebx_malloc_succeeds w _ h1]
  simp only [store_step, store_fresh, Block.as_step]
  unfold rebx_attach_node
  rw [rebx_malloc_succeeds _ _ (allocs_succeed_tail w _ 1 h rfl)]
  simp [set_object_concat, tail_tail_eq_drop]

/-- C1: on a WHFAST host, registering a live Updater operator while the four
allocations (two steps, two nodes) succeed returns 1; the pre-step list gains
one Step node at its end and the post-step list gains one at its end; the two
new steps both refer to the operator and both carry `dt_fraction` one half; the
force list, the host and the blocks that existed before are unchanged. -/
theorem rebx_add_operator_whfast_updater (w : World) (op : Addr) (o : rebx_operator)
    (hop : w.heap[op]? = some ⟨true, .operator o⟩)
    (hty : o.operator_type = some .REBX_OPERATOR_UPDATER)
    (hint : w.sim.integrator = .REB_INTEGRATOR_WHFAST)
    (hal : allocs_succeed w 4) :
    rebx_add_operator w (some op) = (1,
      { sim := w.sim
        rebx :=
          { sim := w.rebx.sim
            forces := w.rebx.forces
            pre_timestep_operators :=
              w.rebx.pre_timestep_operators ++ [⟨.REBX_NODE_STEP, some w.heap.length⟩]
            post_timestep_operators :=
              w.rebx.post_timestep_operators ++ [⟨.REBX_NODE_STEP, some (w.heap.length + 2)⟩]
            integrator := w.rebx.integrator }
        heap := w.heap ++
          [⟨true, .step ⟨some op, some (1 / 2)⟩⟩, ⟨true, .raw⟩,
           ⟨true, .step ⟨some op, some (1 / 2)⟩⟩, ⟨true, .raw⟩]
        oracle := w.oracle.drop 4
        faults := w.faults }) := by
  have h2 : allocs_succeed w 2 := allocs_succeed_mono w 4 2 (by omega) hal
  have e1 := rebx_add_operator_manual_succeeds w op .pre_timestep_operators (1 / 2) h2
  have e2 := rebx_add_operator_manual_succeeds _ op .post_timestep_operators (1 / 2)
    (allocs_succeed_drop w
      ⟨w.sim,
        rebx_head.set w.rebx .pre_timestep_operators
          (rebx_head.get w.rebx .pre_timestep_operators ++
            [⟨.REBX_NODE_STEP, some w.heap.length⟩]),
        w.heap ++ [⟨true, .step ⟨some op, some (1 / 2)⟩⟩, ⟨true, .raw⟩],
        w.oracle.drop 2, w.faults⟩ 2 2 hal rfl)
  unfold rebx_add_operator
  simp only [load_operator_live w op o hop, hty, hint, e1, e2]
  simp [rebx_head.set, rebx_head.get]

/-- Witness of C1 on the WHFAST state with an allocator that never fails. -/
theorem rebx_add_operator_whfast_updater_witness :
    whfast_world.heap[0]? = some ⟨true, .operator { operator_type := some .REBX_OPERATOR_UPDATER }⟩
    ∧ whfast_world.sim.integrator = .REB_INTEGRATOR_WHFAST
    ∧ allocs_succeed whfast_world 4
    ∧ rebx_add_operator whfast_world (some 0) = (1,
      { sim := whfast_world.sim
        rebx :=
          { pre_timestep_operators := [⟨.REBX_NODE_STEP, some 1⟩]
            post_timestep_operators := [⟨.REBX_NODE_STEP, some 3⟩] }
        heap := whfast_world.heap ++
          [⟨true, .step ⟨some 0, some (1 / 2)⟩⟩, ⟨true, .raw⟩,
           ⟨true, .step ⟨some 0, some (1 / 2)⟩⟩, ⟨true, .raw⟩]
        oracle := []
        faults := [] }) :=
  ⟨rfl, rfl, allocs_succeed_of_nil whfast_world 4 rfl,
    rebx_add_operator_whfast_updater whfast_world 0
      { operator_type := some .REBX_OPERATOR_UPDATER } rfl rfl rfl
      (allocs_succeed_of_nil whfast_world 4 rfl)⟩

/-- C2: registering a live Recorder operator while the two allocations (step,
node) succeed returns 1 whatever the integrator of the host; the post-step list
gains one Step node at its end, whose step refers to the operator and carries
`dt_fraction` one; the pre-step list, the force list, the host and the blocks
that existed before are unchanged. -/
theorem rebx_add_operator_recorder (w : World) (op : Addr) (o : rebx_operator)
    (hop : w.heap[op]? = some ⟨true, .operator o⟩)
    (hty : o.operator_type = some .REBX_OPERATOR_RECORDER)
    (hal : allocs_succeed w 2) :
    rebx_add_operator w (some op) = (1,
      { sim := w.sim
        rebx :=
          { sim := w.rebx.sim
            forces := w.rebx.forces
            pre_timestep_operators := w.rebx.pre_timestep_operators
            post_timestep_operators :=
              w.rebx.post_timestep_operators ++ [⟨.REBX_NODE_STEP, some w.heap.length⟩]
            integrator := w.rebx.integrator }
        heap := w.heap ++ [⟨true, .step ⟨some op, some 1⟩⟩, ⟨true, .raw⟩]
        oracle := w.oracle.drop 2
        faults := w.faults }) := by
  have e1 := rebx_add_operator_manual_succeeds w op .post_timestep_operators 1 hal
  unfold rebx_add_operator
  simp only [load_operator_live w op o hop, hty, e1]
  simp [rebx_head.set, rebx_head.get]

/-- Witness of C2 on a Mercurius host. -/
theorem rebx_add_operator_recorder_witness :
    recorder_world.heap[0]? =
      some ⟨true, .operator { operator_type := some .REBX_OPERATOR_RECORDER }⟩
    ∧ recorder_world.sim.integrator = .REB_INTEGRATOR_MERCURIUS
    ∧ allocs_succeed recorder_world 2
    ∧ rebx_add_operator recorder_world (some 0) = (1,
      { sim := recorder_world.sim
        rebx := { post_timestep_operators := [⟨.REBX_NODE_STEP, some 1⟩] }
        heap := recorder_world.heap ++ [⟨true, .step ⟨some 0, some 1⟩⟩, ⟨true, .raw⟩]
        oracle := []
        faults := [] }) :=
  ⟨rfl, rfl, allocs_succeed_of_nil recorder_world 2 rfl,
    rebx_add_operator_recorder recorder_world 0
      { operator_type := some .REBX_OPERATOR_RECORDER } rfl rfl
      (allocs_succeed_of_nil recorder_world 2 rfl)⟩

/-- C3: on a Mercurius host, registering a live Updater operator returns 0, hands
the host one error message, and changes nothing else: the pre-step list, the
post-step list, the force list and the heap are as before and no allocation is
attempted. -/
theorem rebx_add_operator_mercurius_updater (w : World) (op : Addr) (o : rebx_operator)
    (hop : w.heap[op]? = some ⟨true, .operator o⟩)
    (hty : o.operator_type = some .REBX_OPERATOR_UPDATER)
    (hint : w.sim.integrator = .REB_INTEGRATOR_MERCURIUS) :
    (rebx_add_operator w (some op)).1 = 0
    ∧ (rebx_add_operator w (some op)).2.sim.messages = w.sim.messages ++
        [⟨.error,
          "REBOUNDx Error: Operators that change particle states are not supported with Mercurius.\n"⟩]
    ∧ (rebx_add_operator w (some op)).2.rebx.pre_timestep_operators
        = w.rebx.pre_timestep_operators
    ∧ (rebx_add_operator w (some op)).2.rebx.post_timestep_operators
        = w.rebx.post_timestep_operators
    ∧ (rebx_add_operator w (some op)).2.rebx = w.rebx
    ∧ (rebx_add_operator w (some op)).2.heap = w.heap
    ∧ (rebx_add_operator w (some op)).2.oracle = w.oracle
    ∧ (rebx_add_operator w (some op)).2.faults = w.faults := by
  unfold rebx_add_operator
  simp only [load_operator_live w op o hop, hty, hint]
  simp [reb_error]

/-- Witness of C3. -/
theorem rebx_add_operator_mercurius_updater_witness :
    mercurius_world.heap[0]? =
      some ⟨true, .operator { operator_type := some .REBX_OPERATOR_UPDATER }⟩
    ∧ mercurius_world.sim.integrator = .REB_INTEGRATOR_MERCURIUS
    ∧ (rebx_add_operator mercurius_world (some 0)).1 = 0
    ∧ (rebx_add_operator mercurius_world (some 0)).2.rebx.pre_timestep_operators = []
    ∧ (rebx_add_operator mercurius_world (some 0)).2.rebx.post_timestep_operators = [] :=
  have h := rebx_add_operator_mercurius_updater mercurius_world 0
    { operator_type := some .REBX_OPERATOR_UPDATER } rfl rfl rfl
  ⟨rfl, rfl, h.1, h.2.2.1, h.2.2.2.1⟩

/-- C4: on an IAS15 host, registering a live Updater operator while the two
allocations (step, node) succeed returns 1; the post-step list gains one Step
node at its end, whose step refers to the operator and carries `dt_fraction`
one; the pre-step list gains nothing. -/
theorem rebx_add_operator_ias15_updater (w : World) (op : Addr) (o : rebx_operator)
    (hop : w.heap[op]? = some ⟨true, .operator o⟩)
    (hty : o.operator_type = some .REBX_OPERATOR_UPDATER)
    (hint : w.sim.integrator = .REB_INTEGRATOR_IAS15)
    (hal : allocs_succeed w 2) :
    rebx_add_operator w (some op) = (1,
      { sim := w.sim
        rebx :=
          { sim := w.rebx.sim
            forces := w.rebx.forces
            pre_timestep_operators := w.rebx.pre_timestep_operators
            post_timestep_operators :=
              w.rebx.post_timestep_operators ++ [⟨.REBX_NODE_STEP, some w.heap.length⟩]
            integrator := w.rebx.integrator }
        heap := w.heap ++ [⟨true, .step ⟨some op, some 1⟩⟩, ⟨true, .raw⟩]
        oracle := w.oracle.drop 2
        faults := w.faults }) := by
  have e1 := rebx_add_operator_manual_succeeds w op .post_timestep_operators 1 hal
  unfold rebx_add_operator
  simp only [load_operator_live w op o hop, hty, hint, e1]
  simp [rebx_head.set, rebx_head.get]

/-- Witness of C4. -/
theorem rebx_add_operator_ias15_updater_witness :
    ias15_world.heap[0]? =
      some ⟨true, .operator { operator_type := some .REBX_OPERATOR_UPDATER }⟩
    ∧ ias15_world.sim.integrator = .REB_INTEGRATOR_IAS15
    ∧ allocs_succeed ias15_world 2
    ∧ rebx_add_operator ias15_world (some 0) = (1,
      { sim := ias15_world.sim
        rebx := { post_timestep_operators := [⟨.REBX_NODE_STEP, some 1⟩] }
        heap := ias15_world.heap ++ [⟨true, .step ⟨some 0, some 1⟩⟩, ⟨true, .raw⟩]
        oracle := []
        faults := [] }) :=
  ⟨rfl, rfl, allocs_succeed_of_nil ias15_world 2 rfl,
    rebx_add_operator_ias15_updater ias15_world 0
      { operator_type := some .REBX_OPERATOR_UPDATER } rfl rfl rfl
      (allocs_succeed_of_nil ias15_world 2 rfl)⟩

/-- C5: on the WHFAST state whose third allocation fails, registering the Updater
operator returns 0 although the pre-step list, empty before the call, now holds
the Step node of the first wrapper; the post-step list is still empty.  On the
WHFAST state whose first allocation fails it returns 0 although the post-step
list now holds the Step node of the second wrapper. -/
theorem rebx_add_operator_whfast_half_registered :
    whfast_third_alloc_fails.heap[0]? =
      some ⟨true, .operator { operator_type := some .REBX_OPERATOR_UPDATER }⟩
    ∧ whfast_third_alloc_fails.sim.integrator = .REB_INTEGRATOR_WHFAST
    ∧ whfast_third_alloc_fails.rebx.pre_timestep_operators = []
    ∧ whfast_third_alloc_fails.rebx.post_timestep_operators = []
    ∧ (rebx_add_operator whfast_third_alloc_fails (some 0)).1 = 0
    ∧ (rebx_add_operator whfast_third_alloc_fails (some 0)).2.rebx.pre_timestep_operators
        = [⟨.REBX_NODE_STEP, some 1⟩]
    ∧ (rebx_add_operator whfast_third_alloc_fails (some 0)).2.rebx.post_timestep_operators
        = []
    ∧ (rebx_add_operator whfast_first_alloc_fails (some 0)).1 = 0
    ∧ (rebx_add_operator whfast_first_alloc_fails (some 0)).2.rebx.pre_timestep_operators
        = []
    ∧ (rebx_add_operator whfast_first_alloc_fails (some 0)).2.rebx.post_timestep_operators
        = [⟨.REBX_NODE_STEP, some 1⟩] := by
  decide

/-! ## The typed value store -/

theorem rebx_create_param_succeeds (w : World) (name : String) (param_type : rebx_param_type)
    (h : allocs_succeed w 2) :
    rebx_create_param w name param_type = (some w.heap.length,
      ⟨w.sim, w.rebx,
        w.heap ++ [⟨true, .param ⟨some (w.heap.length + 1), some param_type, some (-1), none⟩⟩,
          ⟨true, .chars name⟩],
        w.oracle.drop 2, w.faults⟩) := by
  have h1 : allocs_succeed w 1 := allocs_succeed_mono w 2 1 (by omega) h
  unfold rebx_create_param
  rw [rebx_malloc_succeeds w _ h1]
  simp only []
  rw [rebx_malloc_succeeds _ _ (allocs_succeed_tail w _ 1 h rfl)]
  simp only [List.append_assoc, List.cons_append, List.nil_append, List.length_append,
    List.length_cons, List.length_nil, store_param, strcpy, Nat.zero_add]
  rw [store_append_zero _ _ _ _ _ _ .raw _ rfl]
  simp only [List.set_cons_zero]
  rw [store_append _ _ _ _ _ _ 1 .raw _ rfl]
  simp only [List.set_cons_zero, List.set_cons_succ]
  rw [store_append_zero _ _ _ _ _ _ _ _ rfl]
  simp only [List.set_cons_zero]
  rw [store_append_zero _ _ _ _ _ _ _ _ rfl]
  simp only [List.set_cons_zero]
  rw [store_append_zero _ _ _ _ _ _ _ _ rfl]
  simp [Block.as_param, tail_tail_eq_drop]


theorem rebx_create_param_fails (w : World) (name : String) (param_type : rebx_param_type)
    (h : ¬ allocs_succeed w 2) : (rebx_create_param w name param_type).1 = none := by
  unfold rebx_create_param
  by_cases h0 : w.oracle.headD true = true
  · have h1 : allocs_succeed w 1 :=
      (allocs_succeed_succ w 0).2 ⟨h0, allocs_succeed_zero _⟩
    rw [rebx_malloc_succeeds w _ h1]
    simp only []
    by_cases h2 : w.oracle.tail.headD true = true
    · exact absurd ((allocs_succeed_succ w 1).2
        ⟨h0, (allocs_succeed_succ _ 0).2 ⟨h2, allocs_succeed_zero _⟩⟩) h
    · rw [rebx_malloc_fails _ _ (by omega) (by simpa using h2)]
  · rw [rebx_malloc_fails _ _ (by decide) (by simpa using h0)]

theorem rebx_alloc_param_value_succeeds (w : World) (T : rebx_param_type)
    (hT : T.supported = true) (h : allocs_succeed w 1) :
    rebx_alloc_param_value w T = (some w.heap.length,
      ⟨w.sim, w.rebx, w.heap ++ [⟨true, .raw⟩], w.oracle.tail, w.faults⟩) := by
  cases T <;>
    first
    | (simp only [rebx_alloc_param_value]; exact rebx_malloc_succeeds w _ h)
    | exact absurd hT (by simp [rebx_param_type.supported])

theorem rebx_alloc_param_value_fails (w : World) (T : rebx_param_type)
    (h : ¬ (T.supported = true ∧ allocs_succeed w 1)) :
    (rebx_alloc_param_value w T).1 = none := by
  have key : ∀ n : Nat, 0 < n → T.supported = true → (rebx_malloc w n).1 = none := by
    intro n hn hT
    have h0 : ¬ w.oracle.headD true = true := fun h0 =>
      h ⟨hT, (allocs_succeed_succ w 0).2 ⟨h0, allocs_succeed_zero _⟩⟩
    rw [rebx_malloc_fails w n hn (by simpa using h0)]
  cases T <;> simp only [rebx_alloc_param_value] <;> exact key _ (by decide) rfl

theorem rebx_attach_node_succeeds (w : World) (head : List rebx_node) (t : rebx_node_type)
    (h : allocs_succeed w 1) :
    rebx_attach_node w head t = (some head.length, head ++ [⟨t, none⟩],
      ⟨w.sim, w.rebx, w.heap ++ [⟨true, .raw⟩], w.oracle.tail, w.faults⟩) := by
  unfold rebx_attach_node
  rw [rebx_malloc_succeeds w _ h]

theorem rebx_attach_node_fails (w : World) (head : List rebx_node) (t : rebx_node_type)
    (h : ¬ allocs_succeed w 1) :
    rebx_attach_node w head t = (none, head,
      reb_error ⟨w.sim, w.rebx, w.heap, w.oracle.tail, w.faults⟩
        "REBOUNDx Error: Could not allocate memory.\n") := by
  have h0 : ¬ w.oracle.headD true = true := fun h0 =>
    h ((allocs_succeed_succ w 0).2 ⟨h0, allocs_succeed_zero _⟩)
  unfold rebx_attach_node
  rw [rebx_malloc_fails w _ (by decide) (by simpa using h0)]

theorem load_param_live (w : World) (a : Addr) (p : rebx_param)
    (h : w.heap[a]? = some ⟨true, .param p⟩) : load_param w a = (p, w) := by
  simp [load_param, load, h]

theorem load_chars_live (w : World) (a : Addr) (s : String)
    (h : w.heap[a]? = some ⟨true, .chars s⟩) : load_chars w (some a) = (s, w) := by
  simp [load_chars, load, h]

theorem rebx_add_param_until_lookup (w : World) (ap : List rebx_node) (X : String)
    (T : rebx_param_type) (hT : T.supported = true) (hal : allocs_succeed w 3) :
    rebx_add_param w (some ap) X T =
      match rebx_get_node (param_allocated w X T).heap ap X with
      | some _ =>
        match sprintf (param_allocated w X T) 300
          ("REBOUNDx Error: Parameter with name '" ++ X
            ++ "' passed to rebx_add_param already exists.\n") with
        | (str, w6) =>
          let w7 := reb_error w6 str
          let w8 := free w7 (some w.heap.length)
          match load_param w8 w.heap.length with
          | (q, w9) => (none, some ap, free w9 q.value)
      | none =>
        match rebx_attach_node (param_allocated w X T) ap .REBX_NODE_PARAM with
        | (none, l, w6) =>
          let w7 := free w6 (some w.heap.length)
          match load_param w7 w.heap.length with
          | (q, w8) => (none, some l, free w8 q.value)
        | (some node, l, w6) =>
          match load_param w6 w.heap.length with
          | (q, w7) => (q.value, some (set_object l node (some w.heap.length)), w7) := by
  have h2 : allocs_succeed w 2 := allocs_succeed_mono w 3 2 (by omega) hal
  unfold rebx_add_param
  simp only []
  rw [rebx_create_param_succeeds w X T h2]
  simp only []
  rw [rebx_alloc_param_value_succeeds _ T hT (allocs_succeed_drop w _ 2 1 hal rfl)]
  simp only [List.append_assoc, List.cons_append, List.nil_append, List.length_append,
    List.length_cons, List.length_nil, store_param, Nat.zero_add, Nat.reduceAdd, Nat.add_assoc]
  rw [store_append_zero _ _ _ _ _ _ _ _ rfl]
  simp only [List.set_cons_zero, Block.as_param]
  rw [load_param_live _ w.heap.length
    ⟨some (w.heap.length + 1), some T, some (-1), some (w.heap.length + 2)⟩
    ((getElem?_append_zero _ _).trans rfl)]
  simp only []
  rw [load_chars_live _ (w.heap.length + 1) X ((getElem?_append_add _ _ 1).trans rfl)]
  simp only [param_allocated]
  have e : (List.drop 2 w.oracle).tail = List.drop 3 w.oracle := by
    rcases w.oracle with _ | ⟨_, _ | ⟨_, _ | _⟩⟩ <;> rfl
  rw [e]


theorem rebx_add_param_fails_early (w : World) (ap : List rebx_node) (X : String)
    (T : rebx_param_type) (h : ¬ (T.supported = true ∧ allocs_succeed w 3)) :
    (rebx_add_param w (some ap) X T).1 = none := by
  unfold rebx_add_param
  simp only []
  by_cases h2 : allocs_succeed w 2
  · rw [rebx_create_param_succeeds w X T h2]
    simp only []
    have hv := rebx_alloc_param_value_fails
      ⟨w.sim, w.rebx,
        w.heap ++ [⟨true, .param ⟨some (w.heap.length + 1), some T, some (-1), none⟩⟩,
          ⟨true, .chars X⟩],
        w.oracle.drop 2, w.faults⟩ T (by
          rintro ⟨hT, h1⟩
          refine h ⟨hT, ?_⟩
          intro i hi
          by_cases hi2 : i < 2
          · exact h2 i hi2
          · have hi3 : i = 2 := by omega
            have := h1 0 (by omega)
            subst hi3
            simpa [List.getD_eq_getElem?_getD, List.getElem?_drop] using this)
    rcases hv2 : rebx_alloc_param_value _ T with ⟨v, w2⟩
    rw [hv2] at hv
    simp only at hv
    subst hv
    rfl
  · have hc := rebx_create_param_fails w X T h2
    rcases hc2 : rebx_create_param w X T with ⟨r, w1⟩
    rw [hc2] at hc
    simp only at hc
    subst hc
    rfl

theorem rebx_add_param_succeeds (w : World) (ap : List rebx_node) (X : String)
    (T : rebx_param_type) (hT : T.supported = true) (hal : allocs_succeed w 4)
    (hnew : rebx_get_node (param_allocated w X T).heap ap X = none) :
    rebx_add_param w (some ap) X T = (some (w.heap.length + 2),
      some (ap ++ [⟨.REBX_NODE_PARAM, some w.heap.length⟩]),
      ⟨w.sim, w.rebx,
        w.heap ++ [⟨true, .param ⟨some (w.heap.length + 1), some T, some (-1),
            some (w.heap.length + 2)⟩⟩, ⟨true, .chars X⟩, ⟨true, .raw⟩, ⟨true, .raw⟩],
        w.oracle.drop 4, w.faults⟩) := by
  rw [rebx_add_param_until_lookup w ap X T hT (allocs_succeed_mono w 4 3 (by omega) hal), hnew]
  simp only []
  rw [rebx_attach_node_succeeds _ ap _ (allocs_succeed_drop w _ 3 1 hal rfl)]
  simp only [param_allocated, List.append_assoc, List.cons_append, List.nil_append]
  rw [load_param_live _ w.heap.length
    ⟨some (w.heap.length + 1), some T, some (-1), some (w.heap.length + 2)⟩
    ((getElem?_append_zero _ _).trans rfl)]
  simp only [set_object_concat]
  have e : (List.drop 3 w.oracle).tail = List.drop 4 w.oracle := by
    rcases w.oracle with _ | ⟨_, _ | ⟨_, _ | ⟨_, _ | _⟩⟩⟩ <;> rfl
  rw [e]

theorem rebx_add_param_inv (w : World) (ap : List rebx_node) (X : String)
    (T : rebx_param_type) (s : Addr) (ap1 : List rebx_node) (w1 : World)
    (hadd : rebx_add_param w (some ap) X T = (some s, some ap1, w1)) :
    T.supported = true ∧ allocs_succeed w 4
      ∧ rebx_get_node (param_allocated w X T).heap ap X = none := by
  have hfst : (rebx_add_param w (some ap) X T).1 = some s := by rw [hadd]
  by_cases h3 : T.supported = true ∧ allocs_succeed w 3
  · obtain ⟨hT, hal3⟩ := h3
    rw [rebx_add_param_until_lookup w ap X T hT hal3] at hfst
    cases hfind : rebx_get_node (param_allocated w X T).heap ap X with
    | some nd =>
      rw [hfind] at hfst
      have h : (none : Option Addr) = some s := hfst
      cases h
    | none =>
      rw [hfind] at hfst
      refine ⟨hT, ?_, rfl⟩
      by_contra hal4
      have h1 : ¬ allocs_succeed (param_allocated w X T) 1 := by
        intro h1
        apply hal4
        intro i hi
        by_cases hi3 : i < 3
        · exact hal3 i hi3
        · have hi4 : i = 3 := by omega
          have := h1 0 (by omega)
          subst hi4
          simpa [param_allocated, List.getD_eq_getElem?_getD, List.getElem?_drop] using this
      simp only [] at hfst
      rw [rebx_attach_node_fails _ ap _ h1] at hfst
      have h : (none : Option Addr) = some s := hfst
      cases h
  · have h := rebx_add_param_fails_early w ap X T h3
    rw [hfst] at h
    cases h

theorem chars_at_eq_view (heap : List Cell) (ptr : Option Addr) :
    chars_at heap ptr =
      match ptr with
      | none => none
      | some b =>
        match name_view heap[b]? with
        | some (.chars s) => some s
        | _ => none := by
  cases ptr with
  | none => rfl
  | some b =>
    simp only [chars_at]
    cases heap[b]? with
    | none => rfl
    | some c => rcases c with ⟨l, blk⟩; cases blk <;> rfl

theorem node_name_eq_view (heap : List Cell) (nd : rebx_node) :
    node_name heap nd =
      match nd.object with
      | none => none
      | some a =>
        match name_view heap[a]? with
        | some (.param p) => chars_at heap p.name
        | some (.force f) => chars_at heap f.name
        | _ => none := by
  unfold node_name
  cases nd.object with
  | none => rfl
  | some a =>
    simp only []
    cases heap[a]? with
    | none => rfl
    | some c => rcases c with ⟨l, blk⟩; cases blk <;> rfl

theorem node_name_congr (h1 h2 : List Cell) (nd : rebx_node)
    (hag : ∀ a : Nat, name_view h1[a]? = name_view h2[a]?) : node_name h1 nd = node_name h2 nd := by
  have hc : ∀ ptr, chars_at h1 ptr = chars_at h2 ptr := by
    intro ptr
    rw [chars_at_eq_view, chars_at_eq_view]
    cases ptr with
    | none => rfl
    | some b => simp only [hag b]
  rw [node_name_eq_view, node_name_eq_view]
  cases nd.object with
  | none => rfl
  | some a => simp only [hag a, hc]

theorem rebx_get_node_congr (h1 h2 : List Cell) (head : List rebx_node) (name : String)
    (hag : ∀ a : Nat, name_view h1[a]? = name_view h2[a]?) :
    rebx_get_node h1 head name = rebx_get_node h2 head name := by
  unfold rebx_get_node
  congr 1
  funext nd
  rw [node_name_congr h1 h2 nd hag]

theorem name_view_append (h t1 t2 : List Cell)
    (hag : ∀ i : Nat, name_view t1[i]? = name_view t2[i]?) (a : Nat) :
    name_view (h ++ t1)[a]? = name_view (h ++ t2)[a]? := by
  by_cases ha : a < h.length
  · rw [List.getElem?_append_left ha, List.getElem?_append_left ha]
  · obtain ⟨i, rfl⟩ : ∃ i, a = h.length + i := ⟨a - h.length, by omega⟩
    rw [getElem?_append_add, getElem?_append_add]
    exact hag i

theorem load_heap (w : World) (a : Addr) : (load w a).2.heap = w.heap := by
  unfold load
  cases w.heap[a]? with
  | none => rfl
  | some c => by_cases hl : c.live = true <;> simp [hl, World.fault]

theorem load_param_heap (w : World) (a : Addr) : (load_param w a).2.heap = w.heap := by
  have h := load_heap w a
  unfold load_param
  rcases hl : load w a with ⟨b, w1⟩
  rw [hl] at h
  rcases b with _ | b
  · exact h
  · cases b <;> exact h

theorem sprintf_heap (w : World) (n : Nat) (t : String) : (sprintf w n t).2.heap = w.heap := by
  unfold sprintf
  by_cases h : strlen t + 1 ≤ n
  · rw [if_pos h]
  · rw [if_neg h]; rfl

theorem rebx_get_param_heap (w : World) (ap : List rebx_node) (name : String)
    (T : rebx_param_type) : (rebx_get_param w ap name T).2.heap = w.heap := by
  unfold rebx_get_param
  cases rebx_get_param_struct w ap name with
  | none => rfl
  | some param =>
    simp only []
    by_cases hT : (load_param w param).1.param_type ≠ some T
    · rw [if_pos hT]
      exact (sprintf_heap _ _ _).trans (load_param_heap w param)
    · rw [if_neg hT]
      exact load_param_heap w param

theorem rebx_get_param_after_add (w w2 : World) (ap : List rebx_node) (X : String)
    (T : rebx_param_type) (c2 c3 : Cell)
    (hnew : rebx_get_node (param_allocated w X T).heap ap X = none)
    (h2 : name_view (some c2) = none) (h3 : name_view (some c3) = none)
    (hheap : w2.heap = w.heap ++ [⟨true, .param ⟨some (w.heap.length + 1), some T, some (-1),
        some (w.heap.length + 2)⟩⟩, ⟨true, .chars X⟩, c2, c3]) :
    rebx_get_param w2 (ap ++ [⟨.REBX_NODE_PARAM, some w.heap.length⟩]) X T
      = (some (w.heap.length + 2), w2) := by
  have hag : ∀ a : Nat, name_view (param_allocated w X T).heap[a]? = name_view w2.heap[a]? := by
    intro a
    rw [hheap]
    apply name_view_append
    intro i
    match i with
    | 0 => rfl
    | 1 => rfl
    | 2 => exact h2.symm
    | 3 => exact h3.symm
    | (j + 4) => rfl
  have hold : rebx_get_node w2.heap ap X = none := by
    rw [← rebx_get_node_congr _ _ ap X hag]; exact hnew
  have e0 : w2.heap[w.heap.length]? = some ⟨true, .param ⟨some (w.heap.length + 1), some T,
      some (-1), some (w.heap.length + 2)⟩⟩ := by
    rw [hheap]; exact (getElem?_append_zero _ _).trans rfl
  have e1 : w2.heap[w.heap.length + 1]? = some ⟨true, .chars X⟩ := by
    rw [hheap]; exact (getElem?_append_add _ _ 1).trans rfl
  have hname : node_name w2.heap ⟨.REBX_NODE_PARAM, some w.heap.length⟩ = some X := by
    simp only [node_name, e0, chars_at, e1]
  have hstruct : rebx_get_param_struct w2 (ap ++ [⟨.REBX_NODE_PARAM, some w.heap.length⟩]) X
      = some w.heap.length := by
    unfold rebx_get_param_struct
    have : rebx_get_node w2.heap (ap ++ [⟨.REBX_NODE_PARAM, some w.heap.length⟩]) X
        = some ⟨.REBX_NODE_PARAM, some w.heap.length⟩ := by
      unfold rebx_get_node at hold ⊢
      rw [List.find?_append, hold]
      simp [hname]
    rw [this]
  unfold rebx_get_param
  rw [hstruct]
  simp only []
  rw [load_param_live w2 _ _ e0]
  exact if_neg (fun h => h rfl)


/-- C6: whenever `rebx_add_param` succeeds on a list (which it does only for a
supported type and a name the list does not hold yet) and returns the slot `s`,
a following `rebx_get_param` of the same name and type on the resulting list
returns `s` and changes nothing; after a value `v` is written through `s`, in
every state with that heap `rebx_get_param` still returns `s` and reading `s`
gives `v`; and no call of `rebx_get_param` changes the heap, so this holds after
any number of later lookups. -/
theorem rebx_add_param_get_param_round_trip (w : World) (ap : List rebx_node) (X : String)
    (T : rebx_param_type) (s : Addr) (ap1 : List rebx_node) (w1 : World)
    (hadd : rebx_add_param w (some ap) X T = (some s, some ap1, w1)) :
    rebx_get_param w1 ap1 X T = (some s, w1)
    ∧ (∀ (v : rebx_value) (w2 : World),
        w2.heap = (store w1 s (fun _ => .value v)).heap →
          rebx_get_param w2 ap1 X T = (some s, w2) ∧ load w2 s = (some (.value v), w2))
    ∧ (∀ (w2 : World) (name : String) (T2 : rebx_param_type),
        (rebx_get_param w2 ap1 name T2).2.heap = w2.heap) := by
  obtain ⟨hT, hal, hnew⟩ := rebx_add_param_inv w ap X T s ap1 w1 hadd
  rw [rebx_add_param_succeeds w ap X T hT hal hnew] at hadd
  simp only [Prod.mk.injEq, Option.some.injEq] at hadd
  obtain ⟨hs, hap, hw⟩ := hadd
  subst hs hap hw
  refine ⟨?_, ?_, fun w2 name T2 => rebx_get_param_heap w2 _ name T2⟩
  · exact rebx_get_param_after_add w _ ap X T ⟨true, .raw⟩ ⟨true, .raw⟩ hnew rfl rfl rfl
  · intro v w2 hw2
    have hheap : w2.heap = w.heap ++ [⟨true, .param ⟨some (w.heap.length + 1), some T,
        some (-1), some (w.heap.length + 2)⟩⟩, ⟨true, .chars X⟩, ⟨true, .value v⟩,
        ⟨true, .raw⟩] := by
      rw [hw2, store_append _ _ _ _ _ _ 2 .raw _ rfl]
      rfl
    refine ⟨rebx_get_param_after_add w w2 ap X T ⟨true, .value v⟩ ⟨true, .raw⟩ hnew rfl rfl
      hheap, ?_⟩
    have e2 : w2.heap[w.heap.length + 2]? = some ⟨true, .value v⟩ := by
      rw [hheap]; exact (getElem?_append_add _ _ 2).trans rfl
    simp [load, e2]

/-- Witness of C6: `tau_a` added as a double to an empty list. -/
theorem rebx_add_param_get_param_round_trip_witness :
    rebx_add_param {} (some []) "tau_a" .REBX_TYPE_DOUBLE
      = (some 2, some [⟨.REBX_NODE_PARAM, some 0⟩], tau_a_added)
    ∧ rebx_get_param tau_a_added [⟨.REBX_NODE_PARAM, some 0⟩] "tau_a" .REBX_TYPE_DOUBLE
      = (some 2, tau_a_added) :=
  have h : rebx_add_param {} (some []) "tau_a" .REBX_TYPE_DOUBLE
      = (some 2, some [⟨.REBX_NODE_PARAM, some 0⟩], tau_a_added) :=
    rebx_add_param_succeeds {} [] "tau_a" .REBX_TYPE_DOUBLE rfl
      (allocs_succeed_of_nil {} 4 rfl) rfl
  ⟨h, (rebx_add_param_get_param_round_trip {} [] "tau_a" .REBX_TYPE_DOUBLE 2
    [⟨.REBX_NODE_PARAM, some 0⟩] tau_a_added h).1⟩

theorem strlen_append (a b : String) : strlen (a ++ b) = strlen a + strlen b := by
  show (a ++ b).utf8ByteSize = a.utf8ByteSize + b.utf8ByteSize
  rcases a with ⟨a⟩
  rcases b with ⟨b⟩
  show String.utf8ByteSize ⟨a ++ b⟩ = _
  simp [String.utf8ByteSize_mk, String.utf8Len_append]

theorem strlen_wrong_type_message (param_name : String) :
    strlen (wrong_type_message param_name) = 266 + strlen param_name := by
  have h1 : strlen "REBOUNDx Error: Parameter '" = 27 := by decide
  have h2 : strlen "' passed to rebx_get_param_check was found but was of wrong type.  See documentation for your particular effect.  In python, you might need to add a dot at the end of the number when assigning a parameter that REBOUNDx expects as a float.\n" = 239 := by
    set_option maxRecDepth 8000 in decide
  unfold wrong_type_message
  rw [strlen_append, strlen_append, h1, h2]
  omega

theorem rebx_get_param_absent (w : World) (ap : List rebx_node) (X : String)
    (T : rebx_param_type) (h : rebx_get_node w.heap ap X = none) :
    rebx_get_param w ap X T = (none, w) := by
  simp [rebx_get_param, rebx_get_param_struct, h]

theorem rebx_get_param_wrong_type (w : World) (ap : List rebx_node) (X : String)
    (T T2 : rebx_param_type) (a : Addr) (p : rebx_param)
    (hfind : rebx_get_param_struct w ap X = some a)
    (hp : w.heap[a]? = some ⟨true, .param p⟩) (hT : p.param_type = some T) (hne : T2 ≠ T) :
    rebx_get_param w ap X T2 =
      (none, reb_error
        (if strlen X ≤ 33 then w else w.fault (.buffer_overrun 300 (267 + strlen X)))
        (wrong_type_message X)) := by
  unfold rebx_get_param
  rw [hfind]
  simp only []
  rw [load_param_live w a p hp, if_pos (by rw [hT]; exact fun h => hne (Option.some.inj h).symm)]
  show (none, reb_error (sprintf w 300 (wrong_type_message X)).2
    (sprintf w 300 (wrong_type_message X)).1) = _
  unfold sprintf
  rw [strlen_wrong_type_message]
  by_cases hfit : strlen X ≤ 33
  · rw [if_pos hfit, if_pos (by omega)]
  · rw [if_neg hfit, if_neg (by omega)]
    have e : 266 + strlen X + 1 = 267 + strlen X := by omega
    rw [e]

/-- C7: `rebx_add_param` puts a parameter whose name has 64 bytes into an empty
list as a double.  Asked for it as a double, `rebx_get_param` returns its slot.
Asked for it as an int, it formats a message of 330 bytes plus the terminator
into `char str[300]`: the call writes 31 bytes past the end of the buffer, and
from there on C gives the execution no meaning. -/
theorem rebx_get_param_wrong_type_overrun :
    strlen name64 = 64
    ∧ rebx_add_param {} (some []) name64 .REBX_TYPE_DOUBLE
        = (some 2, some [⟨.REBX_NODE_PARAM, some 0⟩], long_name_world)
    ∧ rebx_get_param long_name_world [⟨.REBX_NODE_PARAM, some 0⟩] name64 .REBX_TYPE_DOUBLE
        = (some 2, long_name_world)
    ∧ (rebx_get_param long_name_world [⟨.REBX_NODE_PARAM, some 0⟩] name64
        .REBX_TYPE_INT).2.faults = [.buffer_overrun 300 331] := by
  refine ⟨by decide, by decide, by decide, ?_⟩
  rw [rebx_get_param_wrong_type long_name_world [⟨.REBX_NODE_PARAM, some 0⟩] name64
    .REBX_TYPE_DOUBLE .REBX_TYPE_INT 0 ⟨some 1, some .REBX_TYPE_DOUBLE, some (-1), some 2⟩
    (by decide) rfl rfl (by decide)]
  decide

theorem free_append_zero (s : reb_simulation) (r : rebx_extras) (h t : List Cell)
    (o : List Bool) (fl : List Fault) (b : Block) (ht : t[0]? = some ⟨true, b⟩) :
    free ⟨s, r, h ++ t, o, fl⟩ (some h.length) = ⟨s, r, h ++ t.set 0 ⟨false, b⟩, o, fl⟩ := by
  simp [free, getElem?_append_zero, ht]

theorem strlen_force_not_found_message (name : String) :
    strlen (force_not_found_message name) = 57 + strlen name := by
  have h1 : strlen "REBOUNDx error: Force '" = 23 := by decide
  have h2 : strlen "' not found in rebx_create_force.\n" = 34 := by decide
  unfold force_not_found_message
  rw [strlen_append, strlen_append, h1, h2]
  omega

theorem strlen_operator_not_found_message (name : String) :
    strlen (operator_not_found_message name) = 63 + strlen name := by
  have h1 : strlen "REBOUNDx error: Operator '" = 26 := by decide
  have h2 : strlen "' not found in rebx_create_operator.\n" = 37 := by decide
  unfold operator_not_found_message
  rw [strlen_append, strlen_append, h1, h2]
  omega

theorem rebx_create_force_gr (w : World) (h : allocs_succeed w 2) :
    rebx_create_force w "gr" = (some w.heap.length,
      ⟨w.sim, w.rebx,
        w.heap ++ [⟨true, .force ⟨some (w.heap.length + 1), [], true,
            some .REBX_FORCE_VEL, some .rebx_gr⟩⟩, ⟨true, .chars "gr"⟩],
        w.oracle.drop 2, w.faults⟩) := by
  have h1 : allocs_succeed w 1 := allocs_succeed_mono w 2 1 (by omega) h
  unfold rebx_create_force
  rw [rebx_malloc_succeeds w _ h1]
  simp only [store_force, store_fresh, Block.as_force]
  rw [rebx_malloc_succeeds _ _ (allocs_succeed_tail w _ 1 h rfl)]
  simp only [List.append_assoc, List.cons_append, List.nil_append, List.length_append,
    List.length_cons, List.length_nil, strcpy, Nat.zero_add, if_true]
  rw [store_append_zero _ _ _ _ _ _ _ _ rfl]
  simp only [List.set_cons_zero]
  rw [store_append _ _ _ _ _ _ 1 .raw _ rfl]
  simp only [List.set_cons_zero, List.set_cons_succ]
  rw [store_append_zero _ _ _ _ _ _ _ _ rfl]
  simp only [List.set_cons_zero]
  rw [store_append_zero _ _ _ _ _ _ _ _ rfl]
  simp [tail_tail_eq_drop]

theorem rebx_create_force_unknown (w : World) (name : String) (hname : name ≠ "gr")
    (h : allocs_succeed w 2) :
    rebx_create_force w name = (none,
      reb_error
        (if strlen name ≤ 42 then
          ⟨w.sim, w.rebx,
            w.heap ++ [⟨false, .force ⟨some (w.heap.length + 1), [], true, none, none⟩⟩,
              ⟨true, .chars name⟩],
            w.oracle.drop 2, w.faults⟩
        else
          ⟨w.sim, w.rebx,
            w.heap ++ [⟨false, .force ⟨some (w.heap.length + 1), [], true, none, none⟩⟩,
              ⟨true, .chars name⟩],
            w.oracle.drop 2, w.faults ++ [.buffer_overrun 100 (58 + strlen name)]⟩)
        (force_not_found_message name)) := by
  have h1 : allocs_succeed w 1 := allocs_succeed_mono w 2 1 (by omega) h
  unfold rebx_create_force
  rw [rebx_malloc_succeeds w _ h1]
  simp only [store_force, store_fresh, Block.as_force]
  rw [rebx_malloc_succeeds _ _ (allocs_succeed_tail w _ 1 h rfl)]
  simp only [List.append_assoc, List.cons_append, List.nil_append, List.length_append,
    List.length_cons, List.length_nil, strcpy, Nat.zero_add, if_neg hname]
  rw [store_append_zero _ _ _ _ _ _ _ _ rfl]
  simp only [List.set_cons_zero]
  rw [store_append _ _ _ _ _ _ 1 .raw _ rfl]
  simp only [List.set_cons_zero, List.set_cons_succ]
  rw [free_append_zero _ _ _ _ _ _ _ rfl]
  simp only [List.set_cons_zero, tail_tail_eq_drop]
  show (none, reb_error (sprintf _ 100 (force_not_found_message name)).2
    (sprintf _ 100 (force_not_found_message name)).1) = _
  unfold sprintf
  rw [strlen_force_not_found_message]
  by_cases hfit : strlen name ≤ 42
  · rw [if_pos hfit, if_pos (by omega)]
  · rw [if_neg hfit, if_neg (by omega)]
    have e : 57 + strlen name + 1 = 58 + strlen name := by omega
    rw [e]
    rfl


theorem rebx_create_operator_known (w : World) (name : String) (fn : rebx_step_fn)
    (hfn : (name = "kepler" ∧ fn = .rebx_kepler_step) ∨ (name = "jump" ∧ fn = .rebx_jump_step)
      ∨ (name = "interaction" ∧ fn = .rebx_interaction_step)
      ∨ (name = "ias15" ∧ fn = .rebx_ias15_step))
    (h : allocs_succeed w 2) :
    rebx_create_operator w name = (some w.heap.length,
      ⟨w.sim, w.rebx,
        w.heap ++ [⟨true, .operator ⟨some (w.heap.length + 1), [], true,
            some .REBX_OPERATOR_UPDATER, some fn⟩⟩, ⟨true, .chars name⟩],
        w.oracle.drop 2, w.faults⟩) := by
  have h1 : allocs_succeed w 1 := allocs_succeed_mono w 2 1 (by omega) h
  unfold rebx_create_operator
  rw [rebx_malloc_succeeds w _ h1]
  simp only [store_operator, store_fresh, Block.as_operator]
  rw [rebx_malloc_succeeds _ _ (allocs_succeed_tail w _ 1 h rfl)]
  simp only [List.append_assoc, List.cons_append, List.nil_append, List.length_append,
    List.length_cons, List.length_nil, strcpy, Nat.zero_add]
  rw [store_append_zero _ _ _ _ _ _ _ _ rfl]
  simp only [List.set_cons_zero]
  rw [store_append _ _ _ _ _ _ 1 .raw _ rfl]
  simp only [List.set_cons_zero, List.set_cons_succ]
  rcases hfn with ⟨rfl, rfl⟩ | ⟨rfl, rfl⟩ | ⟨rfl, rfl⟩ | ⟨rfl, rfl⟩
  · rw [if_pos rfl, store_append_zero _ _ _ _ _ _ _ _ rfl]
    simp only [List.set_cons_zero]
    rw [store_append_zero _ _ _ _ _ _ _ _ rfl]
    simp [tail_tail_eq_drop]
  · rw [if_neg (by decide), if_pos rfl, store_append_zero _ _ _ _ _ _ _ _ rfl]
    simp only [List.set_cons_zero]
    rw [store_append_zero _ _ _ _ _ _ _ _ rfl]
    simp [tail_tail_eq_drop]
  · rw [if_neg (by decide), if_neg (by decide), if_pos rfl,
      store_append_zero _ _ _ _ _ _ _ _ rfl]
    simp only [List.set_cons_zero]
    rw [store_append_zero _ _ _ _ _ _ _ _ rfl]
    simp [tail_tail_eq_drop]
  · rw [if_neg (by decide), if_neg (by decide), if_neg (by decide), if_pos rfl,
      store_append_zero _ _ _ _ _ _ _ _ rfl]
    simp only [List.set_cons_zero]
    rw [store_append_zero _ _ _ _ _ _ _ _ rfl]
    simp [tail_tail_eq_drop]

theorem rebx_create_operator_unknown (w : World) (name : String)
    (hname : name ≠ "kepler" ∧ name ≠ "jump" ∧ name ≠ "interaction" ∧ name ≠ "ias15")
    (h : allocs_succeed w 2) :
    rebx_create_operator w name = (none,
      reb_error
        (if strlen name ≤ 36 then
          ⟨w.sim, w.rebx,
            w.heap ++ [⟨false, .operator ⟨some (w.heap.length + 1), [], true, none, none⟩⟩,
              ⟨true, .chars name⟩],
            w.oracle.drop 2, w.faults⟩
        else
          ⟨w.sim, w.rebx,
            w.heap ++ [⟨false, .operator ⟨some (w.heap.length + 1), [], true, none, none⟩⟩,
              ⟨true, .chars name⟩],
            w.oracle.drop 2, w.faults ++ [.buffer_overrun 100 (64 + strlen name)]⟩)
        (operator_not_found_message name)) := by
  have h1 : allocs_succeed w 1 := allocs_succeed_mono w 2 1 (by omega) h
  unfold rebx_create_operator
  rw [rebx_malloc_succeeds w _ h1]
  simp only [store_operator, store_fresh, Block.as_operator]
  rw [rebx_malloc_succeeds _ _ (allocs_succeed_tail w _ 1 h rfl)]
  simp only [List.append_assoc, List.cons_append, List.nil_append, List.length_append,
    List.length_cons, List.length_nil, strcpy, Nat.zero_add, if_neg hname.1,
    if_neg hname.2.1, if_neg hname.2.2.1, if_neg hname.2.2.2]
  rw [store_append_zero _ _ _ _ _ _ _ _ rfl]
  simp only [List.set_cons_zero]
  rw [store_append _ _ _ _ _ _ 1 .raw _ rfl]
  simp only [List.set_cons_zero, List.set_cons_succ]
  rw [free_append_zero _ _ _ _ _ _ _ rfl]
  simp only [List.set_cons_zero, tail_tail_eq_drop]
  show (none, reb_error (sprintf _ 100 (operator_not_found_message name)).2
    (sprintf _ 100 (operator_not_found_message name)).1) = _
  unfold sprintf
  rw [strlen_operator_not_found_message]
  by_cases hfit : strlen name ≤ 36
  · rw [if_pos hfit, if_pos (by omega)]
  · rw [if_neg hfit, if_neg (by omega)]
    have e : 63 + strlen name + 1 = 64 + strlen name := by omega
    rw [e]
    rfl

theorem rebx_create_force_alloc_fails (w : World) (name : String)
    (h : ¬ allocs_succeed w 2) :
    (rebx_create_force w name).1 = none
    ∧ (rebx_create_force w name).2.rebx = w.rebx
    ∧ (rebx_create_force w name).2.sim.messages
        = w.sim.messages ++ [⟨.error, alloc_failed_message⟩]
    ∧ (rebx_create_force w name).2.faults = w.faults := by
  unfold rebx_create_force
  by_cases h0 : w.oracle.headD true = true
  · have h1 : allocs_succeed w 1 :=
      (allocs_succeed_succ w 0).2 ⟨h0, allocs_succeed_zero _⟩
    have h2 : ¬ w.oracle.tail.headD true = true := fun h2 =>
      h ((allocs_succeed_succ w 1).2
        ⟨h0, (allocs_succeed_succ _ 0).2 ⟨h2, allocs_succeed_zero _⟩⟩)
    rw [rebx_malloc_succeeds w _ h1]
    simp only [store_force, store_fresh, Block.as_force]
    rw [rebx_malloc_fails _ _ (by omega) (by simpa using h2)]
    simp only [reb_error]
    rw [store_append_zero _ _ _ _ _ _ _ _ rfl]
    simp only [List.set_cons_zero]
    rw [free_append_zero _ _ _ _ _ _ _ rfl]
    refine ⟨?_, ?_, ?_, ?_⟩ <;> trivial
  · rw [rebx_malloc_fails _ _ (by decide) (by simpa using h0)]
    exact ⟨rfl, rfl, rfl, rfl⟩

theorem rebx_create_operator_alloc_fails (w : World) (name : String)
    (h : ¬ allocs_succeed w 2) :
    (rebx_create_operator w name).1 = none
    ∧ (rebx_create_operator w name).2.rebx = w.rebx
    ∧ (rebx_create_operator w name).2.sim.messages
        = w.sim.messages ++ [⟨.error, alloc_failed_message⟩]
    ∧ (rebx_create_operator w name).2.faults = w.faults := by
  unfold rebx_create_operator
  by_cases h0 : w.oracle.headD true = true
  · have h1 : allocs_succeed w 1 :=
      (allocs_succeed_succ w 0).2 ⟨h0, allocs_succeed_zero _⟩
    have h2 : ¬ w.oracle.tail.headD true = true := fun h2 =>
      h ((allocs_succeed_succ w 1).2
        ⟨h0, (allocs_succeed_succ _ 0).2 ⟨h2, allocs_succeed_zero _⟩⟩)
    rw [rebx_malloc_succeeds w _ h1]
    simp only [store_operator, store_fresh, Block.as_operator]
    rw [rebx_malloc_fails _ _ (by omega) (by simpa using h2)]
    simp only [reb_error]
    rw [store_append_zero _ _ _ _ _ _ _ _ rfl]
    simp only [List.set_cons_zero]
    rw [free_append_zero _ _ _ _ _ _ _ rfl]
    refine ⟨?_, ?_, ?_, ?_⟩ <;> trivial
  · rw [rebx_malloc_fails _ _ (by decide) (by simpa using h0)]
    exact ⟨rfl, rfl, rfl, rfl⟩


theorem strlen_duplicate_message (param_name : String) :
    strlen (duplicate_message param_name) = 80 + strlen param_name := by
  have h1 : strlen "REBOUNDx Error: Parameter with name '" = 37 := by decide
  have h2 : strlen "' passed to rebx_add_param already exists.\n" = 43 := by decide
  unfold duplicate_message
  rw [strlen_append, strlen_append, h1, h2]
  omega

theorem load_param_freed (s : reb_simulation) (r : rebx_extras) (h t : List Cell)
    (o : List Bool) (fl : List Fault) (p : rebx_param)
    (ht : t[0]? = some ⟨false, .param p⟩) :
    load_param ⟨s, r, h ++ t, o, fl⟩ h.length
      = (p, ⟨s, r, h ++ t, o, fl ++ [.use_after_free h.length]⟩) := by
  simp [load_param, load, getElem?_append_zero, ht, World.fault]

theorem free_append (s : reb_simulation) (r : rebx_extras) (h t : List Cell)
    (o : List Bool) (fl : List Fault) (i : Nat) (b : Block) (ht : t[i]? = some ⟨true, b⟩) :
    free ⟨s, r, h ++ t, o, fl⟩ (some (h.length + i))
      = ⟨s, r, h ++ t.set i ⟨false, b⟩, o, fl⟩ := by
  simp [free, getElem?_append_add, ht, set_append_add]

theorem sprintf_duplicate_message (w : World) (X : String) :
    sprintf w 300 ("REBOUNDx Error: Parameter with name '" ++ X
        ++ "' passed to rebx_add_param already exists.\n")
      = (duplicate_message X,
          if strlen X ≤ 219 then w else w.fault (.buffer_overrun 300 (81 + strlen X))) := by
  have hlen := strlen_duplicate_message X
  unfold duplicate_message at hlen ⊢
  unfold sprintf
  rw [hlen]
  by_cases hfit : strlen X ≤ 219
  · rw [if_pos hfit, if_pos (by omega)]
  · rw [if_neg hfit, if_neg (by omega)]
    have e : 80 + strlen X + 1 = 81 + strlen X := by omega
    rw [e]

theorem rebx_add_param_duplicate (w : World) (ap : List rebx_node) (X : String)
    (T : rebx_param_type) (nd : rebx_node) (hT : T.supported = true)
    (hal : allocs_succeed w 3)
    (hfind : rebx_get_node (param_allocated w X T).heap ap X = some nd) :
    rebx_add_param w (some ap) X T = (none, some ap,
      ⟨{ w.sim with messages := w.sim.messages ++ [⟨.error, duplicate_message X⟩] }, w.rebx,
        w.heap ++ [⟨false, .param ⟨some (w.heap.length + 1), some T, some (-1),
            some (w.heap.length + 2)⟩⟩, ⟨true, .chars X⟩, ⟨false, .raw⟩],
        w.oracle.drop 3,
        (if strlen X ≤ 219 then w.faults
          else w.faults ++ [.buffer_overrun 300 (81 + strlen X)])
          ++ [.use_after_free w.heap.length]⟩) := by
  rw [rebx_add_param_until_lookup w ap X T hT hal, hfind]
  simp only []
  rw [sprintf_duplicate_message]
  simp only []
  by_cases hfit : strlen X ≤ 219
  · rw [if_pos hfit, if_pos hfit]
    simp only [param_allocated, reb_error]
    rw [free_append_zero _ _ _ _ _ _ _ rfl]
    simp only [List.set_cons_zero]
    rw [load_param_freed _ _ _ _ _ _ _ rfl]
    simp only []
    rw [free_append _ _ _ _ _ _ 2 .raw rfl]
    rfl
  · rw [if_neg hfit, if_neg hfit]
    simp only [param_allocated, reb_error, World.fault]
    rw [free_append_zero _ _ _ _ _ _ _ rfl]
    simp only [List.set_cons_zero]
    rw [load_param_freed _ _ _ _ _ _ _ rfl]
    simp only []
    rw [free_append _ _ _ _ _ _ 2 .raw rfl]
    rfl

/-- C8: `rebx_add_param` puts a parameter whose name has 256 bytes into an empty
list as a double.  Adding the name again formats a message of 336 bytes plus
the terminator into `char str[300]`, writing past the end of the buffer, then
frees the new parameter (block 4) and reads its `value` field to free the value
buffer: a read of a freed block.  The read of the freed block happens whenever
the call gets as far as finding the name in the list: adding `tau_a` to a list
that holds it returns `NULL` and the same list only in the nominal continuation
of that fault. -/
theorem rebx_add_param_duplicate_faults :
    strlen name256 = 256
    ∧ rebx_add_param {} (some []) name256 .REBX_TYPE_DOUBLE
        = (some 2, some [⟨.REBX_NODE_PARAM, some 0⟩], name256_world)
    ∧ (rebx_add_param name256_world (some [⟨.REBX_NODE_PARAM, some 0⟩]) name256
        .REBX_TYPE_INT).2.2.faults = [.buffer_overrun 300 337, .use_after_free 4]
    ∧ rebx_add_param {} (some []) "tau_a" .REBX_TYPE_DOUBLE
        = (some 2, some [⟨.REBX_NODE_PARAM, some 0⟩], tau_a_added)
    ∧ (rebx_add_param tau_a_added (some [⟨.REBX_NODE_PARAM, some 0⟩]) "tau_a"
        .REBX_TYPE_INT).1 = none
    ∧ (rebx_add_param tau_a_added (some [⟨.REBX_NODE_PARAM, some 0⟩]) "tau_a"
        .REBX_TYPE_INT).2.1 = some [⟨.REBX_NODE_PARAM, some 0⟩]
    ∧ (rebx_add_param tau_a_added (some [⟨.REBX_NODE_PARAM, some 0⟩]) "tau_a"
        .REBX_TYPE_INT).2.2.faults = [.use_after_free 4] := by
  set_option maxRecDepth 100000 in decide

/-- C9, counterexample: when the allocation of the force fails, creation of the
table name `gr` fails. -/
theorem rebx_create_force_gr_no_memory :
    (rebx_create_force no_memory_world "gr").1 = none := by
  decide

/-- C9: when the two allocations of a creation succeed, `rebx_create_force` on
`gr` returns a new force with capability `rebx_gr` and type velocity-dependent,
and `rebx_create_operator` on each name of its table returns a new operator
with the step function of the table and type Updater; the object carries a copy
of the requested name, its own parameter list is empty, and the context and its
three lists, the host and the blocks that existed before are unchanged. -/
theorem rebx_create_known_names (w : World) (h : allocs_succeed w 2) :
    rebx_create_force w "gr" = (some w.heap.length,
      { sim := w.sim
        rebx := w.rebx
        heap := w.heap ++
          [⟨true, .force
              { name := some (w.heap.length + 1), ap := [], rebx := true,
                force_type := some .REBX_FORCE_VEL,
                update_accelerations := some .rebx_gr }⟩,
           ⟨true, .chars "gr"⟩]
        oracle := w.oracle.drop 2
        faults := w.faults })
    ∧ ∀ name fn,
        (name, fn) ∈ [("kepler", rebx_step_fn.rebx_kepler_step), ("jump", .rebx_jump_step),
          ("interaction", .rebx_interaction_step), ("ias15", .rebx_ias15_step)] →
        rebx_create_operator w name = (some w.heap.length,
          { sim := w.sim
            rebx := w.rebx
            heap := w.heap ++
              [⟨true, .operator
                  { name := some (w.heap.length + 1), ap := [], rebx := true,
                    operator_type := some .REBX_OPERATOR_UPDATER, step := some fn }⟩,
               ⟨true, .chars name⟩]
            oracle := w.oracle.drop 2
            faults := w.faults }) := by
  refine ⟨rebx_create_force_gr w h, fun name fn hmem => ?_⟩
  apply rebx_create_operator_known w name fn _ h
  simp only [List.mem_cons, Prod.mk.injEq, List.mem_singleton, List.not_mem_nil,
    or_false] at hmem
  exact hmem

/-- Witness of C9 in the empty state. -/
theorem rebx_create_known_names_witness :
    allocs_succeed {} 2
    ∧ rebx_create_force {} "gr" = (some 0,
      { heap := [⟨true, .force
              { name := some 1, ap := [], rebx := true,
                force_type := some .REBX_FORCE_VEL,
                update_accelerations := some .rebx_gr }⟩,
           ⟨true, .chars "gr"⟩] })
    ∧ rebx_create_operator {} "kepler" = (some 0,
      { heap := [⟨true, .operator
              { name := some 1, ap := [], rebx := true,
                operator_type := some .REBX_OPERATOR_UPDATER,
                step := some .rebx_kepler_step }⟩,
           ⟨true, .chars "kepler"⟩] }) :=
  ⟨allocs_succeed_of_nil {} 2 rfl,
    (rebx_create_known_names {} (allocs_succeed_of_nil {} 2 rfl)).1,
    (rebx_create_known_names {} (allocs_succeed_of_nil {} 2 rfl)).2 "kepler"
      .rebx_kepler_step (by simp)⟩

/-- C10, counterexample: when the allocation of the operator fails, creation of
`modify_mass` returns `NULL` and the only error the host receives is the one of
the allocator, which does not name the effect. -/
theorem rebx_create_operator_unknown_no_memory :
    (rebx_create_operator no_memory_world "modify_mass").1 = none
    ∧ (rebx_create_operator no_memory_world "modify_mass").2.sim.messages
        = [⟨.error, "REBOUNDx Error: Could not allocate memory.\n"⟩] := by
  decide

/-- C10: for a name `fname` other than `gr` of at most 42 bytes,
`rebx_create_force` returns `NULL`, leaves the context with its three lists
unchanged and runs into no undefined behaviour; the one error it hands to the
host names `fname` when the two allocations succeed and is the error of the
allocator otherwise.  The same holds of `rebx_create_operator` for a name
`oname` of at most 36 bytes other than the four names of its table. -/
theorem rebx_create_unknown_names (w : World) (fname oname : String)
    (hf : fname ≠ "gr") (hflen : strlen fname ≤ 42)
    (ho : oname ∉ ["kepler", "jump", "interaction", "ias15"]) (holen : strlen oname ≤ 36) :
    ((rebx_create_force w fname).1 = none
      ∧ (rebx_create_force w fname).2.rebx = w.rebx
      ∧ (rebx_create_force w fname).2.faults = w.faults
      ∧ (allocs_succeed w 2 → (rebx_create_force w fname).2.sim.messages =
          w.sim.messages ++
            [⟨.error, "REBOUNDx error: Force '" ++ fname
              ++ "' not found in rebx_create_force.\n"⟩])
      ∧ (¬ allocs_succeed w 2 → (rebx_create_force w fname).2.sim.messages =
          w.sim.messages ++ [⟨.error, "REBOUNDx Error: Could not allocate memory.\n"⟩]))
    ∧ ((rebx_create_operator w oname).1 = none
      ∧ (rebx_create_operator w oname).2.rebx = w.rebx
      ∧ (rebx_create_operator w oname).2.faults = w.faults
      ∧ (allocs_succeed w 2 → (rebx_create_operator w oname).2.sim.messages =
          w.sim.messages ++
            [⟨.error, "REBOUNDx error: Operator '" ++ oname
              ++ "' not found in rebx_create_operator.\n"⟩])
      ∧ (¬ allocs_succeed w 2 → (rebx_create_operator w oname).2.sim.messages =
          w.sim.messages ++ [⟨.error, "REBOUNDx Error: Could not allocate memory.\n"⟩])) := by
  have ho4 : oname ≠ "kepler" ∧ oname ≠ "jump" ∧ oname ≠ "interaction" ∧ oname ≠ "ias15" := by
    simpa using ho
  constructor
  · by_cases h : allocs_succeed w 2
    · rw [rebx_create_force_unknown w fname hf h, if_pos hflen]
      exact ⟨rfl, rfl, rfl, fun _ => rfl, fun hn => absurd h hn⟩
    · obtain ⟨h1, h2, h3, h4⟩ := rebx_create_force_alloc_fails w fname h
      exact ⟨h1, h2, h4, fun hy => absurd hy h, fun _ => h3⟩
  · by_cases h : allocs_succeed w 2
    · rw [rebx_create_operator_unknown w oname ho4 h, if_pos holen]
      exact ⟨rfl, rfl, rfl, fun _ => rfl, fun hn => absurd h hn⟩
    · obtain ⟨h1, h2, h3, h4⟩ := rebx_create_operator_alloc_fails w oname h
      exact ⟨h1, h2, h4, fun hy => absurd hy h, fun _ => h3⟩

/-- Witness of C10 in the empty state, on `gr_full` and `modify_mass`. -/
theorem rebx_create_unknown_names_witness :
    "gr_full" ≠ "gr" ∧ strlen "gr_full" ≤ 42
    ∧ "modify_mass" ∉ ["kepler", "jump", "interaction", "ias15"]
    ∧ strlen "modify_mass" ≤ 36
    ∧ (rebx_create_force {} "gr_full").1 = none
    ∧ (rebx_create_force {} "gr_full").2.sim.messages =
        [⟨.error, "REBOUNDx error: Force 'gr_full' not found in rebx_create_force.\n"⟩]
    ∧ (rebx_create_operator {} "modify_mass").1 = none
    ∧ (rebx_create_operator {} "modify_mass").2.sim.messages =
        [⟨.error,
          "REBOUNDx error: Operator 'modify_mass' not found in rebx_create_operator.\n"⟩] :=
  have h := rebx_create_unknown_names {} "gr_full" "modify_mass" (by decide) (by decide)
    (by decide) (by decide)
  ⟨by decide, by decide, by decide, by decide, h.1.1,
    h.1.2.2.2.1 (allocs_succeed_of_nil {} 2 rfl), h.2.1,
    h.2.2.2.2.1 (allocs_succeed_of_nil {} 2 rfl)⟩

/-! ## Registration of forces -/

theorem load_force_live (w : World) (a : Addr) (f : rebx_force)
    (h : w.heap[a]? = some ⟨true, .force f⟩) : load_force w a = (f, w) := by
  simp [load_force, load, h]

theorem rebx_add_force_succeeds (w : World) (fp : Addr) (f : rebx_force)
    (hf : w.heap[fp]? = some ⟨true, .force f⟩) (h : allocs_succeed w 1) :
    rebx_add_force w (some fp) = (1,
      ⟨{ w.sim with force_is_velocity_dependent :=
            if f.force_type = some .REBX_FORCE_VEL then 1
            else w.sim.force_is_velocity_dependent },
        { w.rebx with forces := w.rebx.forces ++ [⟨.REBX_NODE_FORCE, some fp⟩] },
        w.heap ++ [⟨true, .raw⟩], w.oracle.tail, w.faults⟩) := by
  have key : ∀ w1 : World, w1.oracle = w.oracle → allocs_succeed w1 1 :=
    fun w1 ho i hi => by rw [ho]; exact h i hi
  unfold rebx_add_force
  simp only [load_force_live w fp f hf]
  by_cases hv : f.force_type = some .REBX_FORCE_VEL
  · simp only [hv, if_true]
    rw [rebx_attach_node_succeeds _ _ _ (key _ (by rfl))]
    simp [set_object_concat]
  · simp only [hv, if_false]
    rw [rebx_attach_node_succeeds _ _ _ h]
    simp [set_object_concat]

theorem rebx_add_force_fails (w : World) (fp : Addr) (f : rebx_force)
    (hf : w.heap[fp]? = some ⟨true, .force f⟩) (h : ¬ allocs_succeed w 1) :
    (rebx_add_force w (some fp)).1 = 0 := by
  have key : ∀ w1 : World, w1.oracle = w.oracle → ¬ allocs_succeed w1 1 :=
    fun w1 ho h1 => h (fun i hi => by rw [← ho]; exact h1 i hi)
  unfold rebx_add_force
  simp only [load_force_live w fp f hf]
  by_cases hv : f.force_type = some .REBX_FORCE_VEL
  · simp only [hv, if_true]
    rw [rebx_attach_node_fails _ _ _ (key _ (by rfl))]
  · simp only [hv, if_false]
    rw [rebx_attach_node_fails _ _ _ h]

/-- C11: for a force `f` stored at the non-null pointer `fp`, a call of
`rebx_add_force` that returns 1 leaves the force list equal to the previous
list followed by one node for `fp`, sets `force_is_velocity_dependent` to 1
when the force is velocity-dependent and leaves it as it was when the force is
position-dependent, and changes nothing else of the host or the context (the
pre-step and post-step lists included); the heap gains the block of the node. -/
theorem rebx_add_force_appends (w : World) (fp : Addr) (f : rebx_force)
    (hf : w.heap[fp]? = some ⟨true, .force f⟩)
    (hsucc : (rebx_add_force w (some fp)).1 = 1) :
    rebx_add_force w (some fp) = (1,
      ⟨{ w.sim with force_is_velocity_dependent :=
            if f.force_type = some .REBX_FORCE_VEL then 1
            else w.sim.force_is_velocity_dependent },
        { w.rebx with forces := w.rebx.forces ++ [⟨.REBX_NODE_FORCE, some fp⟩] },
        w.heap ++ [⟨true, .raw⟩], w.oracle.tail, w.faults⟩)
    ∧ (rebx_add_force w (some fp)).2.rebx.forces
        = w.rebx.forces ++ [⟨.REBX_NODE_FORCE, some fp⟩]
    ∧ (f.force_type = some .REBX_FORCE_VEL →
        (rebx_add_force w (some fp)).2.sim.force_is_velocity_dependent = 1)
    ∧ (f.force_type = some .REBX_FORCE_POS →
        (rebx_add_force w (some fp)).2.sim.force_is_velocity_dependent
          = w.sim.force_is_velocity_dependent)
    ∧ (rebx_add_force w (some fp)).2.rebx.pre_timestep_operators
        = w.rebx.pre_timestep_operators
    ∧ (rebx_add_force w (some fp)).2.rebx.post_timestep_operators
        = w.rebx.post_timestep_operators := by
  have hal : allocs_succeed w 1 := by
    by_contra hno
    have h0 := rebx_add_force_fails w fp f hf hno
    rw [h0] at hsucc
    exact absurd hsucc (by decide)
  have e := rebx_add_force_succeeds w fp f hf hal
  refine ⟨e, ?_, ?_, ?_, ?_, ?_⟩
  · rw [e]
  · intro hv
    rw [e]
    simp [hv]
  · intro hp
    rw [e]
    simp [hp]
  · rw [e]
  · rw [e]

/-- C11, witness: the force `gr` in a state with no force registered. -/
theorem rebx_add_force_appends_witness :
    gr_world.heap[0]?
        = some ⟨true, .force gr_force⟩
    ∧ (rebx_add_force gr_world (some 0)).1 = 1
    ∧ (rebx_add_force gr_world (some 0) = (1,
      ⟨{ gr_world.sim with force_is_velocity_dependent :=
            if gr_force.force_type = some .REBX_FORCE_VEL then 1
            else gr_world.sim.force_is_velocity_dependent },
        { gr_world.rebx with
          forces := gr_world.rebx.forces ++ [⟨.REBX_NODE_FORCE, some 0⟩] },
        gr_world.heap ++ [⟨true, .raw⟩], gr_world.oracle.tail, gr_world.faults⟩)
    ∧ (rebx_add_force gr_world (some 0)).2.rebx.forces
        = gr_world.rebx.forces ++ [⟨.REBX_NODE_FORCE, some 0⟩]
    ∧ (gr_force.force_type = some .REBX_FORCE_VEL →
        (rebx_add_force gr_world (some 0)).2.sim.force_is_velocity_dependent = 1)
    ∧ (gr_force.force_type = some .REBX_FORCE_POS →
        (rebx_add_force gr_world (some 0)).2.sim.force_is_velocity_dependent
          = gr_world.sim.force_is_velocity_dependent)
    ∧ (rebx_add_force gr_world (some 0)).2.rebx.pre_timestep_operators
        = gr_world.rebx.pre_timestep_operators
    ∧ (rebx_add_force gr_world (some 0)).2.rebx.post_timestep_operators
        = gr_world.rebx.post_timestep_operators) :=
  ⟨by decide, by decide, rebx_add_force_appends gr_world 0 _ (by decide) (by decide)⟩

/-- C12: `rebx_add_force` does not compare names.  The force `gr` made by
`rebx_create_force` is registered, and registering the same force again returns
1 and appends a second node for it; a second force made under the name `gr` is
accepted in the same way.  In both cases the force list then holds two entries
named `gr`. -/
theorem rebx_add_force_accepts_duplicate :
    rebx_create_force {} "gr" = (some 0, gr_world)
    ∧ rebx_add_force gr_world (some 0) = (1, gr_added)
    ∧ rebx_add_force gr_added (some 0) = (1, gr_added_twice)
    ∧ gr_added_twice.rebx.forces
        = [⟨.REBX_NODE_FORCE, some 0⟩, ⟨.REBX_NODE_FORCE, some 0⟩]
    ∧ gr_added_twice.rebx.forces.map (node_name gr_added_twice.heap)
        = [some "gr", some "gr"]
    ∧ rebx_create_force gr_added "gr" = (some 3, second_gr_created)
    ∧ rebx_add_force second_gr_created (some 3) = (1, second_gr_added)
    ∧ second_gr_added.rebx.forces
        = [⟨.REBX_NODE_FORCE, some 0⟩, ⟨.REBX_NODE_FORCE, some 3⟩]
    ∧ second_gr_added.rebx.forces.map (node_name second_gr_added.heap)
        = [some "gr", some "gr"] := by
  set_option maxRecDepth 100000 in decide

/-- C13: the velocity-dependent force `gr` is registered in a state in which
the host flag `force_is_velocity_dependent` is 0 and the allocation of the list
node fails.  `rebx_add_force` returns 0 and leaves the force list empty, but the
host flag has become 1, and the host has received the allocation error. -/
theorem rebx_add_force_failure_sets_flag :
    gr_no_memory.sim.force_is_velocity_dependent = 0
    ∧ gr_no_memory.rebx.forces = []
    ∧ (rebx_add_force gr_no_memory (some 0)).1 = 0
    ∧ (rebx_add_force gr_no_memory (some 0)).2.rebx.forces = []
    ∧ (rebx_add_force gr_no_memory (some 0)).2.sim.force_is_velocity_dependent = 1
    ∧ (rebx_add_force gr_no_memory (some 0)).2.sim
        = { gr_no_memory.sim with
            force_is_velocity_dependent := 1
            messages := [⟨.error, alloc_failed_message⟩] }
    ∧ (rebx_add_force gr_no_memory (some 0)).2.sim ≠ gr_no_memory.sim := by
  set_option maxRecDepth 100000 in decide

/-- C20: `rebx_add_force` with a null force and `rebx_add_operator` with a null
operator return 0 and leave the whole state as it was (host flag, the three
lists, heap).  `rebx_add_param` with a null list head returns `NULL` and no
list, and its only effect is the error message sent to the host: the heap, the
allocations still to come and the context are as before. -/
theorem null_arguments_rejected (w : World) (name : String) (T : rebx_param_type) :
    rebx_add_force w none = (0, w)
    ∧ rebx_add_operator w none = (0, w)
    ∧ rebx_add_param w none name T = (none, none,
        { w with sim := { w.sim with
            messages := w.sim.messages ++ [⟨.error, null_apptr_message⟩] } })
    ∧ (rebx_add_param w none name T).2.2.heap = w.heap
    ∧ (rebx_add_param w none name T).2.2.oracle = w.oracle
    ∧ (rebx_add_param w none name T).2.2.rebx = w.rebx
    ∧ (rebx_add_param w none name T).2.2.faults = w.faults :=
  ⟨rfl, rfl, rfl, rfl, rfl, rfl, rfl⟩

/-! ## Initialisation and teardown -/

/-- C16: for every state, `rebx_initialize` marks the host as holding the
context and the context as holding the host, empties the three lists, selects
the implicit midpoint integrator, and puts the three dispatchers in the three
callback slots of the host.  The host receives the warning exactly when one of
the three slots was occupied before the call, and the installation is the same
in both cases; nothing else of the state changes. -/
theorem rebx_initialize_installs (w : World) :
    ( rebx_initialize w) =
      { w with
        sim := { w.sim with
          extras := true
          additional_forces := some .rebx_additional_forces
          pre_timestep_modifications := some .rebx_pre_timestep_modifications
          post_timestep_modifications := some .rebx_post_timestep_modifications
          messages :=
            if slot_occupied w.sim then w.sim.messages ++ [⟨.warning, overwrite_warning⟩]
            else w.sim.messages }
        rebx := { w.rebx with
          sim := true
          forces := []
          pre_timestep_operators := []
          post_timestep_operators := []
          integrator := .REBX_INTEGRATOR_IMPLICIT_MIDPOINT } }
    ∧ (( rebx_initialize w).sim.messages
          = w.sim.messages ++ [⟨.warning, overwrite_warning⟩] ↔ slot_occupied w.sim)
    ∧ (( rebx_initialize w).sim.messages = w.sim.messages ↔ ¬ slot_occupied w.sim) := by
  have e : ( rebx_initialize w) =
      { w with
        sim := { w.sim with
          extras := true
          additional_forces := some .rebx_additional_forces
          pre_timestep_modifications := some .rebx_pre_timestep_modifications
          post_timestep_modifications := some .rebx_post_timestep_modifications
          messages :=
            if slot_occupied w.sim then w.sim.messages ++ [⟨.warning, overwrite_warning⟩]
            else w.sim.messages }
        rebx := { w.rebx with
          sim := true
          forces := []
          pre_timestep_operators := []
          post_timestep_operators := []
          integrator := .REBX_INTEGRATOR_IMPLICIT_MIDPOINT } } := by
    by_cases h : slot_occupied w.sim
    · have h1 := h
      unfold slot_occupied at h1
      unfold rebx_initialize
      simp only [if_pos h, if_pos h1, reb_warning, overwrite_warning]
    · have h1 := h
      unfold slot_occupied at h1
      unfold rebx_initialize
      simp only [if_neg h, if_neg h1]
  refine ⟨e, ?_, ?_⟩
  · rw [e]
    by_cases h : slot_occupied w.sim
    · simp [h]
    · simp [h]
  · rw [e]
    by_cases h : slot_occupied w.sim
    · simp [h]
    · simp [h]

/-- C17: `rebx_remove_from_simulation` sets the force slot and the post-step
slot of the host to `NULL` and changes nothing else.  After `rebx_initialize`
followed by `rebx_remove_from_simulation` the pre-step slot of the host still
holds the dispatcher `rebx_pre_timestep_modifications`. -/
theorem rebx_remove_from_simulation_leaves_pre_timestep (w : World) :
    rebx_remove_from_simulation w
      = { w with sim := { w.sim with
            additional_forces := none, post_timestep_modifications := none } }
    ∧ ( rebx_remove_from_simulation ( rebx_initialize w)).sim.additional_forces = none
    ∧ ( rebx_remove_from_simulation ( rebx_initialize w)).sim.post_timestep_modifications
        = none
    ∧ ( rebx_remove_from_simulation ( rebx_initialize w)).sim.pre_timestep_modifications
        = some .rebx_pre_timestep_modifications :=
  ⟨rfl, rfl, rfl, rfl⟩

/-- C18: an Updater operator is added under each host integrator that has no
case in the `switch` of `rebx_add_operator` (SEI, LEAPFROG, NONE, JANUS).  The
call returns 0 and the state is exactly as before: no step is created and no
message reaches the host.  Under MERCURIUS the same call reports an error. -/
theorem rebx_add_operator_unsupported_silent :
    rebx_add_operator (updater_world .REB_INTEGRATOR_SEI) (some 0)
        = (0, updater_world .REB_INTEGRATOR_SEI)
    ∧ rebx_add_operator (updater_world .REB_INTEGRATOR_LEAPFROG) (some 0)
        = (0, updater_world .REB_INTEGRATOR_LEAPFROG)
    ∧ rebx_add_operator (updater_world .REB_INTEGRATOR_NONE) (some 0)
        = (0, updater_world .REB_INTEGRATOR_NONE)
    ∧ rebx_add_operator (updater_world .REB_INTEGRATOR_JANUS) (some 0)
        = (0, updater_world .REB_INTEGRATOR_JANUS)
    ∧ (updater_world .REB_INTEGRATOR_SEI).sim.messages = []
    ∧ (rebx_add_operator (updater_world .REB_INTEGRATOR_MERCURIUS) (some 0)).2.sim.messages
        = [⟨.error,
            "REBOUNDx Error: Operators that change particle states are not supported with Mercurius.\n"⟩] := by
  set_option maxRecDepth 100000 in decide

/-! ## The dispatchers -/

theorem load_step_live (w : World) (a : Addr) (s : rebx_step)
    (h : w.heap[a]? = some ⟨true, .step s⟩) : load_step w a = (s, w) := by
  simp [load_step, load, h]

theorem rebx_additional_forces_loop_calls (fs : List force_entry) :
    ∀ w : World,
      (∀ x ∈ fs, ∃ f : rebx_force,
        w.heap[x.force]? = some ⟨true, .force f⟩ ∧ f.update_accelerations = some x.fn) →
      rebx_additional_forces_loop w (fs.map (fun x => ⟨.REBX_NODE_FORCE, some x.force⟩))
        = { w with sim := { w.sim with
              calls := w.sim.calls ++ fs.map (fun x =>
                .update_accelerations x.fn x.force w.sim.particles (w.sim.N - w.sim.N_var)) } } := by
  induction fs with
  | nil =>
    intro w _
    simp [rebx_additional_forces_loop]
  | cons x rest ih =>
    intro w h
    obtain ⟨f, hf, hfn⟩ := h x (List.mem_cons_self _ _)
    simp only [List.map_cons, rebx_additional_forces_loop, load_force_live w x.force f hf, hfn,
      call_update_accelerations]
    rw [ih _ (by exact fun y hy => h y (List.mem_cons_of_mem _ hy))]
    simp

theorem rebx_timestep_modification_calls (w : World) (dt : ℚ) (x : step_entry)
    (o : rebx_operator)
    (hs : w.heap[x.step]? = some ⟨true, .step ⟨some x.operator, some x.dt_fraction⟩⟩)
    (ho : w.heap[x.operator]? = some ⟨true, .operator o⟩) (hfn : o.step = some x.fn) :
    rebx_timestep_modification w dt ⟨.REBX_NODE_STEP, some x.step⟩
      = { w with sim := { w.sim with
            calls := w.sim.calls ++ [.step x.fn x.operator (dt * x.dt_fraction)] } } := by
  simp only [rebx_timestep_modification, load_step_live w x.step _ hs,
    load_operator_live w x.operator o ho, hfn, call_step]

theorem rebx_post_timestep_modifications_loop_calls (dt : ℚ) (ss : List step_entry) :
    ∀ w : World,
      (∀ x ∈ ss,
        w.heap[x.step]? = some ⟨true, .step ⟨some x.operator, some x.dt_fraction⟩⟩
        ∧ ∃ o : rebx_operator,
            w.heap[x.operator]? = some ⟨true, .operator o⟩ ∧ o.step = some x.fn) →
      rebx_post_timestep_modifications_loop w dt
          (ss.map (fun x => ⟨.REBX_NODE_STEP, some x.step⟩))
        = { w with sim := { w.sim with
              calls := w.sim.calls ++ ss.map (fun x =>
                .step x.fn x.operator (dt * x.dt_fraction)) } } := by
  induction ss with
  | nil =>
    intro w _
    simp [rebx_post_timestep_modifications_loop]
  | cons x rest ih =>
    intro w h
    obtain ⟨hs, o, ho, hfn⟩ := h x (List.mem_cons_self _ _)
    simp only [List.map_cons, rebx_post_timestep_modifications_loop]
    rw [rebx_timestep_modification_calls w dt x o hs ho hfn]
    rw [ih _ (by exact fun y hy => h y (List.mem_cons_of_mem _ hy))]
    simp

theorem rebx_pre_timestep_modifications_loop_calls (dt : ℚ) (ss : List step_entry) :
    ∀ w : World,
      (∀ x ∈ ss,
        w.heap[x.step]? = some ⟨true, .step ⟨some x.operator, some x.dt_fraction⟩⟩
        ∧ ∃ o : rebx_operator,
            w.heap[x.operator]? = some ⟨true, .operator o⟩ ∧ o.step = some x.fn) →
      rebx_pre_timestep_modifications_loop w dt
          (ss.map (fun x => ⟨.REBX_NODE_STEP, some x.step⟩))
        = { w with sim := { w.sim with
              calls := w.sim.calls ++ ss.map (fun x =>
                .step x.fn x.operator (dt * x.dt_fraction))
              messages := w.sim.messages ++
                if adaptive w.sim then List.replicate ss.length ⟨.warning, adaptive_warning⟩
                else [] } } := by
  induction ss with
  | nil =>
    intro w _
    simp [rebx_pre_timestep_modifications_loop]
  | cons x rest ih =>
    intro w h
    obtain ⟨hs, o, ho, hfn⟩ := h x (List.mem_cons_self _ _)
    by_cases had : adaptive w.sim
    · have had1 := had
      unfold adaptive at had1
      simp only [List.map_cons, rebx_pre_timestep_modifications_loop, if_pos had1]
      rw [rebx_timestep_modification_calls _ dt x o (by exact hs) (by exact ho) hfn]
      rw [ih _ (by exact fun y hy => h y (List.mem_cons_of_mem _ hy))]
      simp [reb_warning, adaptive, had1, adaptive_warning, List.replicate_succ]
    · have had1 := had
      unfold adaptive at had1
      simp only [List.map_cons, rebx_pre_timestep_modifications_loop, if_neg had1]
      rw [rebx_timestep_modification_calls _ dt x o hs ho hfn]
      rw [ih _ (by exact fun y hy => h y (List.mem_cons_of_mem _ hy))]
      simp [adaptive, had1]

/-- C14: in a state whose force list holds the forces `fs`, one call of
`rebx_additional_forces` makes exactly one call for each force, in the order of
the list: the function in the `update_accelerations` field of the force, with
the force, the particle array of the host and the count `N - N_var`.  Nothing
else of the state changes, the force list included, and a call on an empty
force list changes nothing. -/
theorem rebx_additional_forces_dispatch (w : World) (fs : List force_entry)
    (h : forces_are w w.rebx.forces fs) :
    rebx_additional_forces w
      = { w with sim := { w.sim with
            calls := w.sim.calls ++ fs.map (fun x =>
              .update_accelerations x.fn x.force w.sim.particles (w.sim.N - w.sim.N_var)) } }
    ∧ (rebx_additional_forces w).rebx.forces = w.rebx.forces
    ∧ (w.rebx.forces = [] → rebx_additional_forces w = w) := by
  have e : rebx_additional_forces w
      = { w with sim := { w.sim with
            calls := w.sim.calls ++ fs.map (fun x =>
              .update_accelerations x.fn x.force w.sim.particles (w.sim.N - w.sim.N_var)) } } := by
    unfold rebx_additional_forces
    rw [h.1]
    exact rebx_additional_forces_loop_calls fs w h.2
  refine ⟨e, ?_, ?_⟩
  · rw [e]
  · intro hnil
    unfold rebx_additional_forces
    rw [hnil]
    rfl

/-- C14, witness: the force `gr` and a force of the user, five particles of
which two are variational. -/
theorem rebx_additional_forces_dispatch_witness :
    forces_are two_forces_world two_forces_world.rebx.forces [⟨0, .rebx_gr⟩, ⟨1, .user 1⟩]
    ∧ (rebx_additional_forces two_forces_world
      = { two_forces_world with sim := { two_forces_world.sim with
            calls := two_forces_world.sim.calls ++
              ([⟨0, .rebx_gr⟩, ⟨1, .user 1⟩] : List force_entry).map (fun x =>
                .update_accelerations x.fn x.force two_forces_world.sim.particles
                  (two_forces_world.sim.N - two_forces_world.sim.N_var)) } }
    ∧ (rebx_additional_forces two_forces_world).rebx.forces = two_forces_world.rebx.forces
    ∧ (two_forces_world.rebx.forces = [] →
        rebx_additional_forces two_forces_world = two_forces_world)) :=
  have h : forces_are two_forces_world two_forces_world.rebx.forces
      [⟨0, .rebx_gr⟩, ⟨1, .user 1⟩] :=
    ⟨rfl, fun x hx => by
      simp only [List.mem_cons, List.mem_singleton, List.not_mem_nil, or_false] at hx
      rcases hx with rfl | rfl
      · exact ⟨_, rfl, rfl⟩
      · exact ⟨_, rfl, rfl⟩⟩
  ⟨h, rebx_additional_forces_dispatch two_forces_world _ h⟩

/-- C15: in a state whose pre-step list holds the steps `ps` and whose post-step
list holds the steps `qs`, one call of `rebx_pre_timestep_modifications` makes
exactly one call for each step of `ps`, in the order of the list: the `step`
function of the operator of the step, with that operator and the time
`sim.dt * step.dt_fraction`; one call of `rebx_post_timestep_modifications` does
the same over `qs` with the time `sim.dt_last_done * step.dt_fraction`.  Neither
changes either list; the pre-step dispatcher also sends its warning once for
each step when the host uses IAS15 with adaptive timesteps, and nothing else of
the state changes. -/
theorem rebx_timestep_modifications_dispatch (w : World) (ps qs : List step_entry)
    (hpre : steps_are w w.rebx.pre_timestep_operators ps)
    (hpost : steps_are w w.rebx.post_timestep_operators qs) :
    rebx_pre_timestep_modifications w
      = { w with sim := { w.sim with
            calls := w.sim.calls ++ ps.map (fun x =>
              .step x.fn x.operator (w.sim.dt * x.dt_fraction))
            messages := w.sim.messages ++
              if adaptive w.sim then List.replicate ps.length ⟨.warning, adaptive_warning⟩
              else [] } }
    ∧ rebx_post_timestep_modifications w
      = { w with sim := { w.sim with
            calls := w.sim.calls ++ qs.map (fun x =>
              .step x.fn x.operator (w.sim.dt_last_done * x.dt_fraction)) } }
    ∧ (rebx_pre_timestep_modifications w).rebx = w.rebx
    ∧ (rebx_post_timestep_modifications w).rebx = w.rebx := by
  have e1 := rebx_pre_timestep_modifications_loop_calls w.sim.dt ps w hpre.2
  have e2 := rebx_post_timestep_modifications_loop_calls w.sim.dt_last_done qs w hpost.2
  rw [← hpre.1] at e1
  rw [← hpost.1] at e2
  refine ⟨e1, e2, ?_, ?_⟩
  · unfold rebx_pre_timestep_modifications
    rw [e1]
  · unfold rebx_post_timestep_modifications
    rw [e2]

/-- C15, witness: the operator `kepler` split in two halves around a timestep,
and an operator of the user after it; the upcoming timestep is 2 and the
timestep just completed is 4. -/
theorem rebx_timestep_modifications_dispatch_witness :
    steps_are split_world split_world.rebx.pre_timestep_operators
      [⟨1, 0, 1 / 2, .rebx_kepler_step⟩]
    ∧ steps_are split_world split_world.rebx.post_timestep_operators
      [⟨2, 0, 1 / 2, .rebx_kepler_step⟩, ⟨4, 3, 1, .user 1⟩]
    ∧ (rebx_pre_timestep_modifications split_world
      = { split_world with sim := { split_world.sim with
            calls := split_world.sim.calls ++
              ([⟨1, 0, 1 / 2, .rebx_kepler_step⟩] : List step_entry).map (fun x =>
                .step x.fn x.operator (split_world.sim.dt * x.dt_fraction))
            messages := split_world.sim.messages ++
              if adaptive split_world.sim then
                List.replicate ([⟨1, 0, 1 / 2, .rebx_kepler_step⟩] : List step_entry).length
                  ⟨.warning, adaptive_warning⟩
              else [] } }
    ∧ rebx_post_timestep_modifications split_world
      = { split_world with sim := { split_world.sim with
            calls := split_world.sim.calls ++
              ([⟨2, 0, 1 / 2, .rebx_kepler_step⟩, ⟨4, 3, 1, .user 1⟩] : List step_entry).map
                (fun x => .step x.fn x.operator (split_world.sim.dt_last_done * x.dt_fraction)) } }
    ∧ (rebx_pre_timestep_modifications split_world).rebx = split_world.rebx
    ∧ (rebx_post_timestep_modifications split_world).rebx = split_world.rebx) :=
  have hpre : steps_are split_world split_world.rebx.pre_timestep_operators
      [⟨1, 0, 1 / 2, .rebx_kepler_step⟩] :=
    ⟨rfl, fun x hx => by
      simp only [List.mem_singleton] at hx
      subst hx
      exact ⟨rfl, _, rfl, rfl⟩⟩
  have hpost : steps_are split_world split_world.rebx.post_timestep_operators
      [⟨2, 0, 1 / 2, .rebx_kepler_step⟩, ⟨4, 3, 1, .user 1⟩] :=
    ⟨rfl, fun x hx => by
      simp only [List.mem_cons, List.mem_singleton, List.not_mem_nil, or_false] at hx
      rcases hx with rfl | rfl
      · exact ⟨rfl, _, rfl, rfl⟩
      · exact ⟨rfl, _, rfl, rfl⟩⟩
  ⟨hpre, hpost, rebx_timestep_modifications_dispatch split_world _ _ hpre hpost⟩

/-! ## Sequences of calls on a parameter list -/

theorem heap_extends_refl (h : List Cell) : heap_extends h h := ⟨[], by simp⟩

theorem heap_extends_trans (h h1 h2 : List Cell) (h01 : heap_extends h h1)
    (h12 : heap_extends h1 h2) : heap_extends h h2 := by
  obtain ⟨t, rfl⟩ := h01
  obtain ⟨t1, rfl⟩ := h12
  exact ⟨t ++ t1, by simp⟩

theorem heap_extends_length (h h1 : List Cell) (h01 : heap_extends h h1) :
    h.length ≤ h1.length := by
  obtain ⟨t, rfl⟩ := h01
  simp

theorem heap_extends_getElem? (h h1 : List Cell) (h01 : heap_extends h h1) (a : Nat)
    (c : Cell) (ha : h[a]? = some c) : h1[a]? = some c := by
  obtain ⟨t, rfl⟩ := h01
  have hlt : a < h.length := by
    by_contra hge
    rw [List.getElem?_eq_none (by omega)] at ha
    cases ha
  rw [List.getElem?_append_left hlt]
  exact ha

theorem store_extends (h : List Cell) (w : World) (a : Addr) (f : Block → Block)
    (hext : heap_extends h w.heap) (ha : h.length ≤ a) :
    heap_extends h (store w a f).heap := by
  obtain ⟨t, ht⟩ := hext
  obtain ⟨i, rfl⟩ : ∃ i, a = h.length + i := ⟨a - h.length, (Nat.add_sub_cancel' ha).symm⟩
  unfold store
  cases hc : w.heap[h.length + i]? with
  | none => exact ⟨t, ht⟩
  | some c =>
    refine ⟨t.set i ⟨c.live, f c.block⟩, ?_⟩
    by_cases hl : c.live = true
    · simp [hl, ht, set_append_add]
    · simp [hl, ht, set_append_add, World.fault]

theorem free_extends (h : List Cell) (w : World) (ptr : Option Addr)
    (hext : heap_extends h w.heap) (ha : ∀ a, ptr = some a → h.length ≤ a) :
    heap_extends h (free w ptr).heap := by
  cases ptr with
  | none => exact hext
  | some a =>
    obtain ⟨t, ht⟩ := hext
    obtain ⟨i, rfl⟩ : ∃ i, a = h.length + i :=
      ⟨a - h.length, (Nat.add_sub_cancel' (ha a rfl)).symm⟩
    simp only [free]
    cases hc : w.heap[h.length + i]? with
    | none => exact ⟨t, ht⟩
    | some c =>
      by_cases hl : c.live = true
      · refine ⟨t.set i ⟨false, c.block⟩, ?_⟩
        simp [hl, ht, set_append_add]
      · refine ⟨t, ?_⟩
        simp [hl, ht, World.fault]

theorem rebx_malloc_extends (w : World) (n : Nat) :
    heap_extends w.heap (rebx_malloc w n).2.heap
      ∧ ∀ a, (rebx_malloc w n).1 = some a → a = w.heap.length := by
  by_cases h : w.oracle.headD true = true
  · have e : rebx_malloc w n = (some w.heap.length,
        ⟨w.sim, w.rebx, w.heap ++ [⟨true, .raw⟩], w.oracle.tail, w.faults⟩) := by
      unfold rebx_malloc
      rw [malloc_succeeds w n h]
    rw [e]
    exact ⟨⟨_, rfl⟩, fun a ha => by cases ha; rfl⟩
  · have h0 : w.oracle.headD true = false := by simpa using h
    unfold rebx_malloc
    rw [malloc_fails w n h0]
    by_cases hn : n > 0
    · simp only [hn, if_true]
      exact ⟨heap_extends_refl _, fun a ha => by cases ha⟩
    · simp only [hn, if_false]
      exact ⟨heap_extends_refl _, fun a ha => by cases ha⟩

theorem rebx_create_param_extends (w : World) (name : String) (T : rebx_param_type) :
    heap_extends w.heap (rebx_create_param w name T).2.heap := by
  unfold rebx_create_param
  have m1 := rebx_malloc_extends w sizeof_rebx_param
  rcases h1 : rebx_malloc w sizeof_rebx_param with ⟨p, w1⟩
  rw [h1] at m1
  obtain ⟨e1, a1⟩ := m1
  cases p with
  | none => exact e1
  | some p =>
    have hp : w.heap.length ≤ p := by rw [a1 p rfl]
    simp only []
    have m2 := rebx_malloc_extends w1 (strlen name + 1)
    rcases h2 : rebx_malloc w1 (strlen name + 1) with ⟨b, w2⟩
    rw [h2] at m2
    obtain ⟨e2, a2⟩ := m2
    have e02 := heap_extends_trans _ _ _ e1 e2
    cases b with
    | none =>
      exact free_extends _ _ _ (store_extends _ _ _ _ e02 hp)
        (fun a ha => by cases ha; exact hp)
    | some buf =>
      have hb : w.heap.length ≤ buf := by
        rw [a2 buf rfl]
        exact heap_extends_length _ _ e1
      exact store_extends _ _ _ _ (store_extends _ _ _ _ (store_extends _ _ _ _
        (store_extends _ _ _ _ (store_extends _ _ _ _ e02 hp) hb) hp) hp) hp

theorem rebx_alloc_param_value_extends (w : World) (T : rebx_param_type) :
    heap_extends w.heap (rebx_alloc_param_value w T).2.heap := by
  cases T <;> simp only [rebx_alloc_param_value] <;>
    first
    | exact (rebx_malloc_extends w _).1
    | exact ⟨[], by rw [List.append_nil]; exact sprintf_heap _ _ _⟩

theorem rebx_add_param_attach_fails (w : World) (ap : List rebx_node) (X : String)
    (T : rebx_param_type) (hT : T.supported = true) (hal : allocs_succeed w 3)
    (h4 : ¬ allocs_succeed w 4)
    (hnew : rebx_get_node (param_allocated w X T).heap ap X = none) :
    rebx_add_param w (some ap) X T = (none, some ap,
      ⟨{ w.sim with messages := w.sim.messages ++ [⟨.error, alloc_failed_message⟩] }, w.rebx,
        w.heap ++ [⟨false, .param ⟨some (w.heap.length + 1), some T, some (-1),
            some (w.heap.length + 2)⟩⟩, ⟨true, .chars X⟩, ⟨false, .raw⟩],
        w.oracle.drop 4, w.faults ++ [.use_after_free w.heap.length]⟩) := by
  have h1 : ¬ allocs_succeed (param_allocated w X T) 1 := by
    intro h1
    apply h4
    intro i hi
    by_cases hi3 : i < 3
    · exact hal i hi3
    · have hi4 : i = 3 := by omega
      have := h1 0 (by omega)
      subst hi4
      simpa [param_allocated, List.getD_eq_getElem?_getD, List.getElem?_drop] using this
  rw [rebx_add_param_until_lookup w ap X T hT hal, hnew]
  simp only []
  rw [rebx_attach_node_fails _ ap _ h1]
  simp only [param_allocated, reb_error]
  rw [free_append_zero _ _ _ _ _ _ _ rfl]
  simp only [List.set_cons_zero]
  rw [load_param_freed _ _ _ _ _ _ _ rfl]
  simp only []
  rw [free_append _ _ _ _ _ _ 2 .raw rfl]
  have e : (List.drop 3 w.oracle).tail = List.drop 4 w.oracle := by
    rcases w.oracle with _ | ⟨_, _ | ⟨_, _ | ⟨_, _ | _⟩⟩⟩ <;> rfl
  rw [e]
  rfl

/-- The outcomes of `rebx_add_param` on a list, read in the nominal
continuation.  Either the call returns `NULL`, the list is as it was and the
heap has kept every block it held; or the type is supported, the four
allocations succeed, the name is not in the list, and the call returns the
value buffer of a new parameter linked at the end of the list. -/
theorem rebx_add_param_outcome (w : World) (ap : List rebx_node) (X : String)
    (T : rebx_param_type) :
    ((rebx_add_param w (some ap) X T).1 = none
      ∧ (rebx_add_param w (some ap) X T).2.1 = some ap
      ∧ heap_extends w.heap (rebx_add_param w (some ap) X T).2.2.heap)
    ∨ (rebx_get_node (param_allocated w X T).heap ap X = none
      ∧ rebx_add_param w (some ap) X T = (some (w.heap.length + 2),
          some (ap ++ [⟨.REBX_NODE_PARAM, some w.heap.length⟩]),
          ⟨w.sim, w.rebx,
            w.heap ++ [⟨true, .param ⟨some (w.heap.length + 1), some T, some (-1),
                some (w.heap.length + 2)⟩⟩, ⟨true, .chars X⟩, ⟨true, .raw⟩, ⟨true, .raw⟩],
            w.oracle.drop 4, w.faults⟩)) := by
  by_cases h3 : T.supported = true ∧ allocs_succeed w 3
  · obtain ⟨hT, hal⟩ := h3
    cases hfind : rebx_get_node (param_allocated w X T).heap ap X with
    | some nd =>
      rw [rebx_add_param_duplicate w ap X T nd hT hal hfind]
      exact Or.inl ⟨rfl, rfl, ⟨_, rfl⟩⟩
    | none =>
      by_cases h4 : allocs_succeed w 4
      · exact Or.inr ⟨rfl, rebx_add_param_succeeds w ap X T hT h4 hfind⟩
      · rw [rebx_add_param_attach_fails w ap X T hT hal h4 hfind]
        exact Or.inl ⟨rfl, rfl, ⟨_, rfl⟩⟩
  · left
    unfold rebx_add_param
    simp only []
    have ec := rebx_create_param_extends w X T
    by_cases h2 : allocs_succeed w 2
    · rw [rebx_create_param_succeeds w X T h2] at ec ⊢
      simp only []
      have hv := rebx_alloc_param_value_fails
        ⟨w.sim, w.rebx,
          w.heap ++ [⟨true, .param ⟨some (w.heap.length + 1), some T, some (-1), none⟩⟩,
            ⟨true, .chars X⟩],
          w.oracle.drop 2, w.faults⟩ T (by
            rintro ⟨hT, h1⟩
            refine h3 ⟨hT, ?_⟩
            intro i hi
            by_cases hi2 : i < 2
            · exact h2 i hi2
            · have hi3 : i = 2 := by omega
              have := h1 0 (by omega)
              subst hi3
              simpa [List.getD_eq_getElem?_getD, List.getElem?_drop] using this)
      have ev := rebx_alloc_param_value_extends
        ⟨w.sim, w.rebx,
          w.heap ++ [⟨true, .param ⟨some (w.heap.length + 1), some T, some (-1), none⟩⟩,
            ⟨true, .chars X⟩],
          w.oracle.drop 2, w.faults⟩ T
      rcases hv2 : rebx_alloc_param_value _ T with ⟨v, w2⟩
      rw [hv2] at hv ev
      simp only at hv ev
      subst hv
      simp only []
      refine ⟨trivial, trivial, ?_⟩
      exact free_extends _ _ _
        (store_extends _ _ _ _ (heap_extends_trans _ _ _ ec ev) (Nat.le_refl _))
        (fun a ha => by cases ha; exact Nat.le_refl _)
    · have hc := rebx_create_param_fails w X T h2
      rcases hc2 : rebx_create_param w X T with ⟨r, w1⟩
      rw [hc2] at hc ec
      simp only at hc ec
      subst hc
      exact ⟨rfl, rfl, ec⟩

theorem entry_is_extends (h h1 : List Cell) (hext : heap_extends h h1) (nd : rebx_node)
    (x : String × rebx_param_type) (he : entry_is h nd x) : entry_is h1 nd x := by
  obtain ⟨a, b, l1, l2, py, v, hnd, ha, hb⟩ := he
  exact ⟨a, b, l1, l2, py, v, hnd, heap_extends_getElem? h h1 hext a _ ha,
    heap_extends_getElem? h h1 hext b _ hb⟩

theorem entry_is_name (heap : List Cell) (nd : rebx_node) (x : String × rebx_param_type)
    (he : entry_is heap nd x) : node_name heap nd = some x.1 := by
  obtain ⟨a, b, l1, l2, py, v, hnd, ha, hb⟩ := he
  subst hnd
  simp [node_name, chars_at, ha, hb]

theorem entries_names (heap : List Cell) (ap : List rebx_node)
    (added : List (String × rebx_param_type))
    (h : List.Forall₂ (entry_is heap) ap added) :
    ap.map (node_name heap) = added.map (fun x => some x.1) := by
  induction h with
  | nil => rfl
  | cons hx _ ih => simp [entry_is_name _ _ _ hx, ih]

theorem entries_mem (heap : List Cell) (ap : List rebx_node)
    (added : List (String × rebx_param_type))
    (h : List.Forall₂ (entry_is heap) ap added) (x : String × rebx_param_type)
    (hx : x ∈ added) : ∃ nd ∈ ap, entry_is heap nd x := by
  induction h with
  | nil => cases hx
  | cons hy _ ih =>
    rcases List.mem_cons.1 hx with rfl | hx1
    · exact ⟨_, List.mem_cons_self _ _, hy⟩
    · obtain ⟨nd, hnd, he⟩ := ih hx1
      exact ⟨nd, List.mem_cons_of_mem _ hnd, he⟩

theorem entries_append (heap : List Cell) (ap : List rebx_node)
    (added : List (String × rebx_param_type))
    (h : List.Forall₂ (entry_is heap) ap added) (nd : rebx_node)
    (x : String × rebx_param_type) (hx : entry_is heap nd x) :
    List.Forall₂ (entry_is heap) (ap ++ [nd]) (added ++ [x]) := by
  induction h with
  | nil => exact List.Forall₂.cons hx List.Forall₂.nil
  | cons hy _ ih => exact List.Forall₂.cons hy ih

theorem run_param_call_consistent (r : param_run) (c : param_call) (h : r.consistent) :
    (run_param_call r c).consistent := by
  obtain ⟨hent, hnd⟩ := h
  cases c with
  | get name T =>
    refine ⟨?_, hnd⟩
    show List.Forall₂ (entry_is (rebx_get_param r.world r.ap name T).2.heap) r.ap r.added
    rw [rebx_get_param_heap]
    exact hent
  | add name T =>
    rcases rebx_add_param_outcome r.world r.ap name T with ⟨hn, hl, hext⟩ | ⟨hnew, hres⟩
    · rcases hadd : rebx_add_param r.world (some r.ap) name T with ⟨value, apptr, w1⟩
      rw [hadd] at hn hl hext
      simp only at hn hl hext
      subst hn
      subst hl
      simp only [run_param_call, hadd]
      exact ⟨hent.imp (fun nd x he => entry_is_extends _ _ hext nd x he), hnd⟩
    · simp only [run_param_call, hres]
      have hext : heap_extends r.world.heap (r.world.heap ++
          [⟨true, .param ⟨some (r.world.heap.length + 1), some T, some (-1),
              some (r.world.heap.length + 2)⟩⟩, ⟨true, .chars name⟩, ⟨true, .raw⟩,
            ⟨true, .raw⟩]) := ⟨_, rfl⟩
      have hext3 : heap_extends r.world.heap (param_allocated r.world name T).heap :=
        ⟨_, rfl⟩
      constructor
      · refine entries_append _ _ _
          (hent.imp (fun nd x he => entry_is_extends _ _ hext nd x he)) _ _ ?_
        exact ⟨r.world.heap.length, r.world.heap.length + 1, true, true, some (-1),
          some (r.world.heap.length + 2), rfl, (getElem?_append_zero _ _).trans rfl,
          (getElem?_append_add _ _ 1).trans rfl⟩
      · show ((r.added ++ [(name, T)]).map Prod.fst).Nodup
        rw [List.map_append, List.nodup_append]
        refine ⟨hnd, List.nodup_singleton _, ?_⟩
        intro n hn1 hn2
        rw [List.map_singleton, List.mem_singleton] at hn2
        subst hn2
        obtain ⟨x, hx, hxn⟩ := List.mem_map.1 hn1
        obtain ⟨nd, hndm, he⟩ := entries_mem _ _ _ hent x hx
        have hname := entry_is_name _ nd x (entry_is_extends _ _ hext3 nd x he)
        unfold rebx_get_node at hnew
        have := List.find?_eq_none.1 hnew nd hndm
        rw [hname, hxn] at this
        simp at this

theorem run_param_calls_consistent (cs : List param_call) :
    ∀ r : param_run, r.consistent → (run_param_calls r cs).consistent := by
  induction cs with
  | nil => intro r h; exact h
  | cons c rest ih =>
    intro r h
    exact ih _ (run_param_call_consistent r c h)

/-- In the nominal continuation the invariants of a parameter list hold after
every sequence of calls that starts from an empty list: the list holds one
entry for each add that returned a parameter, in the order of the adds, each
with the name and the type tag of its add; no two entries carry the same name;
the length of the list is the number of those adds; `rebx_get_param` leaves the
list as it is. -/
theorem run_param_calls_nominal (w : World) (cs : List param_call) :
    List.Forall₂ (entry_is (run_param_calls { world := w } cs).world.heap)
        (run_param_calls { world := w } cs).ap (run_param_calls { world := w } cs).added
    ∧ ((run_param_calls { world := w } cs).ap.map
        (node_name (run_param_calls { world := w } cs).world.heap)).Nodup
    ∧ (run_param_calls { world := w } cs).ap.length
        = (run_param_calls { world := w } cs).added.length
    ∧ ∀ (r : param_run) (name : String) (T : rebx_param_type),
        (run_param_call r (.get name T)).ap = r.ap
          ∧ (run_param_call r (.get name T)).added = r.added := by
  have h := run_param_calls_consistent cs { world := w }
    ⟨List.Forall₂.nil, List.nodup_nil⟩
  refine ⟨h.1, ?_, h.1.length_eq, fun _ _ _ => ⟨rfl, rfl⟩⟩
  rw [entries_names _ _ _ h.1]
  rw [show (fun x : String × rebx_param_type => some x.1) = some ∘ Prod.fst from rfl,
    ← List.map_map]
  exact List.Nodup.map (Option.some_injective _) h.2

/-- C19: from an empty list, `tau_a` is added as a double and then added again
as an integer.  The second call finds the name, frees the new parameter (block
4) and then reads its `value` field to free the value buffer: a read of a freed
block, after which C gives the list no meaning.  In the nominal continuation
the list holds `tau_a` once, as a double (`run_param_calls_nominal` has the
invariants hold there after every sequence).  From an empty list, adding a name
of 64 bytes as a double and reading it as an integer formats 330 bytes plus the
terminator into `char str[300]`. -/
theorem run_param_calls_duplicate_faults :
    (run_param_calls {} [.add "tau_a" .REBX_TYPE_DOUBLE, .add "tau_a" .REBX_TYPE_INT]).world.faults
        = [.use_after_free 4]
    ∧ (run_param_calls {} [.add "tau_a" .REBX_TYPE_DOUBLE, .add "tau_a" .REBX_TYPE_INT]).ap
        = [⟨.REBX_NODE_PARAM, some 0⟩]
    ∧ (run_param_calls {} [.add "tau_a" .REBX_TYPE_DOUBLE, .add "tau_a" .REBX_TYPE_INT]).added
        = [("tau_a", .REBX_TYPE_DOUBLE)]
    ∧ (run_param_calls {} [.add "tau_a" .REBX_TYPE_DOUBLE]).world.faults = []
    ∧ strlen name64 = 64
    ∧ (run_param_calls {} [.add name64 .REBX_TYPE_DOUBLE, .get name64 .REBX_TYPE_INT]).world.faults
        = [.buffer_overrun 300 331] := by
  set_option maxRecDepth 100000 in decide

/-! ## Blocks left behind by the failure paths -/

/-- C24: in the empty state no block is live.  `rebx_create_force` on the
unknown name `gr_full` and `rebx_create_operator` on the unknown name
`modify_mass` return `NULL` with block 1, the copy of the name, still live: the
structure is freed, its name buffer is not.  After `tau_a` is added to an empty
list the live blocks are 0 to 3; adding `tau_a` again returns `NULL` with block
5, the copy of the name, still live, and has read the parameter (block 4)
after freeing it. -/
theorem failure_paths_leave_blocks :
    live_blocks ({} : World).heap = []
    ∧ (rebx_create_force {} "gr_full").1 = none
    ∧ live_blocks (rebx_create_force {} "gr_full").2.heap = [1]
    ∧ (rebx_create_force {} "gr_full").2.heap[1]? = some ⟨true, .chars "gr_full"⟩
    ∧ (rebx_create_operator {} "modify_mass").1 = none
    ∧ live_blocks (rebx_create_operator {} "modify_mass").2.heap = [1]
    ∧ (rebx_create_operator {} "modify_mass").2.heap[1]? = some ⟨true, .chars "modify_mass"⟩
    ∧ live_blocks tau_a_added.heap = [0, 1, 2, 3]
    ∧ (rebx_add_param tau_a_added (some [⟨.REBX_NODE_PARAM, some 0⟩]) "tau_a"
        .REBX_TYPE_DOUBLE).1 = none
    ∧ live_blocks (rebx_add_param tau_a_added (some [⟨.REBX_NODE_PARAM, some 0⟩]) "tau_a"
        .REBX_TYPE_DOUBLE).2.2.heap = [0, 1, 2, 3, 5]
    ∧ (rebx_add_param tau_a_added (some [⟨.REBX_NODE_PARAM, some 0⟩]) "tau_a"
        .REBX_TYPE_DOUBLE).2.2.heap[5]? = some ⟨true, .chars "tau_a"⟩
    ∧ (rebx_add_param tau_a_added (some [⟨.REBX_NODE_PARAM, some 0⟩]) "tau_a"
        .REBX_TYPE_DOUBLE).2.2.faults = [.use_after_free 4] := by
  set_option maxRecDepth 100000 in decide

/-! ## The warning of the pre-step dispatcher -/

/-- C25, counterexample: the host uses IAS15 with adaptive timesteps and the
pre-step list is empty.  A run of `rebx_pre_timestep_modifications` reports
nothing to the host. -/
theorem rebx_pre_timestep_modifications_empty_silent :
    adaptive adaptive_world.sim
    ∧ adaptive_world.rebx.pre_timestep_operators = []
    ∧ (rebx_pre_timestep_modifications adaptive_world).sim.messages = [] := by
  refine ⟨⟨rfl, ?_⟩, rfl, rfl⟩
  show (1 : ℚ) ≠ 0
  exact one_ne_zero

/-- C25: in a state whose pre-step list holds the steps `ps`, a run of
`rebx_pre_timestep_modifications` makes one call for each step, in the order of
the list, whether the host uses adaptive timesteps or not.  When the host uses
IAS15 with adaptive timesteps it receives the warning once for each step of the
list, so at least once when the list is not empty; when the host is not
adaptive, or the list is empty, it receives no message. -/
theorem rebx_pre_timestep_modifications_warns (w : World) (ps : List step_entry)
    (hpre : steps_are w w.rebx.pre_timestep_operators ps) :
    (rebx_pre_timestep_modifications w).sim.calls
      = w.sim.calls ++ ps.map (fun x => .step x.fn x.operator (w.sim.dt * x.dt_fraction))
    ∧ (adaptive w.sim →
        (rebx_pre_timestep_modifications w).sim.messages
          = w.sim.messages ++ List.replicate ps.length ⟨.warning, adaptive_warning⟩)
    ∧ (adaptive w.sim → ps ≠ [] →
        (⟨.warning, adaptive_warning⟩ : reb_message)
          ∈ (rebx_pre_timestep_modifications w).sim.messages)
    ∧ (¬ adaptive w.sim →
        (rebx_pre_timestep_modifications w).sim.messages = w.sim.messages)
    ∧ (ps = [] → (rebx_pre_timestep_modifications w).sim.messages = w.sim.messages) := by
  have e := rebx_pre_timestep_modifications_loop_calls w.sim.dt ps w hpre.2
  rw [← hpre.1] at e
  have e1 : rebx_pre_timestep_modifications w = _ := e
  rw [e1]
  refine ⟨rfl, ?_, ?_, ?_, ?_⟩
  · intro had
    simp [had]
  · intro had hne
    cases ps with
    | nil => exact absurd rfl hne
    | cons x rest => simp [had, List.replicate_succ]
  · intro had
    simp [had]
  · intro hnil
    subst hnil
    by_cases had : adaptive w.sim <;> simp [had]

/-- C25, witness: an adaptive host and a pre-step list with one step. -/
theorem rebx_pre_timestep_modifications_warns_witness :
    steps_are adaptive_step_world adaptive_step_world.rebx.pre_timestep_operators
      [⟨1, 0, 1 / 2, .rebx_kepler_step⟩]
    ∧ ((rebx_pre_timestep_modifications adaptive_step_world).sim.calls
      = adaptive_step_world.sim.calls ++
          ([⟨1, 0, 1 / 2, .rebx_kepler_step⟩] : List step_entry).map
            (fun x => .step x.fn x.operator (adaptive_step_world.sim.dt * x.dt_fraction))
    ∧ (adaptive adaptive_step_world.sim →
        (rebx_pre_timestep_modifications adaptive_step_world).sim.messages
          = adaptive_step_world.sim.messages ++
              List.replicate ([⟨1, 0, 1 / 2, .rebx_kepler_step⟩] : List step_entry).length
                ⟨.warning, adaptive_warning⟩)
    ∧ (adaptive adaptive_step_world.sim →
        ([⟨1, 0, 1 / 2, .rebx_kepler_step⟩] : List step_entry) ≠ [] →
        (⟨.warning, adaptive_warning⟩ : reb_message)
          ∈ (rebx_pre_timestep_modifications adaptive_step_world).sim.messages)
    ∧ (¬ adaptive adaptive_step_world.sim →
        (rebx_pre_timestep_modifications adaptive_step_world).sim.messages
          = adaptive_step_world.sim.messages)
    ∧ (([⟨1, 0, 1 / 2, .rebx_kepler_step⟩] : List step_entry) = [] →
        (rebx_pre_timestep_modifications adaptive_step_world).sim.messages
          = adaptive_step_world.sim.messages)) :=
  have hpre : steps_are adaptive_step_world adaptive_step_world.rebx.pre_timestep_operators
      [⟨1, 0, 1 / 2, .rebx_kepler_step⟩] :=
    ⟨rfl, fun x hx => by
      simp only [List.mem_singleton] at hx
      subst hx
      exact ⟨rfl, _, rfl, rfl⟩⟩
  ⟨hpre, rebx_pre_timestep_modifications_warns adaptive_step_world _ hpre⟩

/-! ## Registration followed by dispatch -/

theorem allocs_succeed_add (w w1 : World) (k m : Nat) (h : allocs_succeed w k)
    (h1 : allocs_succeed w1 m) (ho : w1.oracle = w.oracle.drop k) :
    allocs_succeed w (k + m) := by
  intro i hi
  by_cases hik : i < k
  · exact h i hik
  · have := h1 (i - k) (by omega)
    rw [ho] at this
    have e : k + (i - k) = i := by omega
    simpa [List.getD_eq_getElem?_getD, List.getElem?_drop, e] using this

theorem rebx_add_operator_manual_fails (w : World) (operator : Addr) (head : rebx_head)
    (dt_fraction : ℚ) (h : ¬ allocs_succeed w 2) :
    (rebx_add_operator_manual w operator head dt_fraction).1 = 0 := by
  unfold rebx_add_operator_manual
  by_cases h0 : w.oracle.headD true = true
  · have h1 : allocs_succeed w 1 :=
      (allocs_succeed_succ w 0).2 ⟨h0, allocs_succeed_zero _⟩
    rw [rebx_malloc_succeeds w _ h1]
    simp only [store_step, store_fresh, Block.as_step]
    have h2 : ¬ allocs_succeed
        ⟨w.sim, w.rebx, w.heap ++ [⟨true, .step ⟨some operator, some dt_fraction⟩⟩],
          w.oracle.tail, w.faults⟩ 1 := by
      intro h2
      exact h ((allocs_succeed_succ w 1).2 ⟨h0, by
        intro i hi
        exact h2 i hi⟩)
    rw [rebx_attach_node_fails _ _ _ h2]
  · rw [rebx_malloc_fails _ _ (by decide) (by simpa using h0)]

theorem rebx_add_operator_whfast_state (w : World) (op : Addr) (o : rebx_operator)
    (hop : w.heap[op]? = some ⟨true, .operator o⟩)
    (hty : o.operator_type ≠ some .REBX_OPERATOR_RECORDER)
    (hint : w.sim.integrator = .REB_INTEGRATOR_WHFAST)
    (hal : allocs_succeed w 4) :
    rebx_add_operator w (some op) = (1,
      ⟨w.sim,
        { w.rebx with
          pre_timestep_operators :=
            w.rebx.pre_timestep_operators ++ [⟨.REBX_NODE_STEP, some w.heap.length⟩]
          post_timestep_operators :=
            w.rebx.post_timestep_operators ++ [⟨.REBX_NODE_STEP, some (w.heap.length + 2)⟩] },
        w.heap ++
          [⟨true, .step ⟨some op, some (1 / 2)⟩⟩, ⟨true, .raw⟩,
           ⟨true, .step ⟨some op, some (1 / 2)⟩⟩, ⟨true, .raw⟩],
        w.oracle.drop 4, w.faults⟩) := by
  have h2 : allocs_succeed w 2 := allocs_succeed_mono w 4 2 (by omega) hal
  have e1 := rebx_add_operator_manual_succeeds w op .pre_timestep_operators (1 / 2) h2
  have e2 := rebx_add_operator_manual_succeeds _ op .post_timestep_operators (1 / 2)
    (allocs_succeed_drop w
      ⟨w.sim,
        rebx_head.set w.rebx .pre_timestep_operators
          (rebx_head.get w.rebx .pre_timestep_operators ++
            [⟨.REBX_NODE_STEP, some w.heap.length⟩]),
        w.heap ++ [⟨true, .step ⟨some op, some (1 / 2)⟩⟩, ⟨true, .raw⟩],
        w.oracle.drop 2, w.faults⟩ 2 2 hal rfl)
  unfold rebx_add_operator
  simp only [load_operator_live w op o hop, hty, hint, e1, e2]
  simp [rebx_head.set, rebx_head.get]

theorem rebx_add_operator_post_state (w : World) (op : Addr) (o : rebx_operator)
    (hop : w.heap[op]? = some ⟨true, .operator o⟩)
    (hcase : o.operator_type = some .REBX_OPERATOR_RECORDER
      ∨ w.sim.integrator = .REB_INTEGRATOR_IAS15)
    (hal : allocs_succeed w 2) :
    rebx_add_operator w (some op) = (1,
      ⟨w.sim,
        { w.rebx with
          post_timestep_operators :=
            w.rebx.post_timestep_operators ++ [⟨.REBX_NODE_STEP, some w.heap.length⟩] },
        w.heap ++ [⟨true, .step ⟨some op, some 1⟩⟩, ⟨true, .raw⟩],
        w.oracle.drop 2, w.faults⟩) := by
  have e1 := rebx_add_operator_manual_succeeds w op .post_timestep_operators 1 hal
  unfold rebx_add_operator
  by_cases hrec : o.operator_type = some .REBX_OPERATOR_RECORDER
  · simp only [load_operator_live w op o hop, hrec, e1]
    simp [rebx_head.set, rebx_head.get]
  · have hint : w.sim.integrator = .REB_INTEGRATOR_IAS15 := hcase.resolve_left hrec
    simp only [load_operator_live w op o hop, hrec, hint, e1]
    simp [rebx_head.set, rebx_head.get]

theorem rebx_add_operator_whfast_allocs (w : World) (op : Addr) (o : rebx_operator)
    (hop : w.heap[op]? = some ⟨true, .operator o⟩)
    (hty : o.operator_type ≠ some .REBX_OPERATOR_RECORDER)
    (hint : w.sim.integrator = .REB_INTEGRATOR_WHFAST)
    (hsucc : (rebx_add_operator w (some op)).1 = 1) : allocs_succeed w 4 := by
  unfold rebx_add_operator at hsucc
  simp only [load_operator_live w op o hop, hty, hint, if_false] at hsucc
  by_cases h2 : allocs_succeed w 2
  · rw [rebx_add_operator_manual_succeeds w op .pre_timestep_operators (1 / 2) h2] at hsucc
    simp only [] at hsucc
    by_cases h2b : allocs_succeed
        ⟨w.sim,
          rebx_head.set w.rebx .pre_timestep_operators
            (rebx_head.get w.rebx .pre_timestep_operators ++
              [⟨.REBX_NODE_STEP, some w.heap.length⟩]),
          w.heap ++ [⟨true, .step ⟨some op, some (1 / 2)⟩⟩, ⟨true, .raw⟩],
          w.oracle.drop 2, w.faults⟩ 2
    · exact allocs_succeed_add w _ 2 2 h2 h2b rfl
    · have hf := rebx_add_operator_manual_fails _ op .post_timestep_operators (1 / 2) h2b
      rcases hm : rebx_add_operator_manual
          ⟨w.sim,
            rebx_head.set w.rebx .pre_timestep_operators
              (rebx_head.get w.rebx .pre_timestep_operators ++
                [⟨.REBX_NODE_STEP, some w.heap.length⟩]),
            w.heap ++ [⟨true, .step ⟨some op, some (1 / 2)⟩⟩, ⟨true, .raw⟩],
            w.oracle.drop 2, w.faults⟩ op .post_timestep_operators (1 / 2) with ⟨s2, w2⟩
      rw [hm] at hf hsucc
      simp only at hf
      subst hf
      simp at hsucc
  · have hf := rebx_add_operator_manual_fails w op .pre_timestep_operators (1 / 2) h2
    rcases hm : rebx_add_operator_manual w op .pre_timestep_operators (1 / 2) with ⟨s1, w1⟩
    rw [hm] at hf hsucc
    simp only at hf
    subst hf
    rcases hm2 : rebx_add_operator_manual w1 op .post_timestep_operators (1 / 2) with ⟨s2, w2⟩
    rw [hm2] at hsucc
    simp at hsucc

theorem rebx_add_operator_ias15_allocs (w : World) (op : Addr) (o : rebx_operator)
    (hop : w.heap[op]? = some ⟨true, .operator o⟩)
    (hty : o.operator_type ≠ some .REBX_OPERATOR_RECORDER)
    (hint : w.sim.integrator = .REB_INTEGRATOR_IAS15)
    (hsucc : (rebx_add_operator w (some op)).1 = 1) : allocs_succeed w 2 := by
  unfold rebx_add_operator at hsucc
  simp only [load_operator_live w op o hop, hty, hint, if_false] at hsucc
  by_contra h2
  rw [rebx_add_operator_manual_fails w op .post_timestep_operators 1 h2] at hsucc
  exact absurd hsucc (by decide)

theorem steps_are_heap (w w1 : World) (l : List rebx_node) (ps : List step_entry)
    (h : steps_are w l ps) (hext : heap_extends w.heap w1.heap) : steps_are w1 l ps := by
  refine ⟨h.1, fun x hx => ?_⟩
  obtain ⟨hs, o, ho, hfn⟩ := h.2 x hx
  exact ⟨heap_extends_getElem? _ _ hext _ _ hs, o, heap_extends_getElem? _ _ hext _ _ ho, hfn⟩

theorem steps_are_append (w : World) (l : List rebx_node) (ps : List step_entry)
    (x : step_entry) (o : rebx_operator) (h : steps_are w l ps)
    (hs : w.heap[x.step]? = some ⟨true, .step ⟨some x.operator, some x.dt_fraction⟩⟩)
    (ho : w.heap[x.operator]? = some ⟨true, .operator o⟩) (hfn : o.step = some x.fn) :
    steps_are w (l ++ [⟨.REBX_NODE_STEP, some x.step⟩]) (ps ++ [x]) := by
  refine ⟨by rw [h.1]; simp, fun y hy => ?_⟩
  rcases List.mem_append.1 hy with hy1 | hy1
  · exact h.2 y hy1
  · rw [List.mem_singleton] at hy1
    subst hy1
    exact ⟨hs, o, ho, hfn⟩

theorem operator_time_append (a b : List reb_call) (op : Addr) :
    operator_time (a ++ b) op = operator_time a op + operator_time b op := by
  simp [operator_time]

theorem operator_time_others (ps : List step_entry) (d : ℚ) (op : Addr)
    (h : ∀ x ∈ ps, x.operator ≠ op) :
    operator_time (ps.map (fun x => .step x.fn x.operator (d * x.dt_fraction))) op = 0 := by
  induction ps with
  | nil => rfl
  | cons x rest ih =>
    have hx := h x (List.mem_cons_self _ _)
    have hr := ih (fun y hy => h y (List.mem_cons_of_mem _ hy))
    simp only [operator_time, List.map_cons, List.sum_cons, step_time, if_neg hx] at hr ⊢
    rw [hr]
    simp

theorem rebx_pre_timestep_modifications_eq (w : World) (ps : List step_entry)
    (hpre : steps_are w w.rebx.pre_timestep_operators ps) :
    rebx_pre_timestep_modifications w
      = { w with sim := { w.sim with
            calls := w.sim.calls ++ ps.map (fun x =>
              .step x.fn x.operator (w.sim.dt * x.dt_fraction))
            messages := w.sim.messages ++
              if adaptive w.sim then List.replicate ps.length ⟨.warning, adaptive_warning⟩
              else [] } } := by
  have e := rebx_pre_timestep_modifications_loop_calls w.sim.dt ps w hpre.2
  rw [← hpre.1] at e
  exact e

theorem rebx_post_timestep_modifications_eq (w : World) (qs : List step_entry)
    (hpost : steps_are w w.rebx.post_timestep_operators qs) :
    rebx_post_timestep_modifications w
      = { w with sim := { w.sim with
            calls := w.sim.calls ++ qs.map (fun x =>
              .step x.fn x.operator (w.sim.dt_last_done * x.dt_fraction)) } } := by
  have e := rebx_post_timestep_modifications_loop_calls w.sim.dt_last_done qs w hpost.2
  rw [← hpost.1] at e
  exact e

theorem dispatch_pre_post_calls (w : World) (ps qs : List step_entry)
    (hpre : steps_are w w.rebx.pre_timestep_operators ps)
    (hpost : steps_are w w.rebx.post_timestep_operators qs) :
    (rebx_post_timestep_modifications (rebx_pre_timestep_modifications w)).sim.calls
      = w.sim.calls
        ++ ps.map (fun x => .step x.fn x.operator (w.sim.dt * x.dt_fraction))
        ++ qs.map (fun x => .step x.fn x.operator (w.sim.dt_last_done * x.dt_fraction)) := by
  rw [rebx_pre_timestep_modifications_eq w ps hpre]
  rw [rebx_post_timestep_modifications_eq _ qs
    (by exact steps_are_heap w _ _ _ hpost (heap_extends_refl _))]

/-- C26: an Updater operator that carries a step function is registered by
`rebx_add_operator` under IAS15 or WHFAST, the call returns 1, and no step of
the two lists wrapped the operator before.  With the upcoming timestep and the
last timestep both equal to `h`, one run of the pre-step dispatcher followed by
one run of the post-step dispatcher hands the operator times that add up to
`h`: under WHFAST one call with `h * (1 / 2)` at the end of each run, under
IAS15 one call with `h * 1` at the end of the post-step run. -/
theorem split_weights_sum_to_one (w : World) (op : Addr) (o : rebx_operator)
    (fn : rebx_step_fn) (ps qs : List step_entry) (h : ℚ)
    (hop : w.heap[op]? = some ⟨true, .operator o⟩)
    (hty : o.operator_type = some .REBX_OPERATOR_UPDATER)
    (hfn : o.step = some fn)
    (hint : w.sim.integrator = .REB_INTEGRATOR_IAS15
      ∨ w.sim.integrator = .REB_INTEGRATOR_WHFAST)
    (hsucc : (rebx_add_operator w (some op)).1 = 1)
    (hpre : steps_are w w.rebx.pre_timestep_operators ps)
    (hpost : steps_are w w.rebx.post_timestep_operators qs)
    (hnew : ∀ x ∈ ps ++ qs, x.operator ≠ op)
    (hdt : w.sim.dt = h) (hlast : w.sim.dt_last_done = h) :
    operator_time
        ((rebx_post_timestep_modifications (rebx_pre_timestep_modifications
          (rebx_add_operator w (some op)).2)).sim.calls.drop w.sim.calls.length) op = h
    ∧ (w.sim.integrator = .REB_INTEGRATOR_WHFAST →
        (rebx_post_timestep_modifications (rebx_pre_timestep_modifications
          (rebx_add_operator w (some op)).2)).sim.calls
          = w.sim.calls
            ++ (ps.map (fun x => .step x.fn x.operator (h * x.dt_fraction))
              ++ [.step fn op (h * (1 / 2))])
            ++ (qs.map (fun x => .step x.fn x.operator (h * x.dt_fraction))
              ++ [.step fn op (h * (1 / 2))]))
    ∧ (w.sim.integrator = .REB_INTEGRATOR_IAS15 →
        (rebx_post_timestep_modifications (rebx_pre_timestep_modifications
          (rebx_add_operator w (some op)).2)).sim.calls
          = w.sim.calls
            ++ ps.map (fun x => .step x.fn x.operator (h * x.dt_fraction))
            ++ (qs.map (fun x => .step x.fn x.operator (h * x.dt_fraction))
              ++ [.step fn op (h * 1)])) := by
  have hrec : o.operator_type ≠ some .REBX_OPERATOR_RECORDER := by
    rw [hty]; decide
  have hps : ∀ x ∈ ps, x.operator ≠ op := fun x hx => hnew x (List.mem_append_left _ hx)
  have hqs : ∀ x ∈ qs, x.operator ≠ op := fun x hx => hnew x (List.mem_append_right _ hx)
  rcases hint with hint | hint
  · have hal := rebx_add_operator_ias15_allocs w op o hop hrec hint hsucc
    have e := rebx_add_operator_post_state w op o hop (Or.inr hint) hal
    have hext : heap_extends w.heap
        (w.heap ++ [⟨true, .step ⟨some op, some 1⟩⟩, ⟨true, .raw⟩]) := ⟨_, rfl⟩
    have hcalls := dispatch_pre_post_calls (rebx_add_operator w (some op)).2 ps
      (qs ++ [⟨w.heap.length, op, 1, fn⟩])
      (by rw [e]; exact steps_are_heap w _ _ _ hpre hext)
      (by
        rw [e]
        exact steps_are_append _ _ _ ⟨w.heap.length, op, 1, fn⟩ o
          (steps_are_heap w _ _ _ hpost hext)
          ((getElem?_append_zero _ _).trans rfl)
          (heap_extends_getElem? _ _ hext _ _ hop) hfn)
    have hsim : (rebx_add_operator w (some op)).2.sim = w.sim := by rw [e]
    rw [hsim, hdt, hlast] at hcalls
    have hc : (rebx_post_timestep_modifications (rebx_pre_timestep_modifications
          (rebx_add_operator w (some op)).2)).sim.calls
          = w.sim.calls
            ++ ps.map (fun x => .step x.fn x.operator (h * x.dt_fraction))
            ++ (qs.map (fun x => .step x.fn x.operator (h * x.dt_fraction))
              ++ [.step fn op (h * 1)]) := by
      rw [hcalls]
      simp
    refine ⟨?_, fun hw => ?_, fun _ => hc⟩
    · rw [hc, List.append_assoc, List.drop_left, operator_time_append, operator_time_append,
        operator_time_others ps h op hps, operator_time_others qs h op hqs]
      simp [operator_time, step_time]
    · rw [hint] at hw
      cases hw
  · have hal := rebx_add_operator_whfast_allocs w op o hop hrec hint hsucc
    have e := rebx_add_operator_whfast_state w op o hop hrec hint hal
    have hext : heap_extends w.heap
        (w.heap ++ [⟨true, .step ⟨some op, some (1 / 2)⟩⟩, ⟨true, .raw⟩,
           ⟨true, .step ⟨some op, some (1 / 2)⟩⟩, ⟨true, .raw⟩]) := ⟨_, rfl⟩
    have hcalls := dispatch_pre_post_calls (rebx_add_operator w (some op)).2
      (ps ++ [⟨w.heap.length, op, 1 / 2, fn⟩])
      (qs ++ [⟨w.heap.length + 2, op, 1 / 2, fn⟩])
      (by
        rw [e]
        exact steps_are_append _ _ _ ⟨w.heap.length, op, 1 / 2, fn⟩ o
          (steps_are_heap w _ _ _ hpre hext)
          ((getElem?_append_zero _ _).trans rfl)
          (heap_extends_getElem? _ _ hext _ _ hop) hfn)
      (by
        rw [e]
        exact steps_are_append _ _ _ ⟨w.heap.length + 2, op, 1 / 2, fn⟩ o
          (steps_are_heap w _ _ _ hpost hext)
          ((getElem?_append_add _ _ 2).trans rfl)
          (heap_extends_getElem? _ _ hext _ _ hop) hfn)
    have hsim : (rebx_add_operator w (some op)).2.sim = w.sim := by rw [e]
    rw [hsim, hdt, hlast] at hcalls
    have hc : (rebx_post_timestep_modifications (rebx_pre_timestep_modifications
          (rebx_add_operator w (some op)).2)).sim.calls
          = w.sim.calls
            ++ (ps.map (fun x => .step x.fn x.operator (h * x.dt_fraction))
              ++ [.step fn op (h * (1 / 2))])
            ++ (qs.map (fun x => .step x.fn x.operator (h * x.dt_fraction))
              ++ [.step fn op (h * (1 / 2))]) := by
      rw [hcalls]
      simp
    refine ⟨?_, fun _ => hc, fun hw => ?_⟩
    · rw [hc, List.append_assoc, List.drop_left, operator_time_append, operator_time_append,
        operator_time_append, operator_time_others ps h op hps,
        operator_time_others qs h op hqs]
      simp [operator_time, step_time]
      ring
    · rw [hint] at hw
      cases hw

/-- C26, witness: the operator `kepler` on a WHFAST host with timestep 3 and
nothing registered before. -/
theorem split_weights_sum_to_one_witness :
    whfast_kepler_world.heap[0]? = some ⟨true, .operator
        { operator_type := some .REBX_OPERATOR_UPDATER, step := some .rebx_kepler_step }⟩
    ∧ (whfast_kepler_world.sim.integrator = .REB_INTEGRATOR_IAS15
      ∨ whfast_kepler_world.sim.integrator = .REB_INTEGRATOR_WHFAST)
    ∧ (rebx_add_operator whfast_kepler_world (some 0)).1 = 1
    ∧ steps_are whfast_kepler_world whfast_kepler_world.rebx.pre_timestep_operators []
    ∧ steps_are whfast_kepler_world whfast_kepler_world.rebx.post_timestep_operators []
    ∧ whfast_kepler_world.sim.dt = 3 ∧ whfast_kepler_world.sim.dt_last_done = 3
    ∧ (operator_time
        ((rebx_post_timestep_modifications (rebx_pre_timestep_modifications
          (rebx_add_operator whfast_kepler_world (some 0)).2)).sim.calls.drop
            whfast_kepler_world.sim.calls.length) 0 = 3
    ∧ (whfast_kepler_world.sim.integrator = .REB_INTEGRATOR_WHFAST →
        (rebx_post_timestep_modifications (rebx_pre_timestep_modifications
          (rebx_add_operator whfast_kepler_world (some 0)).2)).sim.calls
          = whfast_kepler_world.sim.calls
            ++ (([] : List step_entry).map
                (fun x => .step x.fn x.operator (3 * x.dt_fraction))
              ++ [.step .rebx_kepler_step 0 (3 * (1 / 2))])
            ++ (([] : List step_entry).map
                (fun x => .step x.fn x.operator (3 * x.dt_fraction))
              ++ [.step .rebx_kepler_step 0 (3 * (1 / 2))]))
    ∧ (whfast_kepler_world.sim.integrator = .REB_INTEGRATOR_IAS15 →
        (rebx_post_timestep_modifications (rebx_pre_timestep_modifications
          (rebx_add_operator whfast_kepler_world (some 0)).2)).sim.calls
          = whfast_kepler_world.sim.calls
            ++ ([] : List step_entry).map (fun x => .step x.fn x.operator (3 * x.dt_fraction))
            ++ (([] : List step_entry).map
                (fun x => .step x.fn x.operator (3 * x.dt_fraction))
              ++ [.step .rebx_kepler_step 0 (3 * 1)]))) :=
  have hsucc : (rebx_add_operator whfast_kepler_world (some 0)).1 = 1 := by
    rw [rebx_add_operator_whfast_state whfast_kepler_world 0 _ rfl (by decide) rfl
      (allocs_succeed_of_nil _ 4 rfl)]
  ⟨rfl, Or.inr rfl, hsucc, ⟨rfl, fun _ hx => by cases hx⟩, ⟨rfl, fun _ hx => by cases hx⟩,
    rfl, rfl,
    split_weights_sum_to_one whfast_kepler_world 0 _ .rebx_kepler_step [] [] 3 rfl rfl rfl
      (Or.inr rfl) hsucc ⟨rfl, fun _ hx => by cases hx⟩ ⟨rfl, fun _ hx => by cases hx⟩
      (fun _ hx => by cases hx) rfl rfl⟩

/-! ## States reached by registering operators -/

theorem allocs_succeed_all_drop (w w1 : World) (m : Nat) (h : ∀ k, allocs_succeed w k)
    (h1 : w1.oracle = w.oracle.drop m) : ∀ k, allocs_succeed w1 k :=
  fun k => allocs_succeed_drop w w1 m k (h (m + k)) h1

theorem schedule_is_heap (h h1 : List Cell) (l : List rebx_node) (ss : List scheduled_step)
    (hs : schedule_is h l ss) (hext : heap_extends h h1) : schedule_is h1 l ss :=
  ⟨hs.1, fun x hx => heap_extends_getElem? _ _ hext _ _ (hs.2 x hx)⟩

theorem schedule_is_append (h : List Cell) (l : List rebx_node) (ss : List scheduled_step)
    (x : scheduled_step) (hs : schedule_is h l ss)
    (hx : h[x.step]? = some ⟨true, .step ⟨some x.operator, some x.dt_fraction⟩⟩) :
    schedule_is h (l ++ [⟨.REBX_NODE_STEP, some x.step⟩]) (ss ++ [x]) := by
  refine ⟨by rw [hs.1]; simp, fun y hy => ?_⟩
  rcases List.mem_append.1 hy with hy1 | hy1
  · exact hs.2 y hy1
  · rw [List.mem_singleton] at hy1
    subst hy1
    exact hx

theorem rebx_add_operator_unsupported_state (w : World) (op : Addr) (o : rebx_operator)
    (hop : w.heap[op]? = some ⟨true, .operator o⟩)
    (hty : o.operator_type ≠ some .REBX_OPERATOR_RECORDER)
    (h1 : w.sim.integrator ≠ .REB_INTEGRATOR_IAS15)
    (h2 : w.sim.integrator ≠ .REB_INTEGRATOR_WHFAST) :
    (rebx_add_operator w (some op)).2.rebx = w.rebx
    ∧ (rebx_add_operator w (some op)).2.heap = w.heap
    ∧ (rebx_add_operator w (some op)).2.oracle = w.oracle := by
  unfold rebx_add_operator
  simp only [load_operator_live w op o hop, hty, if_false]
  cases hi : w.sim.integrator with
  | REB_INTEGRATOR_IAS15 => exact absurd hi h1
  | REB_INTEGRATOR_WHFAST => exact absurd hi h2
  | REB_INTEGRATOR_MERCURIUS =>
    by_cases hu : o.operator_type = some .REBX_OPERATOR_UPDATER
    · simp [hu, reb_error]
    · simp [hu]
  | REB_INTEGRATOR_SEI => exact ⟨rfl, rfl, rfl⟩
  | REB_INTEGRATOR_LEAPFROG => exact ⟨rfl, rfl, rfl⟩
  | REB_INTEGRATOR_NONE => exact ⟨rfl, rfl, rfl⟩
  | REB_INTEGRATOR_JANUS => exact ⟨rfl, rfl, rfl⟩

theorem schedule_balanced_post (ps qs : List scheduled_step) (y : scheduled_step)
    (hy : y.dt_fraction = 1 / 2 ∨ y.dt_fraction = 1) (h : schedule_balanced ps qs) :
    schedule_balanced ps (qs ++ [y]) := by
  obtain ⟨h1, h2, h3, h4⟩ := h
  refine ⟨h1, ?_, ?_, ?_⟩
  · intro z hz
    rcases List.mem_append.1 hz with hz1 | hz1
    · exact h2 z hz1
    · rw [List.mem_singleton] at hz1
      subst hz1
      exact hy
  · rw [List.length_append]
    exact Nat.le_trans h3 (Nat.le_add_right _ _)
  · intro x hx
    obtain ⟨z, hz, hzo, hzf⟩ := h4 x hx
    exact ⟨z, List.mem_append_left _ hz, hzo, hzf⟩

theorem schedule_balanced_both (ps qs : List scheduled_step) (x y : scheduled_step)
    (hx : x.dt_fraction = 1 / 2) (hy : y.dt_fraction = 1 / 2) (hxy : y.operator = x.operator)
    (h : schedule_balanced ps qs) : schedule_balanced (ps ++ [x]) (qs ++ [y]) := by
  obtain ⟨h1, h2, h3, h4⟩ := h
  refine ⟨?_, ?_, ?_, ?_⟩
  · intro z hz
    rcases List.mem_append.1 hz with hz1 | hz1
    · exact h1 z hz1
    · rw [List.mem_singleton] at hz1
      subst hz1
      exact hx
  · intro z hz
    rcases List.mem_append.1 hz with hz1 | hz1
    · exact h2 z hz1
    · rw [List.mem_singleton] at hz1
      subst hz1
      exact Or.inl hy
  · rw [List.length_append, List.length_append]
    exact Nat.add_le_add_right h3 _
  · intro z hz
    rcases List.mem_append.1 hz with hz1 | hz1
    · obtain ⟨u, hu, huo, huf⟩ := h4 z hz1
      exact ⟨u, List.mem_append_left _ hu, huo, huf⟩
    · rw [List.mem_singleton] at hz1
      subst hz1
      exact ⟨y, List.mem_append_right _ (List.mem_singleton_self _), hxy, hy⟩

theorem run_add_operator_invariant (h0 : List Cell) (w : World) (c : operator_call)
    (hinv : scheduler_invariant h0 w)
    (hop : ∀ a, c.operator = some a → ∃ o : rebx_operator, h0[a]? = some ⟨true, .operator o⟩) :
    scheduler_invariant h0 (run_add_operator w c) := by
  obtain ⟨hal, hext, ps, qs, hps, hqs, hb⟩ := hinv
  have hal1 : ∀ k, allocs_succeed
      ({ w with sim := { w.sim with integrator := c.integrator } } : World) k := hal
  unfold run_add_operator
  cases hc : c.operator with
  | none => exact ⟨hal, hext, ps, qs, hps, hqs, hb⟩
  | some a =>
    obtain ⟨o, ho0⟩ := hop a hc
    have ho : ({ w with sim := { w.sim with integrator := c.integrator } } : World).heap[a]?
        = some ⟨true, .operator o⟩ := heap_extends_getElem? _ _ hext _ _ ho0
    by_cases hpost : o.operator_type = some .REBX_OPERATOR_RECORDER
        ∨ c.integrator = .REB_INTEGRATOR_IAS15
    · rw [rebx_add_operator_post_state _ a o ho hpost (hal1 2)]
      have hx : heap_extends w.heap
          (w.heap ++ [⟨true, .step ⟨some a, some 1⟩⟩, ⟨true, .raw⟩]) := ⟨_, rfl⟩
      refine ⟨allocs_succeed_all_drop w _ 2 hal rfl, heap_extends_trans _ _ _ hext hx,
        ps, qs ++ [⟨w.heap.length, a, 1⟩], schedule_is_heap _ _ _ _ hps hx,
        schedule_is_append _ _ _ ⟨w.heap.length, a, 1⟩ (schedule_is_heap _ _ _ _ hqs hx)
          ((getElem?_append_zero _ _).trans rfl),
        schedule_balanced_post _ _ _ (Or.inr rfl) hb⟩
    · have hrec : o.operator_type ≠ some .REBX_OPERATOR_RECORDER :=
        fun h => hpost (Or.inl h)
      have hias : c.integrator ≠ .REB_INTEGRATOR_IAS15 := fun h => hpost (Or.inr h)
      by_cases hw : c.integrator = .REB_INTEGRATOR_WHFAST
      · rw [rebx_add_operator_whfast_state _ a o ho hrec hw (hal1 4)]
        have hx : heap_extends w.heap
            (w.heap ++ [⟨true, .step ⟨some a, some (1 / 2)⟩⟩, ⟨true, .raw⟩,
              ⟨true, .step ⟨some a, some (1 / 2)⟩⟩, ⟨true, .raw⟩]) := ⟨_, rfl⟩
        refine ⟨allocs_succeed_all_drop w _ 4 hal rfl, heap_extends_trans _ _ _ hext hx,
          ps ++ [⟨w.heap.length, a, 1 / 2⟩], qs ++ [⟨w.heap.length + 2, a, 1 / 2⟩],
          schedule_is_append _ _ _ ⟨w.heap.length, a, 1 / 2⟩
            (schedule_is_heap _ _ _ _ hps hx) ((getElem?_append_zero _ _).trans rfl),
          schedule_is_append _ _ _ ⟨w.heap.length + 2, a, 1 / 2⟩
            (schedule_is_heap _ _ _ _ hqs hx) ((getElem?_append_add _ _ 2).trans rfl),
          schedule_balanced_both _ _ _ _ rfl rfl rfl hb⟩
      · obtain ⟨er, eh, eo⟩ := rebx_add_operator_unsupported_state _ a o ho hrec hias hw
        unfold scheduler_invariant
        rw [er, eh]
        refine ⟨fun k i hi => ?_, hext, ps, qs, hps, hqs, hb⟩
        rw [eo]
        exact hal k i hi

theorem run_add_operators_invariant (h0 : List Cell) (cs : List operator_call) :
    ∀ w : World, scheduler_invariant h0 w →
      (∀ c ∈ cs, ∀ a, c.operator = some a →
        ∃ o : rebx_operator, h0[a]? = some ⟨true, .operator o⟩) →
      scheduler_invariant h0 (run_add_operators w cs) := by
  induction cs with
  | nil => intro w h _; exact h
  | cons c rest ih =>
    intro w h hops
    exact ih _ (run_add_operator_invariant h0 w c h (hops c (List.mem_cons_self _ _)))
      (fun d hd => hops d (List.mem_cons_of_mem _ hd))

theorem rebx_initialize_frame (w : World) :
    ( rebx_initialize w).rebx.pre_timestep_operators = []
    ∧ ( rebx_initialize w).rebx.post_timestep_operators = []
    ∧ ( rebx_initialize w).heap = w.heap
    ∧ ( rebx_initialize w).oracle = w.oracle := by
  unfold rebx_initialize
  by_cases h : w.sim.additional_forces ≠ none ∨ w.sim.pre_timestep_modifications ≠ none ∨
      w.sim.post_timestep_modifications ≠ none
  · simp only [if_pos h, reb_warning]
    refine ⟨?_, ?_, ?_, ?_⟩ <;> trivial
  · simp only [if_neg h]
    refine ⟨?_, ?_, ?_, ?_⟩ <;> trivial

/-- C27: the context is initialised by `rebx_initialize` and then only
`rebx_add_operator` is called, any number of times, with the host free to
select another integrator before each call; every allocation succeeds and
every operator passed is null or a live operator.  In the state reached the
pre-step list holds steps `ps` and the post-step list steps `qs` such that
every step of `ps` has `dt_fraction` one half, every step of `qs` has
`dt_fraction` one half or one, the pre-step list is not longer than the
post-step list, and every operator wrapped by a step of `ps` is wrapped by a
step of `qs` with `dt_fraction` one half. -/
theorem scheduler_reachable_invariant (w0 : World) (cs : List operator_call)
    (hal : ∀ k, allocs_succeed w0 k)
    (hops : ∀ c ∈ cs, ∀ a, c.operator = some a →
      ∃ o : rebx_operator, w0.heap[a]? = some ⟨true, .operator o⟩) :
    ∃ ps qs : List scheduled_step,
      schedule_is (run_add_operators ( rebx_initialize w0) cs).heap
        (run_add_operators ( rebx_initialize w0) cs).rebx.pre_timestep_operators ps
      ∧ schedule_is (run_add_operators ( rebx_initialize w0) cs).heap
        (run_add_operators ( rebx_initialize w0) cs).rebx.post_timestep_operators qs
      ∧ (∀ x ∈ ps, x.dt_fraction = 1 / 2)
      ∧ (∀ y ∈ qs, y.dt_fraction = 1 / 2 ∨ y.dt_fraction = 1)
      ∧ (run_add_operators ( rebx_initialize w0) cs).rebx.pre_timestep_operators.length
          ≤ (run_add_operators ( rebx_initialize w0) cs).rebx.post_timestep_operators.length
      ∧ ∀ x ∈ ps, ∃ y ∈ qs, y.operator = x.operator ∧ y.dt_fraction = 1 / 2 := by
  obtain ⟨e1, e2, e3, e4⟩ := rebx_initialize_frame w0
  have hinit : scheduler_invariant w0.heap ( rebx_initialize w0) := by
    refine ⟨fun k i hi => ?_, ?_, [], [], ⟨?_, ?_⟩, ⟨?_, ?_⟩, ?_⟩
    · rw [e4]; exact hal k i hi
    · rw [e3]; exact heap_extends_refl _
    · rw [e1]; rfl
    · intro x hx; cases hx
    · rw [e2]; rfl
    · intro x hx; cases hx
    · exact ⟨fun x hx => (by cases hx), fun x hx => (by cases hx), Nat.le_refl _,
        fun x hx => (by cases hx)⟩
  obtain ⟨_, _, ps, qs, hps, hqs, hb1, hb2, hb3, hb4⟩ :=
    run_add_operators_invariant w0.heap cs _ hinit hops
  refine ⟨ps, qs, hps, hqs, hb1, hb2, ?_, hb4⟩
  rw [hps.1, hqs.1, List.length_map, List.length_map]
  exact hb3

/-- C27, witness: the operator `kepler` registered under WHFAST and again under
IAS15, a Recorder registered under MERCURIUS, and a null operator. -/
theorem scheduler_reachable_invariant_witness :
    (∀ k, allocs_succeed two_operators_world k)
    ∧ (∀ c ∈ ([⟨.REB_INTEGRATOR_WHFAST, some 0⟩, ⟨.REB_INTEGRATOR_IAS15, some 0⟩,
          ⟨.REB_INTEGRATOR_MERCURIUS, some 1⟩, ⟨.REB_INTEGRATOR_SEI, none⟩] :
          List operator_call),
        ∀ a, c.operator = some a →
          ∃ o : rebx_operator, two_operators_world.heap[a]? = some ⟨true, .operator o⟩)
    ∧ ∃ ps qs : List scheduled_step,
      schedule_is
        (run_add_operators ( rebx_initialize two_operators_world)
          [⟨.REB_INTEGRATOR_WHFAST, some 0⟩, ⟨.REB_INTEGRATOR_IAS15, some 0⟩,
            ⟨.REB_INTEGRATOR_MERCURIUS, some 1⟩, ⟨.REB_INTEGRATOR_SEI, none⟩]).heap
        (run_add_operators ( rebx_initialize two_operators_world)
          [⟨.REB_INTEGRATOR_WHFAST, some 0⟩, ⟨.REB_INTEGRATOR_IAS15, some 0⟩,
            ⟨.REB_INTEGRATOR_MERCURIUS, some 1⟩,
            ⟨.REB_INTEGRATOR_SEI, none⟩]).rebx.pre_timestep_operators ps
      ∧ schedule_is
        (run_add_operators ( rebx_initialize two_operators_world)
          [⟨.REB_INTEGRATOR_WHFAST, some 0⟩, ⟨.REB_INTEGRATOR_IAS15, some 0⟩,
            ⟨.REB_INTEGRATOR_MERCURIUS, some 1⟩, ⟨.REB_INTEGRATOR_SEI, none⟩]).heap
        (run_add_operators ( rebx_initialize two_operators_world)
          [⟨.REB_INTEGRATOR_WHFAST, some 0⟩, ⟨.REB_INTEGRATOR_IAS15, some 0⟩,
            ⟨.REB_INTEGRATOR_MERCURIUS, some 1⟩,
            ⟨.REB_INTEGRATOR_SEI, none⟩]).rebx.post_timestep_operators qs
      ∧ (∀ x ∈ ps, x.dt_fraction = 1 / 2)
      ∧ (∀ y ∈ qs, y.dt_fraction = 1 / 2 ∨ y.dt_fraction = 1)
      ∧ (run_add_operators ( rebx_initialize two_operators_world)
          [⟨.REB_INTEGRATOR_WHFAST, some 0⟩, ⟨.REB_INTEGRATOR_IAS15, some 0⟩,
            ⟨.REB_INTEGRATOR_MERCURIUS, some 1⟩,
            ⟨.REB_INTEGRATOR_SEI, none⟩]).rebx.pre_timestep_operators.length
          ≤ (run_add_operators ( rebx_initialize two_operators_world)
          [⟨.REB_INTEGRATOR_WHFAST, some 0⟩, ⟨.REB_INTEGRATOR_IAS15, some 0⟩,
            ⟨.REB_INTEGRATOR_MERCURIUS, some 1⟩,
            ⟨.REB_INTEGRATOR_SEI, none⟩]).rebx.post_timestep_operators.length
      ∧ ∀ x ∈ ps, ∃ y ∈ qs, y.operator = x.operator ∧ y.dt_fraction = 1 / 2 :=
  have hal : ∀ k, allocs_succeed two_operators_world k :=
    fun k => allocs_succeed_of_nil two_operators_world k rfl
  have hops : ∀ c ∈ ([⟨.REB_INTEGRATOR_WHFAST, some 0⟩, ⟨.REB_INTEGRATOR_IAS15, some 0⟩,
          ⟨.REB_INTEGRATOR_MERCURIUS, some 1⟩, ⟨.REB_INTEGRATOR_SEI, none⟩] :
          List operator_call),
        ∀ a, c.operator = some a →
          ∃ o : rebx_operator, two_operators_world.heap[a]? = some ⟨true, .operator o⟩ := by
    intro c hc a ha
    simp only [List.mem_cons, List.mem_singleton, List.not_mem_nil, or_false] at hc
    rcases hc with rfl | rfl | rfl | rfl
    · cases ha; exact ⟨_, rfl⟩
    · cases ha; exact ⟨_, rfl⟩
    · cases ha; exact ⟨_, rfl⟩
    · cases ha
  ⟨hal, hops, scheduler_reachable_invariant two_operators_world _ hal hops⟩

/-! ## Orbit modification (`modify_orbits_direct.c`) -/

theorem rebx_modified_orbit_tau_a (tools : modify_orbits_tools) (sim : reb_simulation)
    (p : reb_particle) (o : reb_orbit) (t : ℚ)
    (ha : tools.rebx_get_param_double p "tau_a" = some t)
    (he : tools.rebx_get_param_double p "tau_e" = none)
    (hinc : tools.rebx_get_param_double p "tau_inc" = none)
    (homega : tools.rebx_get_param_double p "tau_omega" = none)
    (hOmega : tools.rebx_get_param_double p "tau_Omega" = none) :
    rebx_modified_orbit tools sim p o = { o with a := o.a + o.a * (sim.dt_last_done / t) } := by
  simp only [rebx_modified_orbit, ha, he, hinc, homega, hOmega]

theorem rebx_calculate_modify_orbits_direct_valid (tools : modify_orbits_tools)
    (sim : reb_simulation) (effect : Option Addr) (p primary : reb_particle) (o : reb_orbit)
    (hconv : tools.reb_tools_particle_to_orbit_err sim.G p primary = (o, 0)) :
    rebx_calculate_modify_orbits_direct tools sim effect p primary
      = tools.reb_tools_orbit_to_particle sim.G primary p.m
          (rebx_modified_orbit tools sim p o).a (rebx_modified_orbit tools sim p o).e
          (rebx_modified_orbit tools sim p o).inc (rebx_modified_orbit tools sim p o).Omega
          (rebx_modified_orbit tools sim p o).omega (rebx_modified_orbit tools sim p o).f := by
  simp only [rebx_calculate_modify_orbits_direct, hconv]
  simp

/-- C21, counterexample: a particle with semi-major axis 500 whose only
parameter is `tau_a = -1000`, after a timestep of 2.  The semi-major axis handed
to the conversion is 499: it has shrunk by `500 * 2 / 1000`, where the claim
has 501. -/
theorem tau_a_negative_shrinks :
    (plain_tools tau_a_only).reb_tools_particle_to_orbit_err sim_dt2.G planet star
        = (⟨500, 1 / 10, 0, 0, 0, 0⟩, 0)
    ∧ (rebx_modified_orbit (plain_tools tau_a_only) sim_dt2 planet ⟨500, 1 / 10, 0, 0, 0, 0⟩).a
        = 499
    ∧ rebx_calculate_modify_orbits_direct (plain_tools tau_a_only) sim_dt2 none planet star
        = (plain_tools tau_a_only).reb_tools_orbit_to_particle sim_dt2.G star planet.m
            499 (1 / 10) 0 0 0 0
    ∧ (499 : ℚ) ≠ 500 + 500 * 2 / 1000 := by
  have hconv : (plain_tools tau_a_only).reb_tools_particle_to_orbit_err sim_dt2.G planet star
      = (⟨500, 1 / 10, 0, 0, 0, 0⟩, 0) := by
    simp [plain_tools, planet, star]
  have e := rebx_modified_orbit_tau_a (plain_tools tau_a_only) sim_dt2 planet
    ⟨500, 1 / 10, 0, 0, 0, 0⟩ (-1000) rfl rfl rfl rfl rfl
  have ea : (rebx_modified_orbit (plain_tools tau_a_only) sim_dt2 planet
      ⟨500, 1 / 10, 0, 0, 0, 0⟩).a = 499 := by
    rw [e]
    norm_num [sim_dt2]
  refine ⟨hconv, ea, ?_, by norm_num⟩
  rw [rebx_calculate_modify_orbits_direct_valid _ _ _ _ _ _ hconv, ea, e]

/-- C21: for a particle with a valid orbit `o` whose only timescale parameter is
`tau_a = -1000`, the orbit handed to `reb_tools_orbit_to_particle` has the
semi-major axis `o.a - o.a * dt / 1000`, where `dt` is the last timestep of the
host: the semi-major axis has shrunk by `o.a * dt / 1000`.  The other five
elements are those of `o`. -/
theorem tau_a_negative_damps (tools : modify_orbits_tools) (sim : reb_simulation)
    (effect : Option Addr) (p primary : reb_particle) (o : reb_orbit)
    (hconv : tools.reb_tools_particle_to_orbit_err sim.G p primary = (o, 0))
    (ha : tools.rebx_get_param_double p "tau_a" = some (-1000))
    (he : tools.rebx_get_param_double p "tau_e" = none)
    (hinc : tools.rebx_get_param_double p "tau_inc" = none)
    (homega : tools.rebx_get_param_double p "tau_omega" = none)
    (hOmega : tools.rebx_get_param_double p "tau_Omega" = none) :
    rebx_calculate_modify_orbits_direct tools sim effect p primary
      = tools.reb_tools_orbit_to_particle sim.G primary p.m
          (o.a - o.a * sim.dt_last_done / 1000) o.e o.inc o.Omega o.omega o.f
    ∧ (rebx_modified_orbit tools sim p o).a = o.a - o.a * sim.dt_last_done / 1000 := by
  have e := rebx_modified_orbit_tau_a tools sim p o (-1000) ha he hinc homega hOmega
  have ea : o.a + o.a * (sim.dt_last_done / (-1000)) = o.a - o.a * sim.dt_last_done / 1000 := by
    ring
  refine ⟨?_, ?_⟩
  · rw [rebx_calculate_modify_orbits_direct_valid tools sim effect p primary o hconv, e]
    simp only [ea]
  · rw [e]
    exact ea

/-- C21, witness: semi-major axis 500, timestep 2. -/
theorem tau_a_negative_damps_witness :
    (plain_tools tau_a_only).reb_tools_particle_to_orbit_err sim_dt2.G planet star
        = (⟨500, 1 / 10, 0, 0, 0, 0⟩, 0)
    ∧ (plain_tools tau_a_only).rebx_get_param_double planet "tau_a" = some (-1000)
    ∧ (plain_tools tau_a_only).rebx_get_param_double planet "tau_e" = none
    ∧ (plain_tools tau_a_only).rebx_get_param_double planet "tau_inc" = none
    ∧ (plain_tools tau_a_only).rebx_get_param_double planet "tau_omega" = none
    ∧ (plain_tools tau_a_only).rebx_get_param_double planet "tau_Omega" = none
    ∧ (rebx_calculate_modify_orbits_direct (plain_tools tau_a_only) sim_dt2 none planet star
      = (plain_tools tau_a_only).reb_tools_orbit_to_particle sim_dt2.G star planet.m
          ((⟨500, 1 / 10, 0, 0, 0, 0⟩ : reb_orbit).a
            - (⟨500, 1 / 10, 0, 0, 0, 0⟩ : reb_orbit).a * sim_dt2.dt_last_done / 1000)
          (⟨500, 1 / 10, 0, 0, 0, 0⟩ : reb_orbit).e (⟨500, 1 / 10, 0, 0, 0, 0⟩ : reb_orbit).inc
          (⟨500, 1 / 10, 0, 0, 0, 0⟩ : reb_orbit).Omega
          (⟨500, 1 / 10, 0, 0, 0, 0⟩ : reb_orbit).omega (⟨500, 1 / 10, 0, 0, 0, 0⟩ : reb_orbit).f
    ∧ (rebx_modified_orbit (plain_tools tau_a_only) sim_dt2 planet ⟨500, 1 / 10, 0, 0, 0, 0⟩).a
        = (⟨500, 1 / 10, 0, 0, 0, 0⟩ : reb_orbit).a
          - (⟨500, 1 / 10, 0, 0, 0, 0⟩ : reb_orbit).a * sim_dt2.dt_last_done / 1000) :=
  have hconv : (plain_tools tau_a_only).reb_tools_particle_to_orbit_err sim_dt2.G planet star
      = (⟨500, 1 / 10, 0, 0, 0, 0⟩, 0) := by
    simp [plain_tools, planet, star]
  ⟨hconv, rfl, rfl, rfl, rfl, rfl,
    tau_a_negative_damps (plain_tools tau_a_only) sim_dt2 none planet star _ hconv
      rfl rfl rfl rfl rfl⟩

theorem rebx_modified_orbit_a_unset (tools : modify_orbits_tools) (sim : reb_simulation)
    (p : reb_particle) (o : reb_orbit)
    (h1 : tools.rebx_get_param_double p "tau_a" = none)
    (hep : tools.rebx_get_param_double p "tau_e" = none
      ∨ tools.rebx_get_param_double p "p" = none) :
    (rebx_modified_orbit tools sim p o).a = o.a := by
  rcases hep with h2 | h3
  · rcases h3 : tools.rebx_get_param_double p "p" with _ | t3 <;>
    rcases h4 : tools.rebx_get_param_double p "tau_inc" with _ | t4 <;>
    rcases h5 : tools.rebx_get_param_double p "tau_omega" with _ | t5 <;>
    rcases h6 : tools.rebx_get_param_double p "tau_Omega" with _ | t6 <;>
    simp only [rebx_modified_orbit, h1, h2, h3, h4, h5, h6]
  · rcases h2 : tools.rebx_get_param_double p "tau_e" with _ | t2 <;>
    rcases h4 : tools.rebx_get_param_double p "tau_inc" with _ | t4 <;>
    rcases h5 : tools.rebx_get_param_double p "tau_omega" with _ | t5 <;>
    rcases h6 : tools.rebx_get_param_double p "tau_Omega" with _ | t6 <;>
    simp only [rebx_modified_orbit, h1, h2, h3, h4, h5, h6]

theorem rebx_modified_orbit_e_unset (tools : modify_orbits_tools) (sim : reb_simulation)
    (p : reb_particle) (o : reb_orbit)
    (h2 : tools.rebx_get_param_double p "tau_e" = none) :
    (rebx_modified_orbit tools sim p o).e = o.e := by
  rcases h1 : tools.rebx_get_param_double p "tau_a" with _ | t1 <;>
    rcases h3 : tools.rebx_get_param_double p "p" with _ | t3 <;>
    rcases h4 : tools.rebx_get_param_double p "tau_inc" with _ | t4 <;>
    rcases h5 : tools.rebx_get_param_double p "tau_omega" with _ | t5 <;>
    rcases h6 : tools.rebx_get_param_double p "tau_Omega" with _ | t6 <;>
    simp only [rebx_modified_orbit, h1, h2, h3, h4, h5, h6]

theorem rebx_modified_orbit_inc_unset (tools : modify_orbits_tools) (sim : reb_simulation)
    (p : reb_particle) (o : reb_orbit)
    (h4 : tools.rebx_get_param_double p "tau_inc" = none) :
    (rebx_modified_orbit tools sim p o).inc = o.inc := by
  rcases h1 : tools.rebx_get_param_double p "tau_a" with _ | t1 <;>
    rcases h2 : tools.rebx_get_param_double p "tau_e" with _ | t2 <;>
    rcases h3 : tools.rebx_get_param_double p "p" with _ | t3 <;>
    rcases h5 : tools.rebx_get_param_double p "tau_omega" with _ | t5 <;>
    rcases h6 : tools.rebx_get_param_double p "tau_Omega" with _ | t6 <;>
    simp only [rebx_modified_orbit, h1, h2, h3, h4, h5, h6]

theorem rebx_modified_orbit_omega_unset (tools : modify_orbits_tools) (sim : reb_simulation)
    (p : reb_particle) (o : reb_orbit)
    (h5 : tools.rebx_get_param_double p "tau_omega" = none) :
    (rebx_modified_orbit tools sim p o).omega = o.omega := by
  rcases h1 : tools.rebx_get_param_double p "tau_a" with _ | t1 <;>
    rcases h2 : tools.rebx_get_param_double p "tau_e" with _ | t2 <;>
    rcases h3 : tools.rebx_get_param_double p "p" with _ | t3 <;>
    rcases h4 : tools.rebx_get_param_double p "tau_inc" with _ | t4 <;>
    rcases h6 : tools.rebx_get_param_double p "tau_Omega" with _ | t6 <;>
    simp only [rebx_modified_orbit, h1, h2, h3, h4, h5, h6]

theorem rebx_modified_orbit_Omega_unset (tools : modify_orbits_tools) (sim : reb_simulation)
    (p : reb_particle) (o : reb_orbit)
    (h6 : tools.rebx_get_param_double p "tau_Omega" = none) :
    (rebx_modified_orbit tools sim p o).Omega = o.Omega := by
  rcases h1 : tools.rebx_get_param_double p "tau_a" with _ | t1 <;>
    rcases h2 : tools.rebx_get_param_double p "tau_e" with _ | t2 <;>
    rcases h3 : tools.rebx_get_param_double p "p" with _ | t3 <;>
    rcases h4 : tools.rebx_get_param_double p "tau_inc" with _ | t4 <;>
    rcases h5 : tools.rebx_get_param_double p "tau_omega" with _ | t5 <;>
    simp only [rebx_modified_orbit, h1, h2, h3, h4, h5, h6]

theorem rebx_modified_orbit_f (tools : modify_orbits_tools) (sim : reb_simulation)
    (p : reb_particle) (o : reb_orbit) :
    (rebx_modified_orbit tools sim p o).f = o.f := by
  rcases h1 : tools.rebx_get_param_double p "tau_a" with _ | t1 <;>
    rcases h2 : tools.rebx_get_param_double p "tau_e" with _ | t2 <;>
    rcases h3 : tools.rebx_get_param_double p "p" with _ | t3 <;>
    rcases h4 : tools.rebx_get_param_double p "tau_inc" with _ | t4 <;>
    rcases h5 : tools.rebx_get_param_double p "tau_omega" with _ | t5 <;>
    rcases h6 : tools.rebx_get_param_double p "tau_Omega" with _ | t6 <;>
    simp only [rebx_modified_orbit, h1, h2, h3, h4, h5, h6]

theorem double_add_zero (x : Option ℚ) : double_add x (some 0) = x := by
  cases x <;> simp [double_add]

theorem double_div_of_ne (a b : ℚ) (hb : b ≠ 0) : double_div a b = some (a / b) := by
  simp [double_div, hb]

theorem rebx_modified_orbit_double_a_unset (tools : modify_orbits_tools)
    (sim : reb_simulation) (p : reb_particle) (o : reb_orbit)
    (h1 : tools.rebx_get_param_double p "tau_a" = none)
    (hep : tools.rebx_get_param_double p "tau_e" = none
      ∨ tools.rebx_get_param_double p "p" = none) :
    (rebx_modified_orbit_double tools sim p o).a = some o.a := by
  rcases hep with h2 | h3
  · rcases h3 : tools.rebx_get_param_double p "p" with _ | t3 <;>
    rcases h4 : tools.rebx_get_param_double p "tau_inc" with _ | t4 <;>
    rcases h5 : tools.rebx_get_param_double p "tau_omega" with _ | t5 <;>
    rcases h6 : tools.rebx_get_param_double p "tau_Omega" with _ | t6 <;>
    simp only [rebx_modified_orbit_double, reb_orbit.to_double, h1, h2, h3, h4, h5, h6]
  · rcases h2 : tools.rebx_get_param_double p "tau_e" with _ | t2 <;>
    rcases h4 : tools.rebx_get_param_double p "tau_inc" with _ | t4 <;>
    rcases h5 : tools.rebx_get_param_double p "tau_omega" with _ | t5 <;>
    rcases h6 : tools.rebx_get_param_double p "tau_Omega" with _ | t6 <;>
    simp only [rebx_modified_orbit_double, reb_orbit.to_double, h1, h2, h3, h4, h5, h6]

theorem rebx_modified_orbit_double_e_unset (tools : modify_orbits_tools)
    (sim : reb_simulation) (p : reb_particle) (o : reb_orbit)
    (h2 : tools.rebx_get_param_double p "tau_e" = none) :
    (rebx_modified_orbit_double tools sim p o).e = some o.e := by
  rcases h1 : tools.rebx_get_param_double p "tau_a" with _ | t1 <;>
    rcases h3 : tools.rebx_get_param_double p "p" with _ | t3 <;>
    rcases h4 : tools.rebx_get_param_double p "tau_inc" with _ | t4 <;>
    rcases h5 : tools.rebx_get_param_double p "tau_omega" with _ | t5 <;>
    rcases h6 : tools.rebx_get_param_double p "tau_Omega" with _ | t6 <;>
    simp only [rebx_modified_orbit_double, reb_orbit.to_double, h1, h2, h3, h4, h5, h6]

theorem rebx_modified_orbit_double_inc_unset (tools : modify_orbits_tools)
    (sim : reb_simulation) (p : reb_particle) (o : reb_orbit)
    (h4 : tools.rebx_get_param_double p "tau_inc" = none) :
    (rebx_modified_orbit_double tools sim p o).inc = some o.inc := by
  rcases h1 : tools.rebx_get_param_double p "tau_a" with _ | t1 <;>
    rcases h2 : tools.rebx_get_param_double p "tau_e" with _ | t2 <;>
    rcases h3 : tools.rebx_get_param_double p "p" with _ | t3 <;>
    rcases h5 : tools.rebx_get_param_double p "tau_omega" with _ | t5 <;>
    rcases h6 : tools.rebx_get_param_double p "tau_Omega" with _ | t6 <;>
    simp only [rebx_modified_orbit_double, reb_orbit.to_double, h1, h2, h3, h4, h5, h6]

theorem rebx_modified_orbit_double_omega_unset (tools : modify_orbits_tools)
    (sim : reb_simulation) (p : reb_particle) (o : reb_orbit)
    (h5 : tools.rebx_get_param_double p "tau_omega" = none) :
    (rebx_modified_orbit_double tools sim p o).omega = some o.omega := by
  rcases h1 : tools.rebx_get_param_double p "tau_a" with _ | t1 <;>
    rcases h2 : tools.rebx_get_param_double p "tau_e" with _ | t2 <;>
    rcases h3 : tools.rebx_get_param_double p "p" with _ | t3 <;>
    rcases h4 : tools.rebx_get_param_double p "tau_inc" with _ | t4 <;>
    rcases h6 : tools.rebx_get_param_double p "tau_Omega" with _ | t6 <;>
    simp only [rebx_modified_orbit_double, reb_orbit.to_double, h1, h2, h3, h4, h5, h6]

theorem rebx_modified_orbit_double_Omega_unset (tools : modify_orbits_tools)
    (sim : reb_simulation) (p : reb_particle) (o : reb_orbit)
    (h6 : tools.rebx_get_param_double p "tau_Omega" = none) :
    (rebx_modified_orbit_double tools sim p o).Omega = some o.Omega := by
  rcases h1 : tools.rebx_get_param_double p "tau_a" with _ | t1 <;>
    rcases h2 : tools.rebx_get_param_double p "tau_e" with _ | t2 <;>
    rcases h3 : tools.rebx_get_param_double p "p" with _ | t3 <;>
    rcases h4 : tools.rebx_get_param_double p "tau_inc" with _ | t4 <;>
    rcases h5 : tools.rebx_get_param_double p "tau_omega" with _ | t5 <;>
    simp only [rebx_modified_orbit_double, reb_orbit.to_double, h1, h2, h3, h4, h5, h6]

theorem rebx_modified_orbit_double_f (tools : modify_orbits_tools) (sim : reb_simulation)
    (p : reb_particle) (o : reb_orbit) :
    (rebx_modified_orbit_double tools sim p o).f = some o.f := by
  rcases h1 : tools.rebx_get_param_double p "tau_a" with _ | t1 <;>
    rcases h2 : tools.rebx_get_param_double p "tau_e" with _ | t2 <;>
    rcases h3 : tools.rebx_get_param_double p "p" with _ | t3 <;>
    rcases h4 : tools.rebx_get_param_double p "tau_inc" with _ | t4 <;>
    rcases h5 : tools.rebx_get_param_double p "tau_omega" with _ | t5 <;>
    rcases h6 : tools.rebx_get_param_double p "tau_Omega" with _ | t6 <;>
    simp only [rebx_modified_orbit_double, reb_orbit.to_double, h1, h2, h3, h4, h5, h6]

theorem rebx_modified_orbit_double_p_zero (tools : modify_orbits_tools)
    (sim : reb_simulation) (p : reb_particle) (o : reb_orbit)
    (hp : tools.rebx_get_param_double p "p" = some 0
      ∨ tools.rebx_get_param_double p "p" = none)
    (he : tools.rebx_get_param_double p "tau_e" ≠ some 0) :
    (rebx_modified_orbit_double tools sim p o).a =
      match tools.rebx_get_param_double p "tau_a" with
      | some t => double_add (some o.a) (double_mul (some o.a) (double_div sim.dt_last_done t))
      | none => some o.a := by
  rcases h2 : tools.rebx_get_param_double p "tau_e" with _ | t2
  · rcases hp with h3 | h3 <;>
      rcases h1 : tools.rebx_get_param_double p "tau_a" with _ | t1 <;>
      rcases h4 : tools.rebx_get_param_double p "tau_inc" with _ | t4 <;>
      rcases h5 : tools.rebx_get_param_double p "tau_omega" with _ | t5 <;>
      rcases h6 : tools.rebx_get_param_double p "tau_Omega" with _ | t6 <;>
      simp only [rebx_modified_orbit_double, reb_orbit.to_double, h1, h2, h3, h4, h5, h6]
  · have ht : t2 ≠ 0 := fun h0 => he (by rw [h2, h0])
    have hz : double_div (2 * o.a * o.e * o.e * 0 * sim.dt_last_done) t2 = some 0 := by
      rw [double_div_of_ne _ _ ht]
      simp
    rcases hp with h3 | h3 <;>
      rcases h1 : tools.rebx_get_param_double p "tau_a" with _ | t1 <;>
      rcases h4 : tools.rebx_get_param_double p "tau_inc" with _ | t4 <;>
      rcases h5 : tools.rebx_get_param_double p "tau_omega" with _ | t5 <;>
      rcases h6 : tools.rebx_get_param_double p "tau_Omega" with _ | t6 <;>
      simp only [rebx_modified_orbit_double, reb_orbit.to_double, h1, h2, h3, h4, h5, h6, hz,
        double_add_zero]

theorem rebx_modified_orbit_double_agrees (tools : modify_orbits_tools)
    (sim : reb_simulation) (p : reb_particle) (o : reb_orbit)
    (hnz : timescales_nonzero tools p) :
    rebx_modified_orbit_double tools sim p o = (rebx_modified_orbit tools sim p o).to_double := by
  have n1 : ∀ t, tools.rebx_get_param_double p "tau_a" = some t → t ≠ 0 :=
    fun t h h0 => hnz "tau_a" (by simp) (by rw [h, h0])
  have n2 : ∀ t, tools.rebx_get_param_double p "tau_e" = some t → t ≠ 0 :=
    fun t h h0 => hnz "tau_e" (by simp) (by rw [h, h0])
  have n4 : ∀ t, tools.rebx_get_param_double p "tau_inc" = some t → t ≠ 0 :=
    fun t h h0 => hnz "tau_inc" (by simp) (by rw [h, h0])
  have n5 : ∀ t, tools.rebx_get_param_double p "tau_omega" = some t → t ≠ 0 :=
    fun t h h0 => hnz "tau_omega" (by simp) (by rw [h, h0])
  have n6 : ∀ t, tools.rebx_get_param_double p "tau_Omega" = some t → t ≠ 0 :=
    fun t h h0 => hnz "tau_Omega" (by simp) (by rw [h, h0])
  rcases h1 : tools.rebx_get_param_double p "tau_a" with _ | t1 <;>
    rcases h2 : tools.rebx_get_param_double p "tau_e" with _ | t2 <;>
    rcases h3 : tools.rebx_get_param_double p "p" with _ | t3 <;>
    rcases h4 : tools.rebx_get_param_double p "tau_inc" with _ | t4 <;>
    rcases h5 : tools.rebx_get_param_double p "tau_omega" with _ | t5 <;>
    rcases h6 : tools.rebx_get_param_double p "tau_Omega" with _ | t6 <;>
    simp only [rebx_modified_orbit_double, rebx_modified_orbit, reb_orbit.to_double,
      h1, h2, h3, h4, h5, h6, double_add, double_mul] <;>
    (try rw [double_div_of_ne _ t1 (n1 t1 h1)]) <;>
    (try rw [double_div_of_ne _ t2 (n2 t2 h2)]) <;>
    (try rw [double_div_of_ne _ t2 (n2 t2 h2)]) <;>
    (try rw [double_div_of_ne _ t4 (n4 t4 h4)]) <;>
    (try rw [double_div_of_ne _ t5 (n5 t5 h5)]) <;>
    (try rw [double_div_of_ne _ t6 (n6 t6 h6)])

/-- C23, counterexample: a particle with semi-major axis 500 and eccentricity
1/10 whose parameters are `tau_e = 0` and `p = 0`, after a timestep of 2, next
to the same particle with `p` unset.  The orbit is valid.  With `p = 0` the
coupling term is `2 * 500 * (1/10) * (1/10) * 0 * 2 / 0`, the quotient of 0 by
0, and the semi-major axis handed to the conversion is no finite number; with
`p` unset it is 500.  In both `tau_e` is 0 and `tau_a` is unset. -/
theorem p_zero_tau_e_zero_differs :
    (plain_tools tau_e_zero_p_zero).reb_tools_particle_to_orbit_err sim_dt2.G planet star
        = (planet_orbit, 0)
    ∧ (plain_tools tau_e_zero).reb_tools_particle_to_orbit_err sim_dt2.G planet star
        = (planet_orbit, 0)
    ∧ (plain_tools tau_e_zero_p_zero).rebx_get_param_double planet "p" = some 0
    ∧ (plain_tools tau_e_zero).rebx_get_param_double planet "p" = none
    ∧ (plain_tools tau_e_zero_p_zero).rebx_get_param_double planet "tau_e" = some 0
    ∧ (plain_tools tau_e_zero).rebx_get_param_double planet "tau_e" = some 0
    ∧ (plain_tools tau_e_zero_p_zero).rebx_get_param_double planet "tau_a" = none
    ∧ (plain_tools tau_e_zero).rebx_get_param_double planet "tau_a" = none
    ∧ double_div (2 * planet_orbit.a * planet_orbit.e * planet_orbit.e * 0
        * sim_dt2.dt_last_done) 0 = none
    ∧ (rebx_modified_orbit_double (plain_tools tau_e_zero_p_zero) sim_dt2 planet
        planet_orbit).a = none
    ∧ (rebx_modified_orbit_double (plain_tools tau_e_zero) sim_dt2 planet planet_orbit).a
        = some 500
    ∧ (rebx_modified_orbit_double (plain_tools tau_e_zero_p_zero) sim_dt2 planet
        planet_orbit).a
      ≠ (rebx_modified_orbit_double (plain_tools tau_e_zero) sim_dt2 planet planet_orbit).a := by
  have hconv0 : (plain_tools tau_e_zero_p_zero).reb_tools_particle_to_orbit_err sim_dt2.G
      planet star = (planet_orbit, 0) := by
    simp [plain_tools, planet, star, planet_orbit]
  have hconv1 : (plain_tools tau_e_zero).reb_tools_particle_to_orbit_err sim_dt2.G
      planet star = (planet_orbit, 0) := by
    simp [plain_tools, planet, star, planet_orbit]
  have ha0 : (rebx_modified_orbit_double (plain_tools tau_e_zero_p_zero) sim_dt2 planet
      planet_orbit).a = none := by
    have h1 : (plain_tools tau_e_zero_p_zero).rebx_get_param_double planet "tau_a" = none := rfl
    have h2 : (plain_tools tau_e_zero_p_zero).rebx_get_param_double planet "tau_e" = some 0 :=
      rfl
    have h3 : (plain_tools tau_e_zero_p_zero).rebx_get_param_double planet "p" = some 0 := rfl
    have h4 : (plain_tools tau_e_zero_p_zero).rebx_get_param_double planet "tau_inc" = none :=
      rfl
    have h5 : (plain_tools tau_e_zero_p_zero).rebx_get_param_double planet "tau_omega" = none :=
      rfl
    have h6 : (plain_tools tau_e_zero_p_zero).rebx_get_param_double planet "tau_Omega" = none :=
      rfl
    simp only [rebx_modified_orbit_double, reb_orbit.to_double, h1, h2, h3, h4, h5, h6]
    simp [double_div, double_add]
  have ha1 : (rebx_modified_orbit_double (plain_tools tau_e_zero) sim_dt2 planet
      planet_orbit).a = some 500 :=
    rebx_modified_orbit_double_a_unset (plain_tools tau_e_zero) sim_dt2 planet planet_orbit
      rfl (Or.inr rfl)
  refine ⟨hconv0, hconv1, rfl, rfl, rfl, rfl, rfl, rfl, by simp [double_div], ha0, ha1, ?_⟩
  rw [ha0, ha1]
  simp

/-- C23: for a particle with a valid orbit `o`, the elements handed to
`reb_tools_orbit_to_particle` are those of `rebx_modified_orbit`, and each
differs from the element of `o` only when its timescale is set: the semi-major
axis is that of `o` when `tau_a` is unset and `tau_e` or `p` is unset, the
eccentricity when `tau_e` is unset, the inclination when `tau_inc` is unset,
`omega` when `tau_omega` is unset, `Omega` when `tau_Omega` is unset, and the
true anomaly always; with the five timescales unset the orbit is `o`.  The
same holds of the elements as doubles, where a quotient by 0 is no finite
number, and they are the elements of `rebx_modified_orbit` when no timescale
is set to 0.  When `tau_e` is unset or not 0, the semi-major axis as a double
is the same with `p` set to 0 and with `p` unset: that of `o`, changed by the
term of `tau_a` alone. -/
theorem unset_parameters_ignored (tools : modify_orbits_tools) (sim : reb_simulation)
    (effect : Option Addr) (p primary : reb_particle) (o : reb_orbit)
    (hconv : tools.reb_tools_particle_to_orbit_err sim.G p primary = (o, 0)) :
    rebx_calculate_modify_orbits_direct tools sim effect p primary
      = tools.reb_tools_orbit_to_particle sim.G primary p.m
          (rebx_modified_orbit tools sim p o).a (rebx_modified_orbit tools sim p o).e
          (rebx_modified_orbit tools sim p o).inc (rebx_modified_orbit tools sim p o).Omega
          (rebx_modified_orbit tools sim p o).omega (rebx_modified_orbit tools sim p o).f
    ∧ (tools.rebx_get_param_double p "tau_a" = none →
        (tools.rebx_get_param_double p "tau_e" = none
          ∨ tools.rebx_get_param_double p "p" = none) →
        (rebx_modified_orbit tools sim p o).a = o.a)
    ∧ (tools.rebx_get_param_double p "tau_e" = none →
        (rebx_modified_orbit tools sim p o).e = o.e)
    ∧ (tools.rebx_get_param_double p "tau_inc" = none →
        (rebx_modified_orbit tools sim p o).inc = o.inc)
    ∧ (tools.rebx_get_param_double p "tau_omega" = none →
        (rebx_modified_orbit tools sim p o).omega = o.omega)
    ∧ (tools.rebx_get_param_double p "tau_Omega" = none →
        (rebx_modified_orbit tools sim p o).Omega = o.Omega)
    ∧ (rebx_modified_orbit tools sim p o).f = o.f
    ∧ (tools.rebx_get_param_double p "tau_a" = none →
        tools.rebx_get_param_double p "tau_e" = none →
        tools.rebx_get_param_double p "tau_inc" = none →
        tools.rebx_get_param_double p "tau_omega" = none →
        tools.rebx_get_param_double p "tau_Omega" = none →
        rebx_modified_orbit tools sim p o = o)
    ∧ (timescales_nonzero tools p →
        rebx_modified_orbit_double tools sim p o
          = (rebx_modified_orbit tools sim p o).to_double)
    ∧ (tools.rebx_get_param_double p "tau_a" = none →
        (tools.rebx_get_param_double p "tau_e" = none
          ∨ tools.rebx_get_param_double p "p" = none) →
        (rebx_modified_orbit_double tools sim p o).a = some o.a)
    ∧ (tools.rebx_get_param_double p "tau_e" = none →
        (rebx_modified_orbit_double tools sim p o).e = some o.e)
    ∧ (tools.rebx_get_param_double p "tau_inc" = none →
        (rebx_modified_orbit_double tools sim p o).inc = some o.inc)
    ∧ (tools.rebx_get_param_double p "tau_omega" = none →
        (rebx_modified_orbit_double tools sim p o).omega = some o.omega)
    ∧ (tools.rebx_get_param_double p "tau_Omega" = none →
        (rebx_modified_orbit_double tools sim p o).Omega = some o.Omega)
    ∧ (rebx_modified_orbit_double tools sim p o).f = some o.f
    ∧ ((tools.rebx_get_param_double p "p" = some 0
          ∨ tools.rebx_get_param_double p "p" = none) →
        tools.rebx_get_param_double p "tau_e" ≠ some 0 →
        (rebx_modified_orbit_double tools sim p o).a =
          match tools.rebx_get_param_double p "tau_a" with
          | some t =>
            double_add (some o.a) (double_mul (some o.a) (double_div sim.dt_last_done t))
          | none => some o.a) := by
  exact ⟨rebx_calculate_modify_orbits_direct_valid tools sim effect p primary o hconv,
    fun ha hep => rebx_modified_orbit_a_unset tools sim p o ha hep,
    fun he => rebx_modified_orbit_e_unset tools sim p o he,
    fun hinc => rebx_modified_orbit_inc_unset tools sim p o hinc,
    fun homega => rebx_modified_orbit_omega_unset tools sim p o homega,
    fun hOmega => rebx_modified_orbit_Omega_unset tools sim p o hOmega,
    rebx_modified_orbit_f tools sim p o,
    fun ha he hinc homega hOmega => by
      simp only [rebx_modified_orbit, ha, he, hinc, homega, hOmega],
    fun hnz => rebx_modified_orbit_double_agrees tools sim p o hnz,
    fun ha hep => rebx_modified_orbit_double_a_unset tools sim p o ha hep,
    fun he => rebx_modified_orbit_double_e_unset tools sim p o he,
    fun hinc => rebx_modified_orbit_double_inc_unset tools sim p o hinc,
    fun homega => rebx_modified_orbit_double_omega_unset tools sim p o homega,
    fun hOmega => rebx_modified_orbit_double_Omega_unset tools sim p o hOmega,
    rebx_modified_orbit_double_f tools sim p o,
    fun hp he => rebx_modified_orbit_double_p_zero tools sim p o hp he⟩

/-- C23, witness: a particle with `tau_a = -1000`, `tau_e = -100` and `p = 0`
after a timestep of 2, where the semi-major axis as a double is 499, as it is
for the same particle with `p` unset; and a particle without parameters, whose
orbit is handed on as it is. -/
theorem unset_parameters_ignored_witness :
    (plain_tools damping_p_zero).reb_tools_particle_to_orbit_err sim_dt2.G planet star
        = (planet_orbit, 0)
    ∧ (rebx_calculate_modify_orbits_direct (plain_tools damping_p_zero) sim_dt2 none planet star
        = (plain_tools damping_p_zero).reb_tools_orbit_to_particle sim_dt2.G star planet.m
            (rebx_modified_orbit (plain_tools damping_p_zero) sim_dt2 planet planet_orbit).a
                (rebx_modified_orbit (plain_tools damping_p_zero) sim_dt2 planet planet_orbit).e
            (rebx_modified_orbit (plain_tools damping_p_zero) sim_dt2 planet planet_orbit).inc
                (rebx_modified_orbit (plain_tools damping_p_zero) sim_dt2 planet planet_orbit).Omega
            (rebx_modified_orbit (plain_tools damping_p_zero) sim_dt2 planet planet_orbit).omega
                (rebx_modified_orbit (plain_tools damping_p_zero) sim_dt2 planet planet_orbit).f
      ∧ ((plain_tools damping_p_zero).rebx_get_param_double planet "tau_a" = none →
          ((plain_tools damping_p_zero).rebx_get_param_double planet "tau_e" = none
            ∨ (plain_tools damping_p_zero).rebx_get_param_double planet "p" = none) →
          (rebx_modified_orbit (plain_tools damping_p_zero) sim_dt2 planet planet_orbit).a =
              planet_orbit.a)
      ∧ ((plain_tools damping_p_zero).rebx_get_param_double planet "tau_e" = none →
          (rebx_modified_orbit (plain_tools damping_p_zero) sim_dt2 planet planet_orbit).e =
              planet_orbit.e)
      ∧ ((plain_tools damping_p_zero).rebx_get_param_double planet "tau_inc" = none →
          (rebx_modified_orbit (plain_tools damping_p_zero) sim_dt2 planet planet_orbit).inc =
              planet_orbit.inc)
      ∧ ((plain_tools damping_p_zero).rebx_get_param_double planet "tau_omega" = none →
          (rebx_modified_orbit (plain_tools damping_p_zero) sim_dt2 planet planet_orbit).omega =
              planet_orbit.omega)
      ∧ ((plain_tools damping_p_zero).rebx_get_param_double planet "tau_Omega" = none →
          (rebx_modified_orbit (plain_tools damping_p_zero) sim_dt2 planet planet_orbit).Omega =
              planet_orbit.Omega)
      ∧ (rebx_modified_orbit (plain_tools damping_p_zero) sim_dt2 planet planet_orbit).f =
          planet_orbit.f
      ∧ ((plain_tools damping_p_zero).rebx_get_param_double planet "tau_a" = none →
          (plain_tools damping_p_zero).rebx_get_param_double planet "tau_e" = none →
          (plain_tools damping_p_zero).rebx_get_param_double planet "tau_inc" = none →
          (plain_tools damping_p_zero).rebx_get_param_double planet "tau_omega" = none →
          (plain_tools damping_p_zero).rebx_get_param_double planet "tau_Omega" = none →
          rebx_modified_orbit (plain_tools damping_p_zero) sim_dt2 planet planet_orbit =
              planet_orbit)
      ∧ (timescales_nonzero (plain_tools damping_p_zero) planet →
          rebx_modified_orbit_double (plain_tools damping_p_zero) sim_dt2 planet planet_orbit
            = (rebx_modified_orbit (plain_tools damping_p_zero) sim_dt2 planet
                planet_orbit).to_double)
      ∧ ((plain_tools damping_p_zero).rebx_get_param_double planet "tau_a" = none →
          ((plain_tools damping_p_zero).rebx_get_param_double planet "tau_e" = none
            ∨ (plain_tools damping_p_zero).rebx_get_param_double planet "p" = none) →
          (rebx_modified_orbit_double (plain_tools damping_p_zero) sim_dt2 planet planet_orbit).a =
              some planet_orbit.a)
      ∧ ((plain_tools damping_p_zero).rebx_get_param_double planet "tau_e" = none →
          (rebx_modified_orbit_double (plain_tools damping_p_zero) sim_dt2 planet planet_orbit).e =
              some planet_orbit.e)
      ∧ ((plain_tools damping_p_zero).rebx_get_param_double planet "tau_inc" = none →
          (rebx_modified_orbit_double (plain_tools damping_p_zero) sim_dt2 planet planet_orbit).inc
              = some planet_orbit.inc)
      ∧ ((plain_tools damping_p_zero).rebx_get_param_double planet "tau_omega" = none →
          (rebx_modified_orbit_double (plain_tools damping_p_zero) sim_dt2 planet
              planet_orbit).omega = some planet_orbit.omega)
      ∧ ((plain_tools damping_p_zero).rebx_get_param_double planet "tau_Omega" = none →
          (rebx_modified_orbit_double (plain_tools damping_p_zero) sim_dt2 planet
              planet_orbit).Omega = some planet_orbit.Omega)
      ∧ (rebx_modified_orbit_double (plain_tools damping_p_zero) sim_dt2 planet planet_orbit).f =
          some planet_orbit.f
      ∧ (((plain_tools damping_p_zero).rebx_get_param_double planet "p" = some 0
            ∨ (plain_tools damping_p_zero).rebx_get_param_double planet "p" = none) →
          (plain_tools damping_p_zero).rebx_get_param_double planet "tau_e" ≠ some 0 →
          (rebx_modified_orbit_double (plain_tools damping_p_zero) sim_dt2 planet planet_orbit).a =
            match (plain_tools damping_p_zero).rebx_get_param_double planet "tau_a" with
            | some t =>
              double_add (some planet_orbit.a) (double_mul (some planet_orbit.a) (double_div
                  sim_dt2.dt_last_done t))
            | none => some planet_orbit.a))
    ∧ (rebx_modified_orbit_double (plain_tools damping_p_zero) sim_dt2 planet planet_orbit).a
        = some 499
    ∧ (rebx_modified_orbit_double (plain_tools damping_p_unset) sim_dt2 planet planet_orbit).a
        = some 499
    ∧ rebx_modified_orbit_double (plain_tools no_params) sim_dt2 planet planet_orbit
        = planet_orbit.to_double
    ∧ rebx_modified_orbit (plain_tools no_params) sim_dt2 planet planet_orbit = planet_orbit :=
  have hconv : ∀ params, (plain_tools params).reb_tools_particle_to_orbit_err sim_dt2.G
      planet star = (planet_orbit, 0) := by
    intro params
    simp [plain_tools, planet, star, planet_orbit]
  have hterm : double_add (some planet_orbit.a)
      (double_mul (some planet_orbit.a) (double_div sim_dt2.dt_last_done (-1000)))
      = some 499 := by
    norm_num [double_add, double_mul, double_div, planet_orbit, sim_dt2]
  have hne : (some (-100) : Option ℚ) ≠ some 0 := by norm_num
  ⟨hconv damping_p_zero,
    unset_parameters_ignored (plain_tools damping_p_zero) sim_dt2 none planet star
      planet_orbit (hconv damping_p_zero),
    ((unset_parameters_ignored (plain_tools damping_p_zero) sim_dt2 none planet star
      planet_orbit (hconv damping_p_zero)).2.2.2.2.2.2.2.2.2.2.2.2.2.2.2
        (Or.inl rfl) hne).trans hterm,
    ((unset_parameters_ignored (plain_tools damping_p_unset) sim_dt2 none planet star
      planet_orbit (hconv damping_p_unset)).2.2.2.2.2.2.2.2.2.2.2.2.2.2.2
        (Or.inr rfl) hne).trans hterm,
    ((unset_parameters_ignored (plain_tools no_params) sim_dt2 none planet star
      planet_orbit (hconv no_params)).2.2.2.2.2.2.2.2.1
        (by intro name _; simp [plain_tools, no_params])).trans
      (congrArg reb_orbit.to_double
        ((unset_parameters_ignored (plain_tools no_params) sim_dt2 none planet star
          planet_orbit (hconv no_params)).2.2.2.2.2.2.2.1 rfl rfl rfl rfl rfl)),
    (unset_parameters_ignored (plain_tools no_params) sim_dt2 none planet star
      planet_orbit (hconv no_params)).2.2.2.2.2.2.2.1 rfl rfl rfl rfl rfl⟩

/-- C28: when `reb_tools_particle_to_orbit_err` reports an error,
`rebx_calculate_modify_orbits_direct` returns the particle it was given, equal
in every field, whatever the parameters of the particle are. -/
theorem conversion_error_returns_particle (tools : modify_orbits_tools)
    (sim : reb_simulation) (effect : Option Addr) (p primary : reb_particle)
    (herr : (tools.reb_tools_particle_to_orbit_err sim.G p primary).2 ≠ 0) :
    rebx_calculate_modify_orbits_direct tools sim effect p primary = p := by
  unfold rebx_calculate_modify_orbits_direct
  rcases hc : tools.reb_tools_particle_to_orbit_err sim.G p primary with ⟨o, err⟩
  rw [hc] at herr
  simp only [] at herr ⊢
  rw [if_pos herr]

/-- C28, witness: a primary without mass, and a particle with `tau_a` set. -/
theorem conversion_error_returns_particle_witness :
    ((plain_tools tau_a_only).reb_tools_particle_to_orbit_err sim_dt2.G planet
        massless_star).2 ≠ 0
    ∧ rebx_calculate_modify_orbits_direct (plain_tools tau_a_only) sim_dt2 none planet
        massless_star = planet :=
  have herr : ((plain_tools tau_a_only).reb_tools_particle_to_orbit_err sim_dt2.G planet
      massless_star).2 ≠ 0 := by
    simp [plain_tools, massless_star]
  ⟨herr, conversion_error_returns_particle (plain_tools tau_a_only) sim_dt2 none planet
    massless_star herr⟩

/-! ## Mass interpolation (`stellar_evo.c`) -/

theorem rebx_stellar_evo_particle_other (tools : stellar_evo_tools) (dt : ℚ)
    (s : World × List reb_particle) (j i : Nat) (hij : i ≠ j) :
    (rebx_stellar_evo_particle tools dt s j).2[i]? = s.2[i]? := by
  unfold rebx_stellar_evo_particle
  rcases hp : s.2[j]? with _ | p
  · rfl
  · simp only []
    rcases tools.rebx_get_param s.1 p.ap "mass_n" with _ | n
    · rfl
    · rcases tools.rebx_get_param s.1 p.ap "mass_age" with _ | x <;>
        rcases tools.rebx_get_param s.1 p.ap "mass_val" with _ | y <;>
        rcases tools.rebx_get_param s.1 p.ap "mass_2val" with _ | y2 <;>
        first
        | rfl
        | (simp only []
           exact List.getElem?_set_ne (fun h => hij h.symm))

theorem rebx_stellar_evo_loop_later (tools : stellar_evo_tools) (dt : ℚ)
    (s : World × List reb_particle) (i : Nat) :
    ∀ k, k ≤ i → (rebx_stellar_evo_loop tools dt s k).2[i]? = s.2[i]? := by
  intro k
  induction k with
  | zero => intro _; rfl
  | succ k ih =>
    intro hk
    show (rebx_stellar_evo_particle tools dt (rebx_stellar_evo_loop tools dt s k) k).2[i]? = _
    rw [rebx_stellar_evo_particle_other tools dt _ k i (by omega)]
    exact ih (by omega)

theorem rebx_stellar_evo_loop_earlier (tools : stellar_evo_tools) (dt : ℚ)
    (s : World × List reb_particle) (i : Nat) :
    ∀ k, i < k → (rebx_stellar_evo_loop tools dt s k).2[i]?
      = (rebx_stellar_evo_particle tools dt (rebx_stellar_evo_loop tools dt s i) i).2[i]? := by
  intro k
  induction k with
  | zero => intro h; omega
  | succ k ih =>
    intro hk
    by_cases hik : i = k
    · subst hik; rfl
    · show (rebx_stellar_evo_particle tools dt (rebx_stellar_evo_loop tools dt s k) k).2[i]? = _
      rw [rebx_stellar_evo_particle_other tools dt _ k i hik]
      exact ih (by omega)

theorem rebx_stellar_evo_particle_unset (tools : stellar_evo_tools) (dt : ℚ)
    (s : World × List reb_particle) (j : Nat) (p : reb_particle) (hp : s.2[j]? = some p)
    (hun : tools.rebx_get_param s.1 p.ap "mass_n" = none
      ∨ tools.rebx_get_param s.1 p.ap "mass_age" = none
      ∨ tools.rebx_get_param s.1 p.ap "mass_val" = none
      ∨ tools.rebx_get_param s.1 p.ap "mass_2val" = none) :
    (rebx_stellar_evo_particle tools dt s j).2 = s.2 := by
  unfold rebx_stellar_evo_particle
  simp only [hp]
  rcases hn : tools.rebx_get_param s.1 p.ap "mass_n" with _ | n
  · rfl
  · rcases hx : tools.rebx_get_param s.1 p.ap "mass_age" with _ | x <;>
      rcases hy : tools.rebx_get_param s.1 p.ap "mass_val" with _ | y <;>
      rcases hy2 : tools.rebx_get_param s.1 p.ap "mass_2val" with _ | y2 <;>
      first
      | rfl
      | (exfalso
         rw [hn, hx, hy, hy2] at hun
         simp at hun)

theorem rebx_stellar_evo_particle_set (tools : stellar_evo_tools) (dt : ℚ)
    (s : World × List reb_particle) (j : Nat) (p : reb_particle) (n x y y2 : Addr)
    (hp : s.2[j]? = some p)
    (hn : tools.rebx_get_param s.1 p.ap "mass_n" = some n)
    (hx : tools.rebx_get_param s.1 p.ap "mass_age" = some x)
    (hy : tools.rebx_get_param s.1 p.ap "mass_val" = some y)
    (hy2 : tools.rebx_get_param s.1 p.ap "mass_2val" = some y2) :
    ((rebx_stellar_evo_particle tools dt s j).2[j]?).map (fun q => q.m)
      = some (tools.rebx_splint
          (rebx_stellar_evo_klo (rebx_stellar_evo_spline tools s.1 p.ap n x y y2).1
            (tools.rebx_get_param s.1 p.ap "mass_klo")).2 x y y2
          ((rebx_stellar_evo_klo (rebx_stellar_evo_spline tools s.1 p.ap n x y y2).1
            (tools.rebx_get_param s.1 p.ap "mass_klo")).2.sim.t + dt)
          (rebx_stellar_evo_klo (rebx_stellar_evo_spline tools s.1 p.ap n x y y2).1
            (tools.rebx_get_param s.1 p.ap "mass_klo")).1).1 := by
  have hlt : j < s.2.length := by
    by_contra hge
    rw [List.getElem?_eq_none (by omega)] at hp
    cases hp
  unfold rebx_stellar_evo_particle
  simp only [hp, hn, hx, hy, hy2]
  rw [List.getElem?_set_self hlt]
  rfl

theorem move_to_com_mass (tools : stellar_evo_tools)
    (hmove : ∀ (w1 : World) (ps1 : List reb_particle),
      ((tools.reb_move_to_com w1 ps1).2).map (fun q => q.m) = ps1.map (fun q => q.m))
    (w1 : World) (ps1 : List reb_particle) (j : Nat) :
    ((tools.reb_move_to_com w1 ps1).2[j]?).map (fun q => q.m)
      = (ps1[j]?).map (fun q => q.m) := by
  have h := congrArg (fun l => l[j]?) (hmove w1 ps1)
  simpa [List.getElem?_map] using h

theorem load_sim (w : World) (a : Addr) : (load w a).2.sim = w.sim := by
  unfold load
  rcases w.heap[a]? with _ | c
  · rfl
  · by_cases hl : c.live = true <;> simp [hl, World.fault]

theorem load_int_sim (w : World) (a : Addr) : (load_int w a).2.sim = w.sim := by
  have h := load_sim w a
  unfold load_int
  rcases hl : load w a with ⟨b, w1⟩
  rw [hl] at h
  rcases b with _ | b
  · exact h
  · cases b with
    | value v => cases v <;> exact h
    | _ => exact h

theorem rebx_stellar_evo_spline_world (tools : stellar_evo_tools) (w : World)
    (ap : List rebx_node) (n x y y2 : Addr) (nv : Int) (w1 wb : World)
    (hload : load_int w n = (nv, w1))
    (hnew : tools.rebx_get_param w ap "mass_splined" = none →
      wb = (tools.rebx_set_param_int (tools.rebx_spline w1 x y nv y2) ap "mass_splined" 1).2)
    (hold : tools.rebx_get_param w ap "mass_splined" ≠ none → wb = w) :
    (rebx_stellar_evo_spline tools w ap n x y y2).1 = wb := by
  unfold rebx_stellar_evo_spline
  rcases hs : tools.rebx_get_param w ap "mass_splined" with _ | s
  · simp only [hload]
    exact (hnew hs).symm
  · exact (hold (by rw [hs]; simp)).symm

theorem rebx_stellar_evo_klo_value (tools : stellar_evo_tools) (w wb : World)
    (ap : List rebx_node) (klo : Int) (wk : World)
    (hnone : tools.rebx_get_param w ap "mass_klo" = none → (klo, wk) = (0, wb))
    (hsome : ∀ k, tools.rebx_get_param w ap "mass_klo" = some k → (klo, wk) = load_int wb k) :
    rebx_stellar_evo_klo wb (tools.rebx_get_param w ap "mass_klo") = (klo, wk) := by
  rcases hk : tools.rebx_get_param w ap "mass_klo" with _ | k
  · exact (hnone hk).symm
  · exact (hsome k hk).symm

theorem rebx_stellar_evo_spline_time (tools : stellar_evo_tools)
    (hspline : ∀ (w0 : World) (x y : Addr) (nv : Int) (y2 : Addr),
      (tools.rebx_spline w0 x y nv y2).sim.t = w0.sim.t)
    (hset : ∀ (w0 : World) (ap : List rebx_node) (name : String) (v : Int),
      (tools.rebx_set_param_int w0 ap name v).2.sim.t = w0.sim.t)
    (w : World) (ap : List rebx_node) (n x y y2 : Addr) :
    (rebx_stellar_evo_spline tools w ap n x y y2).1.sim.t = w.sim.t := by
  unfold rebx_stellar_evo_spline
  rcases tools.rebx_get_param w ap "mass_splined" with _ | s
  · simp only []
    rw [hset, hspline, load_int_sim]
  · rfl

theorem rebx_stellar_evo_klo_time (w : World) (kptr : Option Addr) :
    (rebx_stellar_evo_klo w kptr).2.sim.t = w.sim.t := by
  rcases kptr with _ | k
  · rfl
  · show (load_int w k).2.sim.t = w.sim.t
    rw [load_int_sim]

theorem rebx_stellar_evo_particle_time (tools : stellar_evo_tools)
    (hspline : ∀ (w0 : World) (x y : Addr) (nv : Int) (y2 : Addr),
      (tools.rebx_spline w0 x y nv y2).sim.t = w0.sim.t)
    (hset : ∀ (w0 : World) (ap : List rebx_node) (name : String) (v : Int),
      (tools.rebx_set_param_int w0 ap name v).2.sim.t = w0.sim.t)
    (herror : ∀ (w0 : World) (msg : String), (tools.rebx_error w0 msg).sim.t = w0.sim.t)
    (dt : ℚ) (s : World × List reb_particle) (j : Nat) :
    (rebx_stellar_evo_particle tools dt s j).1.sim.t = s.1.sim.t := by
  unfold rebx_stellar_evo_particle
  rcases hp : s.2[j]? with _ | p
  · rfl
  · simp only []
    rcases tools.rebx_get_param s.1 p.ap "mass_n" with _ | n
    · rfl
    · rcases tools.rebx_get_param s.1 p.ap "mass_age" with _ | x <;>
        rcases tools.rebx_get_param s.1 p.ap "mass_val" with _ | y <;>
        rcases tools.rebx_get_param s.1 p.ap "mass_2val" with _ | y2 <;>
        first
        | exact herror _ _
        | (simp only []
           rw [hset, rebx_stellar_evo_klo_time,
             rebx_stellar_evo_spline_time tools hspline hset])

theorem rebx_stellar_evo_loop_time (tools : stellar_evo_tools)
    (hspline : ∀ (w0 : World) (x y : Addr) (nv : Int) (y2 : Addr),
      (tools.rebx_spline w0 x y nv y2).sim.t = w0.sim.t)
    (hset : ∀ (w0 : World) (ap : List rebx_node) (name : String) (v : Int),
      (tools.rebx_set_param_int w0 ap name v).2.sim.t = w0.sim.t)
    (herror : ∀ (w0 : World) (msg : String), (tools.rebx_error w0 msg).sim.t = w0.sim.t)
    (dt : ℚ) (s : World × List reb_particle) (k : Nat) :
    (rebx_stellar_evo_loop tools dt s k).1.sim.t = s.1.sim.t := by
  induction k with
  | zero => rfl
  | succ k ih =>
    show (rebx_stellar_evo_particle tools dt (rebx_stellar_evo_loop tools dt s k) k).1.sim.t = _
    rw [rebx_stellar_evo_particle_time tools hspline hset herror, ih]

/-- C22: `rebx_stellar_evo` runs on the particles `ps`, and `p` is the particle
of index `j`; `reb_move_to_com` of the host leaves every mass as it is.  When
`j` is at or beyond `N - N_var`, the mass of the particle after the call is the
mass of `p`.  When `j` is below `N - N_var` and, as the loop reaches the
particle, one of `mass_n`, `mass_age`, `mass_val`, `mass_2val` is not set, the
mass after the call is the mass of `p`.  When the four are set, with values
`n`, `x`, `y` and `y2`, the mass after the call is the value of
`rebx_splint(rebx, x, y, y2, sim->t + dt, &klo)` in the state `wk`, where: `nv`
is the integer read at `n`; `wb` is the state after `rebx_spline(x, y, nv, y2)`
and `rebx_set_param_int(rebx, &ap, "mass_splined", 1)` when `mass_splined` was
not set, and the state the loop reached when it was; `klo` is 0 when
`mass_klo` was not set, and the integer read at its value in `wb` when it was,
`wk` being `wb` after that read.  When `rebx_spline`, `rebx_set_param_int` and
`rebx_error` leave the time of the host as it is, the time `sim->t` of that
call is the time of the host at the call of `rebx_stellar_evo`. -/
theorem rebx_stellar_evo_masses (tools : stellar_evo_tools) (w : World)
    (ps : List reb_particle) (operator : Option Addr) (dt : ℚ) (j : Nat) (p : reb_particle)
    (hmove : ∀ (w1 : World) (ps1 : List reb_particle),
      ((tools.reb_move_to_com w1 ps1).2).map (fun q => q.m) = ps1.map (fun q => q.m))
    (hp : ps[j]? = some p) :
    (w.sim.N - w.sim.N_var ≤ (j : Int) → mass_after tools w ps operator dt j = some p.m)
    ∧ ((j : Int) < w.sim.N - w.sim.N_var →
        (tools.rebx_get_param (stellar_evo_reached tools dt w ps j) p.ap "mass_n" = none
          ∨ tools.rebx_get_param (stellar_evo_reached tools dt w ps j) p.ap "mass_age" = none
          ∨ tools.rebx_get_param (stellar_evo_reached tools dt w ps j) p.ap "mass_val" = none
          ∨ tools.rebx_get_param (stellar_evo_reached tools dt w ps j) p.ap "mass_2val"
              = none) →
        mass_after tools w ps operator dt j = some p.m)
    ∧ ((j : Int) < w.sim.N - w.sim.N_var →
        ∀ (n x y y2 : Addr) (nv : Int) (w1 wb : World) (klo : Int) (wk : World),
        tools.rebx_get_param (stellar_evo_reached tools dt w ps j) p.ap "mass_n" = some n →
        tools.rebx_get_param (stellar_evo_reached tools dt w ps j) p.ap "mass_age" = some x →
        tools.rebx_get_param (stellar_evo_reached tools dt w ps j) p.ap "mass_val" = some y →
        tools.rebx_get_param (stellar_evo_reached tools dt w ps j) p.ap "mass_2val"
            = some y2 →
        load_int (stellar_evo_reached tools dt w ps j) n = (nv, w1) →
        (tools.rebx_get_param (stellar_evo_reached tools dt w ps j) p.ap "mass_splined"
            = none →
          wb = (tools.rebx_set_param_int (tools.rebx_spline w1 x y nv y2) p.ap
            "mass_splined" 1).2) →
        (tools.rebx_get_param (stellar_evo_reached tools dt w ps j) p.ap "mass_splined"
            ≠ none →
          wb = stellar_evo_reached tools dt w ps j) →
        (tools.rebx_get_param (stellar_evo_reached tools dt w ps j) p.ap "mass_klo" = none →
          (klo, wk) = (0, wb)) →
        (∀ k, tools.rebx_get_param (stellar_evo_reached tools dt w ps j) p.ap "mass_klo"
            = some k →
          (klo, wk) = load_int wb k) →
        mass_after tools w ps operator dt j
            = some (tools.rebx_splint wk x y y2 (wk.sim.t + dt) klo).1
        ∧ ((∀ (w0 : World) (x0 y0 : Addr) (n0 : Int) (z0 : Addr),
              (tools.rebx_spline w0 x0 y0 n0 z0).sim.t = w0.sim.t) →
            (∀ (w0 : World) (ap0 : List rebx_node) (name : String) (v : Int),
              (tools.rebx_set_param_int w0 ap0 name v).2.sim.t = w0.sim.t) →
            (∀ (w0 : World) (msg : String), (tools.rebx_error w0 msg).sim.t = w0.sim.t) →
            mass_after tools w ps operator dt j
              = some (tools.rebx_splint wk x y y2 (w.sim.t + dt) klo).1)) := by
  have hfinal : mass_after tools w ps operator dt j
      = ((rebx_stellar_evo_loop tools dt (w, ps) (w.sim.N - w.sim.N_var).toNat).2[j]?).map
          (fun q => q.m) := by
    unfold mass_after rebx_stellar_evo
    exact move_to_com_mass tools hmove _ _ j
  have hreach : (rebx_stellar_evo_loop tools dt (w, ps) j).2[j]? = some p := by
    rw [rebx_stellar_evo_loop_later tools dt (w, ps) j j (Nat.le_refl _)]
    exact hp
  refine ⟨fun hge => ?_, fun hlt hun => ?_,
    fun hlt n x y y2 nv w1 wb klo wk hn hx hy hy2 hload hnew hold hnone hsome => ?_⟩
  · rw [hfinal, rebx_stellar_evo_loop_later tools dt (w, ps) j _ (by omega)]
    show (ps[j]?).map (fun q => q.m) = some p.m
    rw [hp]
    rfl
  · rw [hfinal, rebx_stellar_evo_loop_earlier tools dt (w, ps) j _ (by omega),
      rebx_stellar_evo_particle_unset tools dt _ j p hreach hun, hreach]
    rfl
  · have hb : (rebx_stellar_evo_spline tools (stellar_evo_reached tools dt w ps j) p.ap
        n x y y2).1 = wb :=
      rebx_stellar_evo_spline_world tools _ p.ap n x y y2 nv w1 wb hload hnew hold
    have hk : rebx_stellar_evo_klo wb
        (tools.rebx_get_param (stellar_evo_reached tools dt w ps j) p.ap "mass_klo")
        = (klo, wk) :=
      rebx_stellar_evo_klo_value tools _ wb p.ap klo wk hnone hsome
    have hmass : mass_after tools w ps operator dt j
        = some (tools.rebx_splint wk x y y2 (wk.sim.t + dt) klo).1 := by
      rw [hfinal, rebx_stellar_evo_loop_earlier tools dt (w, ps) j _ (by omega),
        rebx_stellar_evo_particle_set tools dt _ j p n x y y2 hreach hn hx hy hy2]
      unfold stellar_evo_reached at hb hk
      rw [hb, hk]
    refine ⟨hmass, fun hspline hset herror => ?_⟩
    have ht : wk.sim.t = w.sim.t := by
      have h1 := rebx_stellar_evo_klo_time wb
        (tools.rebx_get_param (stellar_evo_reached tools dt w ps j) p.ap "mass_klo")
      rw [hk] at h1
      have h2 := rebx_stellar_evo_spline_time tools hspline hset
        (stellar_evo_reached tools dt w ps j) p.ap n x y y2
      rw [hb] at h2
      have h3 := rebx_stellar_evo_loop_time tools hspline hset herror dt (w, ps) j
      unfold stellar_evo_reached at h2
      exact h1.trans (h2.trans h3)
    rw [hmass, ht]

/-- C22, witness: a host at time 5 with a star that has the four parameters,
a planet without parameters and a variational particle with the four
parameters, and `dt = 1`.  The mass of the star after the call is the value of
`rebx_splint` at the time 6, which for `plain_stellar_tools` is 6; the planet
keeps its mass 1 and the variational particle its mass 7. -/
theorem rebx_stellar_evo_masses_witness :
    (∀ (w1 : World) (ps1 : List reb_particle),
      ((plain_stellar_tools.reb_move_to_com w1 ps1).2).map (fun q => q.m)
        = ps1.map (fun q => q.m))
    ∧ evolving_particles[0]? = some evolving_star
    ∧ ((evolving_world.sim.N - evolving_world.sim.N_var ≤ ((0 : Nat) : Int) → mass_after
        plain_stellar_tools evolving_world evolving_particles none 1 0 = some evolving_star.m)
      ∧ (((0 : Nat) : Int) < evolving_world.sim.N - evolving_world.sim.N_var →
          (plain_stellar_tools.rebx_get_param (stellar_evo_reached plain_stellar_tools 1
              evolving_world evolving_particles 0) evolving_star.ap "mass_n" = none
            ∨ plain_stellar_tools.rebx_get_param (stellar_evo_reached plain_stellar_tools 1
                evolving_world evolving_particles 0) evolving_star.ap "mass_age" = none
            ∨ plain_stellar_tools.rebx_get_param (stellar_evo_reached plain_stellar_tools 1
                evolving_world evolving_particles 0) evolving_star.ap "mass_val" = none
            ∨ plain_stellar_tools.rebx_get_param (stellar_evo_reached plain_stellar_tools 1
                evolving_world evolving_particles 0) evolving_star.ap "mass_2val"
                = none) →
          mass_after plain_stellar_tools evolving_world evolving_particles none 1 0 = some
              evolving_star.m)
      ∧ (((0 : Nat) : Int) < evolving_world.sim.N - evolving_world.sim.N_var →
          ∀ (n x y y2 : Addr) (nv : Int) (w1 wb : World) (klo : Int) (wk : World),
          plain_stellar_tools.rebx_get_param (stellar_evo_reached plain_stellar_tools 1
              evolving_world evolving_particles 0) evolving_star.ap "mass_n" = some n →
          plain_stellar_tools.rebx_get_param (stellar_evo_reached plain_stellar_tools 1
              evolving_world evolving_particles 0) evolving_star.ap "mass_age" = some x →
          plain_stellar_tools.rebx_get_param (stellar_evo_reached plain_stellar_tools 1
              evolving_world evolving_particles 0) evolving_star.ap "mass_val" = some y →
          plain_stellar_tools.rebx_get_param (stellar_evo_reached plain_stellar_tools 1
              evolving_world evolving_particles 0) evolving_star.ap "mass_2val"
              = some y2 →
          load_int (stellar_evo_reached plain_stellar_tools 1 evolving_world evolving_particles 0)
              n = (nv, w1) →
          (plain_stellar_tools.rebx_get_param (stellar_evo_reached plain_stellar_tools 1
              evolving_world evolving_particles 0) evolving_star.ap "mass_splined"
              = none →
            wb = (plain_stellar_tools.rebx_set_param_int (plain_stellar_tools.rebx_spline w1 x y nv
                y2) evolving_star.ap
              "mass_splined" 1).2) →
          (plain_stellar_tools.rebx_get_param (stellar_evo_reached plain_stellar_tools 1
              evolving_world evolving_particles 0) evolving_star.ap "mass_splined"
              ≠ none →
            wb = stellar_evo_reached plain_stellar_tools 1 evolving_world evolving_particles 0) →
          (plain_stellar_tools.rebx_get_param (stellar_evo_reached plain_stellar_tools 1
              evolving_world evolving_particles 0) evolving_star.ap "mass_klo" = none →
            (klo, wk) = (0, wb)) →
          (∀ k, plain_stellar_tools.rebx_get_param (stellar_evo_reached plain_stellar_tools 1
              evolving_world evolving_particles 0) evolving_star.ap "mass_klo"
              = some k →
            (klo, wk) = load_int wb k) →
          mass_after plain_stellar_tools evolving_world evolving_particles none 1 0
              = some (plain_stellar_tools.rebx_splint wk x y y2 (wk.sim.t + 1) klo).1
          ∧ ((∀ (w0 : World) (x0 y0 : Addr) (n0 : Int) (z0 : Addr),
                (plain_stellar_tools.rebx_spline w0 x0 y0 n0 z0).sim.t = w0.sim.t) →
              (∀ (w0 : World) (ap0 : List rebx_node) (name : String) (v : Int),
                (plain_stellar_tools.rebx_set_param_int w0 ap0 name v).2.sim.t = w0.sim.t) →
              (∀ (w0 : World) (msg : String), (plain_stellar_tools.rebx_error w0 msg).sim.t =
                  w0.sim.t) →
              mass_after plain_stellar_tools evolving_world evolving_particles none 1 0
                = some (plain_stellar_tools.rebx_splint wk x y y2 (evolving_world.sim.t + 1)
                    klo).1)))
    ∧ plain_stellar_tools.rebx_get_param evolving_world evolving_star.ap "mass_n" = some 2
    ∧ plain_stellar_tools.rebx_get_param evolving_world evolving_star.ap "mass_age" = some 5
    ∧ plain_stellar_tools.rebx_get_param evolving_world evolving_star.ap "mass_val" = some 8
    ∧ plain_stellar_tools.rebx_get_param evolving_world evolving_star.ap "mass_2val" = some 11
    ∧ load_int evolving_world 2 = (3, evolving_world)
    ∧ mass_after plain_stellar_tools evolving_world evolving_particles none 1 0 = some 6
    ∧ evolving_particles[1]? = some planet
    ∧ mass_after plain_stellar_tools evolving_world evolving_particles none 1 1 = some 1
    ∧ evolving_particles[2]? = some variational_particle
    ∧ plain_stellar_tools.rebx_get_param evolving_world variational_particle.ap "mass_n"
        = some 2
    ∧ mass_after plain_stellar_tools evolving_world evolving_particles none 1 2 = some 7 :=
  have hmove : ∀ (w1 : World) (ps1 : List reb_particle),
      ((plain_stellar_tools.reb_move_to_com w1 ps1).2).map (fun q => q.m)
        = ps1.map (fun q => q.m) := fun _ _ => rfl
  have hn : plain_stellar_tools.rebx_get_param evolving_world evolving_star.ap "mass_n"
      = some 2 := by decide
  have hx : plain_stellar_tools.rebx_get_param evolving_world evolving_star.ap "mass_age"
      = some 5 := by decide
  have hy : plain_stellar_tools.rebx_get_param evolving_world evolving_star.ap "mass_val"
      = some 8 := by decide
  have hy2 : plain_stellar_tools.rebx_get_param evolving_world evolving_star.ap "mass_2val"
      = some 11 := by decide
  have hs : plain_stellar_tools.rebx_get_param evolving_world evolving_star.ap "mass_splined"
      = none := by decide
  have hk : plain_stellar_tools.rebx_get_param evolving_world evolving_star.ap "mass_klo"
      = none := by decide
  have hload : load_int evolving_world 2 = (3, evolving_world) := rfl
  have hstar : mass_after plain_stellar_tools evolving_world evolving_particles none 1 0
      = some 6 :=
    (((rebx_stellar_evo_masses plain_stellar_tools evolving_world evolving_particles none 1 0
      evolving_star hmove rfl).2.2 (by decide) 2 5 8 11 3 evolving_world evolving_world 0
      evolving_world hn hx hy hy2 hload (fun _ => rfl) (fun h => absurd hs h) (fun _ => rfl)
      (fun k h => Option.noConfusion (hk.symm.trans h))).2 (fun _ _ _ _ _ => rfl) (fun _ _ _ _ =>
          rfl)
      (fun _ _ => rfl)).trans (by norm_num [plain_stellar_tools, evolving_world])
  ⟨hmove, rfl,
    rebx_stellar_evo_masses plain_stellar_tools evolving_world evolving_particles none 1 0
      evolving_star hmove rfl,
    hn, hx, hy, hy2, hload, hstar, rfl,
    ((rebx_stellar_evo_masses plain_stellar_tools evolving_world evolving_particles none 1 1
      planet hmove rfl).2.1 (by decide) (Or.inl rfl)).trans (by norm_num [planet]),
    rfl, hn,
    ((rebx_stellar_evo_masses plain_stellar_tools evolving_world evolving_particles none 1 2
      variational_particle hmove rfl).1 (by decide)).trans (by norm_num [variational_particle])⟩


end Reboundx
